import Mathlib

/-!
Verification development for the ITR vs 3CD reconciliation tool (`app.py`).

The extraction / coercion core of the source (`DataEngine`) is shallowly
embedded here:

* Python scalar and container values reaching `DataEngine.to_f` and the JSON
  extractors are modelled by `PyVal`; `json.loads` output is abstracted as an
  `Option PyVal` (`Option.none` models a raising `json.loads`).
* XML element trees (`xml.etree.ElementTree`) are modelled by the mutual
  inductives `XNode` / `XForest`; `ET.fromstring` output is abstracted as an
  `Option XNode`.
* Python floats are modelled by `ℚ`.  Binary floating-point representation
  effects and the exotic corners of `float(str)` (exponents, `inf`/`nan`,
  underscore separators, non-ASCII digits) are outside the model; the decimal
  literal grammar (optional sign, digits, single point) is modelled exactly.
* Statements of the `try:` bodies are modelled as steps over the result
  record; a raised exception is an `Except.error` carrying the record as it
  stood when the exception was raised, and the `except` clause returns that
  record (`runAll`).
-/

unseal Rat.add Rat.mul Rat.inv Rat.ofScientific Rat.sub

deriving instance DecidableEq for Except

/-- Python values as they occur in parsed JSON documents and scalars passed
to `DataEngine.to_f` (`None`, numbers, strings, lists, dicts). -/
inductive PyVal where
  | pynull : PyVal
  | num (q : ℚ) : PyVal
  | str (s : String) : PyVal
  | list (xs : List PyVal) : PyVal
  | dict (fields : List (String × PyVal)) : PyVal

/-- Value of a digit character. -/
def natOfDigits (cs : List Char) : ℕ :=
  cs.foldl (fun n c => 10 * n + (c.toNat - 48)) 0

/-- All characters are decimal digits. -/
def allDigits (cs : List Char) : Bool :=
  cs.all Char.isDigit

/-- Decimal-literal part of Python `float(str)`: digits with at most one
point, at least one digit overall (`"1."` and `".5"` parse, `"."` does not). -/
def parseUnsignedDec (cs : List Char) : Option ℚ :=
  match cs.span (fun c => c ≠ '.') with
  | (ip, []) =>
      if ip ≠ [] && allDigits ip then some (natOfDigits ip) else Option.none
  | (ip, _ :: fp) =>
      if allDigits ip && allDigits fp && (ip ≠ [] || fp ≠ []) then
        some ((natOfDigits ip : ℚ) + (natOfDigits fp : ℚ) / (10 ^ fp.length : ℚ))
      else Option.none

/-- Optional sign in front of the decimal literal. -/
def parseSigned (cs : List Char) : Option ℚ :=
  match cs with
  | '-' :: rest => (parseUnsignedDec rest).map (fun q => -q)
  | '+' :: rest => parseUnsignedDec rest
  | _ => parseUnsignedDec cs

/-- Python `str.strip()`: drop whitespace from both ends. -/
def stripEnds (cs : List Char) : List Char :=
  ((cs.dropWhile Char.isWhitespace).reverse.dropWhile Char.isWhitespace).reverse

/-- `float(str(val).replace(",", "").strip())` for a string `val`
(`Option.none` models the `ValueError` of a failed parse). -/
def pyFloatOfString (s : String) : Option ℚ :=
  parseSigned (stripEnds (s.data.filter (fun c => c ≠ ',')))

/-- Rounding half to even at the integers (Python `round`'s tie rule). -/
def roundHalfEven (q : ℚ) : ℤ :=
  let f := ⌊q⌋
  let r := q - f
  if r < 1 / 2 then f
  else if 1 / 2 < r then f + 1
  else if f % 2 = 0 then f else f + 1

/-- `round(x, 2)`. -/
def round2 (q : ℚ) : ℚ :=
  (roundHalfEven (q * 100) : ℚ) / 100

/-- `DataEngine.to_f` (app.py lines 12-18): `None` gives `0.0`; an `int` or
`float` is returned by `float(val)` unchanged; anything else goes through
`str(val).replace(",", "").strip()` and `round(float(...), 2)`, with any
`ValueError`/`TypeError` giving `0.0`.  `str` of a list or dict never parses
as a float (it starts with a bracket or brace), so those give `0.0`. -/
def to_f : PyVal → ℚ
  | PyVal.pynull => 0
  | PyVal.num q => q
  | PyVal.str s =>
      match pyFloatOfString s with
      | some q => round2 q
      | Option.none => 0
  | PyVal.list _ => 0
  | PyVal.dict _ => 0

mutual
/-- An `xml.etree.ElementTree` element: tag, text, and child elements. -/
inductive XNode where
  | mk (tag : String) (text : Option String) (children : XForest) : XNode
/-- A list of sibling elements (mutual with `XNode` so that recursion over
the tree is structural, hence kernel-evaluable). -/
inductive XForest where
  | nil : XForest
  | cons (hd : XNode) (tl : XForest) : XForest
end

def XNode.tag : XNode → String
  | XNode.mk t _ _ => t

def XNode.text : XNode → Option String
  | XNode.mk _ x _ => x

def XNode.children : XNode → XForest
  | XNode.mk _ _ c => c

/-- Build a forest from a list of nodes. -/
def XForest.ofList : List XNode → XForest
  | [] => XForest.nil
  | n :: ns => XForest.cons n (XForest.ofList ns)

mutual
/-- `element.iter()`: the element itself followed by all descendants, in
document (depth-first, preorder) order. -/
def iterNodes : XNode → List XNode
  | XNode.mk t x cs => XNode.mk t x cs :: iterForest cs
def iterForest : XForest → List XNode
  | XForest.nil => []
  | XForest.cons n ns => iterNodes n ++ iterForest ns
end

/-- `el.tag.split("\x7d")[-1]`: the part of the tag after the last `}` (the
whole tag when it has no `}`). -/
def localTag (t : String) : String :=
  String.mk ((t.data.reverse.takeWhile (fun c => c ≠ '}')).reverse)

/-- `DataEngine.get_xml_text` (app.py lines 20-26): first node of
`element.iter()` whose tag, after stripping a `{namespace}` part, equals
`tag_name`; its text is returned (which may itself be `None`), and `None`
is returned when no node matches. -/
def get_xml_text (element : XNode) (tag_name : String) : Option String :=
  match (iterNodes element).find? (fun el => localTag el.tag == tag_name) with
  | some el => el.text
  | Option.none => Option.none

/-- `root.findall(".//{*}name")`: all proper descendants of `root` whose tag
matches `name` in any (or no) namespace, in document order. -/
def findallNS (root : XNode) (name : String) : List XNode :=
  (iterForest root.children).filter (fun el => localTag el.tag == name)

-- quick sanity checks of the scalar layer (kept as anonymous examples)
example : to_f (PyVal.str "1,000.50") = 1000.50 := by decide
example : to_f (PyVal.str "not-a-number") = 0 := by decide
example : to_f PyVal.pynull = 0 := by decide
example : to_f (PyVal.num (1239 / 1000)) = 1239 / 1000 := by decide
example : round2 (1239 / 1000) = 124 / 100 := by decide
example : localTag "{urn:x}Amount" = "Amount" := by decide
example : localTag "ns:Amount" = "ns:Amount" := by decide
example :
    get_xml_text (XNode.mk "{u}Amount" (some "5") XForest.nil) "Amount" = some "5" := by decide

/-! ### Python dynamic semantics used by the JSON branches

An exception is modelled as `Except.error ()`; the specific exception class
(`AttributeError`, `TypeError`, ...) is irrelevant to the source, whose
`except Exception` clauses catch them all. -/

/-- Python truthiness of the values of `PyVal`. -/
def truthy : PyVal → Bool
  | PyVal.pynull => false
  | PyVal.num q => q != 0
  | PyVal.str s => !s.data.isEmpty
  | PyVal.list xs => !xs.isEmpty
  | PyVal.dict fs => !fs.isEmpty

/-- First value bound to key `k` in a literal dict (JSON objects produced by
`json.loads` have unique keys, the later duplicate overwriting the earlier;
documents built in this file keep keys distinct). -/
def lookupD (fs : List (String × PyVal)) (k : String) : Option PyVal :=
  (fs.find? (fun p => p.1 == k)).map Prod.snd

/-- Method call `v.get(k, d)`: a dict looks the key up (returning the default
`d` when absent); any other receiver has no `.get` and raises. -/
def pyGet (v : PyVal) (k : String) (d : PyVal) : Except Unit PyVal :=
  match v with
  | PyVal.dict fs => Except.ok ((lookupD fs k).getD d)
  | _ => Except.error ()

/-- `for i in v`: lists yield their elements, dicts their keys, strings their
characters (as one-character strings); `None` and numbers are not iterable
and raise. -/
def pyIter : PyVal → Except Unit (List PyVal)
  | PyVal.list xs => Except.ok xs
  | PyVal.dict fs => Except.ok (fs.map (fun p => PyVal.str p.1))
  | PyVal.str s => Except.ok (s.data.map (fun c => PyVal.str (String.mk [c])))
  | _ => Except.error ()

/-- `a or b` on already-raising-aware operands: `b` (with its possible
exception) is only consulted when `a` evaluates and is falsy. -/
def pyOrE (a b : Except Unit PyVal) : Except Unit PyVal :=
  match a with
  | Except.error e => Except.error e
  | Except.ok va => if truthy va then Except.ok va else b

/-- `a or b` for the float results of `to_f` (`0.0` is falsy). -/
def orFloatE (a b : Except Unit ℚ) : Except Unit ℚ :=
  match a with
  | Except.error e => Except.error e
  | Except.ok qa => if qa == 0 then b else Except.ok qa

/-- Lexicographic order on code points, as Python compares strings. -/
def ltChars : List Char → List Char → Bool
  | [], [] => false
  | [], _ :: _ => true
  | _ :: _, [] => false
  | a :: as, b :: bs =>
      if a.toNat < b.toNat then true
      else if b.toNat < a.toNat then false
      else ltChars as bs

/-- `a < b` on Python strings. -/
def strLt (a b : String) : Bool := ltChars a.data b.data

/-- Python `a > b` for the values compared in this program: two strings
compare lexicographically by code point, two numbers numerically; the mixed
pairs that would arise from malformed documents raise `TypeError`.  (Python
also orders list/list pairs; those do not occur at the single comparison
site, `ActualDate > DueDate`.) -/
def pyGt : PyVal → PyVal → Except Unit Bool
  | PyVal.str x, PyVal.str y => Except.ok (strLt y x)
  | PyVal.num x, PyVal.num y => Except.ok (decide (y < x))
  | _, _ => Except.error ()

/-- Whether two characters-lists start with the pattern. -/
def startsWithChars : List Char → List Char → Bool
  | _, [] => true
  | [], _ :: _ => false
  | a :: as, b :: bs => a == b && startsWithChars as bs

/-- Substring test on character lists. -/
def hasSubChars (pat : List Char) : List Char → Bool
  | [] => startsWithChars [] pat
  | a :: as => startsWithChars (a :: as) pat || hasSubChars pat as

/-- `str.upper()` (the documents' field values are ASCII, where Python's
`upper` and `Char.toUpper` agree). -/
def strUpper (s : String) : String := String.mk (s.data.map Char.toUpper)

/-- `"PERSONAL" in str(v).upper()` for the `ParticularType` values of this
program: `str(None).upper() = "NONE"` and the rendering of a number never
contain the keyword, so only string values can pass.  (`str` of a container
whose elements render with the keyword is not modelled; such values do not
occur in these documents.) -/
def particularTypePersonal (v : PyVal) : Bool :=
  match v with
  | PyVal.str s => hasSubChars "PERSONAL".data (strUpper s).data
  | _ => false

/-- `v == sentinel` for a string literal sentinel: Python equality between a
non-string value and a `str` is `False` for every value class here. -/
def pyEqStr (v : PyVal) (s : String) : Bool :=
  match v with
  | PyVal.str t => t == s
  | _ => false

/-! ### Canonical records and the statement-sequence machinery -/

/-- The canonical audit record `res` of `parse_3cd` (app.py line 31), with
its seven clause keys. -/
structure Rec3CD where
  c20b : ℚ
  c21a : ℚ
  c21d : ℚ
  c21i : ℚ
  c22 : ℚ
  c32 : ℚ
  c43bh : ℚ
deriving DecidableEq

/-- The initial all-zero audit record. -/
def zero3CD : Rec3CD := ⟨0, 0, 0, 0, 0, 0, 0⟩

/-- The canonical return record `res` of `parse_itr` (app.py line 76): the
display name plus the same seven clause keys. -/
structure RecITR where
  name : PyVal
  c20b : ℚ
  c21a : ℚ
  c21d : ℚ
  c21i : ℚ
  c22 : ℚ
  c32 : ℚ
  c43bh : ℚ

/-- The initial return record: placeholder name, all clauses zero. -/
def zeroITR : RecITR := ⟨PyVal.str "Assessee", 0, 0, 0, 0, 0, 0, 0⟩

def set20b (r : Rec3CD) (q : ℚ) : Rec3CD := ⟨q, r.c21a, r.c21d, r.c21i, r.c22, r.c32, r.c43bh⟩
def set21a (r : Rec3CD) (q : ℚ) : Rec3CD := ⟨r.c20b, q, r.c21d, r.c21i, r.c22, r.c32, r.c43bh⟩
def set21d (r : Rec3CD) (q : ℚ) : Rec3CD := ⟨r.c20b, r.c21a, q, r.c21i, r.c22, r.c32, r.c43bh⟩
def set21i (r : Rec3CD) (q : ℚ) : Rec3CD := ⟨r.c20b, r.c21a, r.c21d, q, r.c22, r.c32, r.c43bh⟩
def set22 (r : Rec3CD) (q : ℚ) : Rec3CD := ⟨r.c20b, r.c21a, r.c21d, r.c21i, q, r.c32, r.c43bh⟩
def set32 (r : Rec3CD) (q : ℚ) : Rec3CD := ⟨r.c20b, r.c21a, r.c21d, r.c21i, r.c22, q, r.c43bh⟩
def set43bh (r : Rec3CD) (q : ℚ) : Rec3CD := ⟨r.c20b, r.c21a, r.c21d, r.c21i, r.c22, r.c32, q⟩

def setName (r : RecITR) (v : PyVal) : RecITR := ⟨v, r.c20b, r.c21a, r.c21d, r.c21i, r.c22, r.c32, r.c43bh⟩
def setI20b (r : RecITR) (q : ℚ) : RecITR := ⟨r.name, q, r.c21a, r.c21d, r.c21i, r.c22, r.c32, r.c43bh⟩
def setI21a (r : RecITR) (q : ℚ) : RecITR := ⟨r.name, r.c20b, q, r.c21d, r.c21i, r.c22, r.c32, r.c43bh⟩
def setI21d (r : RecITR) (q : ℚ) : RecITR := ⟨r.name, r.c20b, r.c21a, q, r.c21i, r.c22, r.c32, r.c43bh⟩
def setI21i (r : RecITR) (q : ℚ) : RecITR := ⟨r.name, r.c20b, r.c21a, r.c21d, q, r.c22, r.c32, r.c43bh⟩
def setI22 (r : RecITR) (q : ℚ) : RecITR := ⟨r.name, r.c20b, r.c21a, r.c21d, r.c21i, q, r.c32, r.c43bh⟩
def setI32 (r : RecITR) (q : ℚ) : RecITR := ⟨r.name, r.c20b, r.c21a, r.c21d, r.c21i, r.c22, q, r.c43bh⟩
def setI43bh (r : RecITR) (q : ℚ) : RecITR := ⟨r.name, r.c20b, r.c21a, r.c21d, r.c21i, r.c22, r.c32, q⟩

/-- Run the statements of a `try:` body in order.  A step returns `ok` with
the updated record, or `error` with the record as it stood when the statement
raised; a raised exception skips the remaining statements. -/
def runE {α : Type} : List (α → Except α α) → α → Except α α
  | [], r => Except.ok r
  | s :: ss, r =>
      match s r with
      | Except.ok r2 => runE ss r2
      | Except.error r2 => Except.error r2

/-- `try:`/`except:` around a statement sequence: the `except` clause returns
the record carried by the exception. -/
def runAll {α : Type} (ss : List (α → Except α α)) (r : α) : α :=
  match runE ss r with
  | Except.ok r2 => r2
  | Except.error r2 => r2

/-! ### `parse_3cd`, structured (JSON) branch (app.py lines 54-67) -/

/-- Line 56: `f = js.get("FORM3CA", {}).get("F3CA", {}) or
js.get("FORM3CB", {}).get("F3CB", {})`. -/
def valFJson (js : PyVal) : Except Unit PyVal :=
  pyOrE (do pyGet (← pyGet js "FORM3CA" (PyVal.dict [])) "F3CA" (PyVal.dict []))
        (do pyGet (← pyGet js "FORM3CB" (PyVal.dict [])) "F3CB" (PyVal.dict []))

/-- Line 58: `pf = f.get("Form3cdEmpPfSuperannInfo", {}).get("Form3cdSect20b", [])
or f.get("Form3cdSect20b", [])`. -/
def valPfJson (f : PyVal) : Except Unit PyVal :=
  pyOrE (do pyGet (← pyGet f "Form3cdEmpPfSuperannInfo" (PyVal.dict [])) "Form3cdSect20b" (PyVal.list []))
        (pyGet f "Form3cdSect20b" (PyVal.list []))

/-- Lines 59-61: `for i in pf: if i.get("ActualDate", "") > i.get("DueDate", ""):
res["c20b"] += to_f(i.get("Amount"))`.  The error value is the partial sum
accumulated into `res["c20b"]` before the raising item. -/
def loop20bJson : List PyVal → ℚ → Except ℚ ℚ
  | [], acc => Except.ok acc
  | i :: rest, acc =>
      match pyGet i "ActualDate" (PyVal.str "") with
      | Except.error _ => Except.error acc
      | Except.ok ad =>
        match pyGet i "DueDate" (PyVal.str "") with
        | Except.error _ => Except.error acc
        | Except.ok dd =>
          match pyGt ad dd with
          | Except.error _ => Except.error acc
          | Except.ok b =>
            if b then
              match pyGet i "Amount" PyVal.pynull with
              | Except.error _ => Except.error acc
              | Except.ok amt => loop20bJson rest (acc + to_f amt)
            else loop20bJson rest acc

/-- Line 62: the `c21a` sum over `f.get("Form3cdDebPLExpnditure", [])`. -/
def val21aJson (f : PyVal) : Except Unit ℚ := do
  let coll ← pyGet f "Form3cdDebPLExpnditure" (PyVal.list [])
  let xs ← pyIter coll
  xs.foldlM (fun acc i => do
    let pt ← pyGet i "ParticularType" PyVal.pynull
    if particularTypePersonal pt then
      do let a ← pyGet i "Amount" PyVal.pynull; pure (acc + to_f a)
    else pure acc) 0

/-- Line 63: the `c43bh` sum over `f.get("Form3cdUnpaidStrySec43b", [])`. -/
def val43bhJson (f : PyVal) : Except Unit ℚ := do
  let coll ← pyGet f "Form3cdUnpaidStrySec43b" (PyVal.list [])
  let xs ← pyIter coll
  xs.foldlM (fun acc i => do
    let s ← pyGet i "Section" PyVal.pynull
    if pyEqStr s "43Bh" then
      do let a ← pyGet i "Amount" PyVal.pynull; pure (acc + to_f a)
    else pure acc) 0

/-- Line 64: `to_f(f.get("AmountDisallowance40A3"))`. -/
def val21dJson (f : PyVal) : Except Unit ℚ := do
  pure (to_f (← pyGet f "AmountDisallowance40A3" PyVal.pynull))

/-- Line 65: `to_f(f.get("AmountDisallowance40ai"))`. -/
def val21iJson (f : PyVal) : Except Unit ℚ := do
  pure (to_f (← pyGet f "AmountDisallowance40ai" PyVal.pynull))

/-- Line 66: the `c22` sum over `f.get("Form3cdInadm", [])` of `Amount4`
over items with `ParticularType == "SEC23"`. -/
def val22Json (f : PyVal) : Except Unit ℚ := do
  let coll ← pyGet f "Form3cdInadm" (PyVal.list [])
  let xs ← pyIter coll
  xs.foldlM (fun acc i => do
    let pt ← pyGet i "ParticularType" PyVal.pynull
    if pyEqStr pt "SEC23" then
      do let a ← pyGet i "Amount4" PyVal.pynull; pure (acc + to_f a)
    else pure acc) 0

/-- Line 67: the `c32` sum of `DepAllowable` over `f.get("Form3cdDeprAllw", [])`. -/
def val32Json (f : PyVal) : Except Unit ℚ := do
  let coll ← pyGet f "Form3cdDeprAllw" (PyVal.list [])
  let xs ← pyIter coll
  xs.foldlM (fun acc b => do
    pure (acc + to_f (← pyGet b "DepAllowable" PyVal.pynull))) 0

/-- The `pf` statement and the `c20b` loop as one step (no assignment to
`res` happens between them other than the loop's own increments). -/
def step20bJson (f : PyVal) (r : Rec3CD) : Except Rec3CD Rec3CD :=
  match valPfJson f with
  | Except.error _ => Except.error r
  | Except.ok pf =>
    match pyIter pf with
    | Except.error _ => Except.error r
    | Except.ok xs =>
      match loop20bJson xs r.c20b with
      | Except.error part => Except.error (set20b r part)
      | Except.ok t => Except.ok (set20b r t)

/-- A plain assignment statement `res[key] = value-expression`. -/
def stepQ3 (v : Except Unit ℚ) (set : Rec3CD → ℚ → Rec3CD) (r : Rec3CD) :
    Except Rec3CD Rec3CD :=
  match v with
  | Except.ok q => Except.ok (set r q)
  | Except.error _ => Except.error r

/-- The statements of the `if f:` block of the JSON branch, in source order
(lines 58-67): c20b loop, c21a, c43bh, c21d, c21i, c22, c32. -/
def steps3cdJson (f : PyVal) : List (Rec3CD → Except Rec3CD Rec3CD) :=
  [step20bJson f,
   stepQ3 (val21aJson f) set21a,
   stepQ3 (val43bhJson f) set43bh,
   stepQ3 (val21dJson f) set21d,
   stepQ3 (val21iJson f) set21i,
   stepQ3 (val22Json f) set22,
   stepQ3 (val32Json f) set32]

/-- The `if f:` block run under the `try:`/`except` of `parse_3cd`. -/
def body3cdJson (f : PyVal) : Rec3CD := runAll (steps3cdJson f) zero3CD

/-- `DataEngine.parse_3cd(content, is_xml=False)` (app.py lines 29-71,
`else` branch).  The bytes and `json.loads` are abstracted into the
argument: `Option.none` models content on which `json.loads` raises, in
which case the `except` clause leaves `res` at its initial all-zero value. -/
def parse_3cd_json (doc : Option PyVal) : Rec3CD :=
  match doc with
  | Option.none => zero3CD
  | some js =>
    match valFJson js with
    | Except.error _ => zero3CD
    | Except.ok f => if truthy f then body3cdJson f else zero3CD

/-! ### `parse_3cd`, tagged (XML) branch (app.py lines 34-53)

After a successful `ET.fromstring`, this branch only calls `findall`,
`get_xml_text` and `to_f`, none of which can raise, so it is a pure function
of the tree. -/

/-- `to_f` applied to a `get_xml_text` result (a string or `None`). -/
def to_f_text (o : Option String) : ℚ :=
  to_f (match o with | some s => PyVal.str s | Option.none => PyVal.pynull)

/-- Line 41's guard `if act and due and act > due` for one PF entry:
both date texts present and nonempty, actual lexicographically after due. -/
def pfCond (item : XNode) : Bool :=
  match get_xml_text item "ActualDate", get_xml_text item "DueDate" with
  | some a, some d => !a.data.isEmpty && !d.data.isEmpty && strLt d a
  | _, _ => false

/-- Line 44's filter `"PERSONAL" in str(get_xml_text(i, "ParticularType")).upper()`
(`str(None).upper() = "NONE"` does not contain the keyword). -/
def xmlPersonal (i : XNode) : Bool :=
  match get_xml_text i "ParticularType" with
  | some s => hasSubChars "PERSONAL".data (strUpper s).data
  | Option.none => false

/-- `DataEngine.parse_3cd(content, is_xml=True)` (app.py lines 34-53).
`Option.none` models content on which `ET.fromstring` raises. -/
def parse_3cd_xml (doc : Option XNode) : Rec3CD :=
  match doc with
  | Option.none => zero3CD
  | some root =>
    let pf_entries := findallNS root "Form3cdEmpPfSuperann" ++ findallNS root "Form3cdSect20b"
    let c20b := pf_entries.foldl
      (fun acc item => if pfCond item then acc + to_f_text (get_xml_text item "Amount") else acc) 0
    let c21a := (findallNS root "Form3cdDebPLExpnditure").foldl
      (fun acc i => if xmlPersonal i then acc + to_f_text (get_xml_text i "Amount") else acc) 0
    let c43bh := (findallNS root "Form3cdUnpaidStrySec43b").foldl
      (fun acc item =>
        if get_xml_text item "Section" == some "43Bh" then
          acc + to_f_text (get_xml_text item "Amount")
        else acc) 0
    let c21d := to_f_text (get_xml_text root "AmountDisallowance40A3")
    let c21i := to_f_text (get_xml_text root "AmountDisallowance40ai")
    let c22 := to_f_text (get_xml_text root "SubClauseeofClause22")
    let c32 := (findallNS root "Form3cdDeprAllw").foldl
      (fun acc i => acc + to_f_text (get_xml_text i "DepAllowable")) 0
    ⟨c20b, c21a, c21d, c21i, c22, c32, c43bh⟩

/-! ### `parse_itr`, tagged (XML) branch (app.py lines 79-88): likewise a
pure function of the tree. -/

/-- `DataEngine.parse_itr(content, is_xml=True)` (app.py lines 79-88). -/
def parse_itr_xml (doc : Option XNode) : RecITR :=
  match doc with
  | Option.none => zeroITR
  | some root =>
    let name :=
      match get_xml_text root "SurNameOrOrgName" with
      | some s => if s.data.isEmpty then "Unknown" else s
      | Option.none => "Unknown"
    let c20b := to_f_text (get_xml_text root "EmplyeeContrStatutoryFund")
    let a := to_f_text (get_xml_text root "PersonalExp")
    let c21a := if a == 0 then to_f_text (get_xml_text root "PersonalExpndtr") else a
    let c21d := to_f_text (get_xml_text root "AmtDisallowance40A3")
    let c21i := to_f_text (get_xml_text root "AmtDisallowance40ai")
    let c22 := to_f_text (get_xml_text root "MSMEDisallowance")
    let c32 := to_f_text (get_xml_text root "TotDeprAllowITAct")
    let c43bh := to_f_text (get_xml_text root "MSEPayable")
    ⟨PyVal.str name, c20b, c21a, c21d, c21i, c22, c32, c43bh⟩

/-! ### `parse_itr`, structured (JSON) branch (app.py lines 89-107) -/

/-- Line 91: `itr = js.get("ITR", {}).get("ITR3") or js.get("ITR", {}).get("ITR5")
or js.get("ITR", {}).get("ITR6")` (the single-argument `.get` defaults to `None`). -/
def valItrRoot (js : PyVal) : Except Unit PyVal :=
  pyOrE (pyOrE (do pyGet (← pyGet js "ITR" (PyVal.dict [])) "ITR3" PyVal.pynull)
               (do pyGet (← pyGet js "ITR" (PyVal.dict [])) "ITR5" PyVal.pynull))
        (do pyGet (← pyGet js "ITR" (PyVal.dict [])) "ITR6" PyVal.pynull)

/-- Lines 94-95: the display-name fallback chain over `gen1`. -/
def valNameJson (gen1 : PyVal) : Except Unit PyVal :=
  pyOrE
    (do pyGet (← pyGet (← pyGet gen1 "PersonalInfo" (PyVal.dict [])) "AssesseeName" (PyVal.dict []))
          "SurNameOrOrgName" PyVal.pynull)
    (do pyGet (← pyGet (← pyGet gen1 "OrgFirmInfo" (PyVal.dict [])) "AssesseeName" (PyVal.dict []))
          "SurNameOrOrgName" (PyVal.str "Assessee"))

/-- Line 97: `oi = itr.get("PARTA_OI", {})`. -/
def valOiItr (itr : PyVal) : Except Unit PyVal :=
  pyGet itr "PARTA_OI" (PyVal.dict [])

/-- Line 98: `bp = (itr.get("ITR3ScheduleBP") or itr.get("CorpScheduleBP") or
itr.get("ScheduleBP", {})).get("BusinessIncOthThanSpec", {})`. -/
def valBpJson (itr : PyVal) : Except Unit PyVal := do
  let sched ← pyOrE (pyOrE (pyGet itr "ITR3ScheduleBP" PyVal.pynull)
                           (pyGet itr "CorpScheduleBP" PyVal.pynull))
                    (pyGet itr "ScheduleBP" (PyVal.dict []))
  pyGet sched "BusinessIncOthThanSpec" (PyVal.dict [])

/-- Two-key access `v.get(k1, {}).get(k2)`. -/
def get2 (v : PyVal) (k1 k2 : String) : Except Unit PyVal := do
  pyGet (← pyGet v k1 (PyVal.dict [])) k2 PyVal.pynull

/-- Three-key access `v.get(k1, {}).get(k2, {}).get(k3)`. -/
def get3 (v : PyVal) (k1 k2 k3 : String) : Except Unit PyVal := do
  pyGet (← pyGet (← pyGet v k1 (PyVal.dict [])) k2 (PyVal.dict [])) k3 PyVal.pynull

/-- Line 100: `to_f(oi.get("AmtDisallUs36", {}).get("EmplyeeContrStatutoryFund"))`. -/
def val20bItr (oi : PyVal) : Except Unit ℚ := do
  pure (to_f (← get2 oi "AmtDisallUs36" "EmplyeeContrStatutoryFund"))

/-- Line 101: `to_f(oi.get("AmtDisallUs37", {}).get("PersonalExpndtr")) or
to_f(bp.get("AmtDebPLDisallowUs37"))`. -/
def val21aItr (oi bp : PyVal) : Except Unit ℚ :=
  orFloatE (do pure (to_f (← get2 oi "AmtDisallUs37" "PersonalExpndtr")))
           (do pure (to_f (← pyGet bp "AmtDebPLDisallowUs37" PyVal.pynull)))

/-- Line 102: `to_f(oi.get("AmtDisallUs40A", {}).get("AmtDisallUs40A3"))`. -/
def val21dItr (oi : PyVal) : Except Unit ℚ := do
  pure (to_f (← get2 oi "AmtDisallUs40A" "AmtDisallUs40A3"))

/-- Line 103: `to_f(oi.get("AmtDisallUs40", {}).get("AmtDisallUs40ai"))`. -/
def val21iItr (oi : PyVal) : Except Unit ℚ := do
  pure (to_f (← get2 oi "AmtDisallUs40" "AmtDisallUs40ai"))

/-- Line 104: `to_f(oi.get("AmtDisall43B", {}).get("AmtUs43B", {}).get("MSEPayable"))`. -/
def val22Itr (oi : PyVal) : Except Unit ℚ := do
  pure (to_f (← get3 oi "AmtDisall43B" "AmtUs43B" "MSEPayable"))

/-- Line 105: `to_f(bp.get("DepreciationAllowITAct32", {}).get("TotDeprAllowITAct"))`
— a single chain with no fallback. -/
def val32Itr (bp : PyVal) : Except Unit ℚ := do
  pure (to_f (← get2 bp "DepreciationAllowITAct32" "TotDeprAllowITAct"))

/-- Lines 106-107: `to_f(oi.get("AmtDisallUs43BPyNowAll", {})...) or
to_f(oi.get("AmtDisallUs43B", {})...)`. -/
def val43bhItr (oi : PyVal) : Except Unit ℚ :=
  orFloatE (do pure (to_f (← get3 oi "AmtDisallUs43BPyNowAll" "AmtUs43B" "MSEPayable")))
           (do pure (to_f (← get3 oi "AmtDisallUs43B" "AmtUs43B" "MSEPayable")))

/-- Lines 93-95 as one step: computing `gen1` and the name chain does not
assign to `res` until the whole chain has evaluated. -/
def stepNameItr (itr : PyVal) (r : RecITR) : Except RecITR RecITR :=
  match (do valNameJson (← pyGet itr "PartA_GEN1" (PyVal.dict []))) with
  | Except.ok nm => Except.ok (setName r nm)
  | Except.error _ => Except.error r

/-- A clause assignment of the return extractor. -/
def stepQI (v : Except Unit ℚ) (set : RecITR → ℚ → RecITR) (r : RecITR) :
    Except RecITR RecITR :=
  match v with
  | Except.ok q => Except.ok (set r q)
  | Except.error _ => Except.error r

/-- The statements of the `if itr:` block (lines 93-107).  The locals `oi`
and `bp` of lines 97-98 are re-derived (deterministically, by the same
`.get` chains) in each step that uses them; the step for `c20b` evaluates
the `bp` chain first so that an exception in line 97-98 leaves all clause
keys unassigned, exactly as in the source. -/
def steps_itrJson (itr : PyVal) : List (RecITR → Except RecITR RecITR) :=
  [stepNameItr itr,
   stepQI (do let oi ← valOiItr itr; let _bp ← valBpJson itr; val20bItr oi) setI20b,
   stepQI (do val21aItr (← valOiItr itr) (← valBpJson itr)) setI21a,
   stepQI (do val21dItr (← valOiItr itr)) setI21d,
   stepQI (do val21iItr (← valOiItr itr)) setI21i,
   stepQI (do val22Itr (← valOiItr itr)) setI22,
   stepQI (do val32Itr (← valBpJson itr)) setI32,
   stepQI (do val43bhItr (← valOiItr itr)) setI43bh]

/-- The `if itr:` block run under the `try:`/`except` of `parse_itr`. -/
def bodyItrJson (itr : PyVal) : RecITR := runAll (steps_itrJson itr) zeroITR

/-- `DataEngine.parse_itr(content, is_xml=False)` (app.py lines 89-111);
`Option.none` models content on which `json.loads` raises. -/
def parse_itr_json (doc : Option PyVal) : RecITR :=
  match doc with
  | Option.none => zeroITR
  | some js =>
    match valItrRoot js with
    | Except.error _ => zeroITR
    | Except.ok itr => if truthy itr then bodyItrJson itr else zeroITR

/-! ### The reconciliation table (app.py lines 134-146) -/

/-- One row of the reconciliation table: clause label, parameter text, the
two amounts, their difference, and the match status. -/
structure ReconRow where
  clause : String
  parameter : String
  audit : ℚ
  ret : ℚ
  diff : ℚ
  status : String
deriving DecidableEq

/-- Line 146: `"✅ Match" if abs(x) < 5 else "❌ Mismatch"`. -/
def statusOf (x : ℚ) : String :=
  if |x| < 5 then "✅ Match" else "❌ Mismatch"

/-- Build one row with `Diff = audit - return` (line 145). -/
def mkRow (cl par : String) (a r : ℚ) : ReconRow :=
  ⟨cl, par, a, r, a - r, statusOf (a - r)⟩

/-- `recon_data` plus the derived `Diff` and `Status` columns (lines 134-146),
in the fixed source order. -/
def recon_data (aud : Rec3CD) (ret : RecITR) : List ReconRow :=
  [mkRow "20(b)" "ESI/PF (Late Payments)" aud.c20b ret.c20b,
   mkRow "21(a)" "Personal Expenses" aud.c21a ret.c21a,
   mkRow "21(d)" "Cash Payments (40A3)" aud.c21d ret.c21d,
   mkRow "21(i)" "TDS Defaults (40ai)" aud.c21i ret.c21i,
   mkRow "22" "MSME Interest (Sec 23)" aud.c22 ret.c22,
   mkRow "43B(h)" "MSME Unpaid (Sec 43Bh)" aud.c43bh ret.c43bh,
   mkRow "32" "Depreciation (IT Act)" aud.c32 ret.c32]

/-! ### Derived accessors and concrete documents used in the claims -/

/-- The value `i.get(k)` yields when `i` is a dict (pure view of `pyGet`
with default `None`, used to state sum characterizations). -/
def dictGet (i : PyVal) (k : String) : PyVal :=
  match i with
  | PyVal.dict fs => (lookupD fs k).getD PyVal.pynull
  | _ => PyVal.pynull

/-- A structured 3CD document whose only PF line item has an actual-deposit
date but no due-date field at all. -/
def docC4 : PyVal := PyVal.dict [("FORM3CB", PyVal.dict [("F3CB", PyVal.dict
  [("Form3cdSect20b", PyVal.list [PyVal.dict
      [("Amount", PyVal.num 100), ("ActualDate", PyVal.str "2023-05-01")]])])])]

/-- The PF line item of `docC4`. -/
def itemC4 : PyVal := PyVal.dict
  [("Amount", PyVal.num 100), ("ActualDate", PyVal.str "2023-05-01")]

/-- A structured ITR document whose primary depreciation summary field is 0
while asset-class schedule totals (`ScheduleDPM`/`ScheduleDOA`, 300 + 200)
are present and nonzero. -/
def docC5 : PyVal := PyVal.dict [("ITR", PyVal.dict [("ITR3", PyVal.dict
  [("ITR3ScheduleBP", PyVal.dict [("BusinessIncOthThanSpec", PyVal.dict
      [("DepreciationAllowITAct32", PyVal.dict [("TotDeprAllowITAct", PyVal.num 0)])])]),
   ("ScheduleDPM", PyVal.dict [("TotalDepreciationDPM", PyVal.num 300)]),
   ("ScheduleDOA", PyVal.dict [("TotalDepreciationDOA", PyVal.num 200)])])])]

/-- The resolved variant root of `docC5`. -/
def itrC5 : PyVal := PyVal.dict
  [("ITR3ScheduleBP", PyVal.dict [("BusinessIncOthThanSpec", PyVal.dict
      [("DepreciationAllowITAct32", PyVal.dict [("TotDeprAllowITAct", PyVal.num 0)])])]),
   ("ScheduleDPM", PyVal.dict [("TotalDepreciationDPM", PyVal.num 300)]),
   ("ScheduleDOA", PyVal.dict [("TotalDepreciationDOA", PyVal.num 200)])]

/-- The business-schedule mapping `bp` that `docC5` resolves to. -/
def bpC5 : PyVal := PyVal.dict
  [("DepreciationAllowITAct32", PyVal.dict [("TotDeprAllowITAct", PyVal.num 0)])]

/-- A tagged 3CD document with two `SubClauseeofClause22` elements (texts
100 and 200) and no `ParticularType` element anywhere. -/
def rootC8 : XNode := XNode.mk "Root" Option.none (XForest.ofList
  [XNode.mk "SubClauseeofClause22" (some "100") XForest.nil,
   XNode.mk "SubClauseeofClause22" (some "200") XForest.nil])

/-- The seven clause keys of both canonical records. -/
def clauseKeys : List String := ["c20b", "c21a", "c21d", "c21i", "c22", "c32", "c43bh"]

/-- Key lookup in the audit record, viewing it as the Python dict `res`. -/
def Rec3CD.find (r : Rec3CD) (k : String) : Option ℚ :=
  if k == "c20b" then some r.c20b
  else if k == "c21a" then some r.c21a
  else if k == "c21d" then some r.c21d
  else if k == "c21i" then some r.c21i
  else if k == "c22" then some r.c22
  else if k == "c32" then some r.c32
  else if k == "c43bh" then some r.c43bh
  else Option.none

/-- Clause-key lookup in the return record. -/
def RecITR.find (r : RecITR) (k : String) : Option ℚ :=
  if k == "c20b" then some r.c20b
  else if k == "c21a" then some r.c21a
  else if k == "c21d" then some r.c21d
  else if k == "c21i" then some r.c21i
  else if k == "c22" then some r.c22
  else if k == "c32" then some r.c32
  else if k == "c43bh" then some r.c43bh
  else Option.none

/-- Remove the entries with the given keys from a dict. -/
def removeKeys (fs : List (String × PyVal)) (ks : List String) : List (String × PyVal) :=
  fs.filter (fun p => !(decide (p.1 ∈ ks)))

/-- The top-level source keys of each clause in the structured audit form
`f` (each clause reads only its own keys; they are pairwise disjoint). -/
def srcKeys3cd (k : String) : List String :=
  if k == "c20b" then ["Form3cdEmpPfSuperannInfo", "Form3cdSect20b"]
  else if k == "c21a" then ["Form3cdDebPLExpnditure"]
  else if k == "c21d" then ["AmountDisallowance40A3"]
  else if k == "c21i" then ["AmountDisallowance40ai"]
  else if k == "c22" then ["Form3cdInadm"]
  else if k == "c32" then ["Form3cdDeprAllw"]
  else if k == "c43bh" then ["Form3cdUnpaidStrySec43b"]
  else []

/-- No node of the tree (root included) carries the given local tag: the
tagged-format reading of "the clause's source fields are entirely absent". -/
def noTagX (root : XNode) (name : String) : Prop :=
  ∀ el ∈ iterNodes root, localTag el.tag ≠ name

/-- The keys of each clause inside the return form's `PARTA_OI` mapping
(pairwise disjoint; `c32` reads nothing from it). -/
def srcOiItr (k : String) : List String :=
  if k == "c20b" then ["AmtDisallUs36"]
  else if k == "c21a" then ["AmtDisallUs37"]
  else if k == "c21d" then ["AmtDisallUs40A"]
  else if k == "c21i" then ["AmtDisallUs40"]
  else if k == "c22" then ["AmtDisall43B"]
  else if k == "c43bh" then ["AmtDisallUs43BPyNowAll", "AmtDisallUs43B"]
  else []

/-- The keys of each clause inside the business-schedule mapping `bp`
(only `c21a`'s fallback and `c32` read it). -/
def srcBpItr (k : String) : List String :=
  if k == "c21a" then ["AmtDebPLDisallowUs37"]
  else if k == "c32" then ["DepreciationAllowITAct32"]
  else []

/-- PF line item used by the C10 witness (late: actual "2" after due "1"). -/
def itemC10 : PyVal := PyVal.dict
  [("Amount", PyVal.num 100), ("ActualDate", PyVal.str "2"), ("DueDate", PyVal.str "1")]

/-- An audit form root whose PF data is well-formed (summing to 100) but
whose `Form3cdDebPLExpnditure` collection is a bare number, so that the
`c21a` statement raises after `c20b` has been assigned; the present
`AmountDisallowance40A3` field is never reached. -/
def fC10 : PyVal := PyVal.dict
  [("Form3cdSect20b", PyVal.list [itemC10]),
   ("Form3cdDebPLExpnditure", PyVal.num 7),
   ("AmountDisallowance40A3", PyVal.num 9)]

/-- The `PARTA_OI` mapping of `itrC10`: a well-formed `AmtDisallUs36`
(c20b = 50) and an `AmtDisallUs37` that is a bare number, so the `c21a`
statement raises. -/
def oiC10 : PyVal := PyVal.dict
  [("AmtDisallUs36", PyVal.dict [("EmplyeeContrStatutoryFund", PyVal.num 50)]),
   ("AmtDisallUs37", PyVal.num 3)]

/-- A return form root for the C10 witness. -/
def itrC10 : PyVal := PyVal.dict [("PARTA_OI", oiC10)]

/-- A tagged audit document for the C1 frame witness: a cash-payment
disallowance (7) and a TDS-default disallowance (3). -/
def audW : XNode := XNode.mk "Root" Option.none (XForest.ofList
  [XNode.mk "AmountDisallowance40A3" (some "7") XForest.nil,
   XNode.mk "AmountDisallowance40ai" (some "3") XForest.nil])

/-- `audW` with its `AmountDisallowance40A3` element removed. -/
def audW2 : XNode := XNode.mk "Root" Option.none (XForest.ofList
  [XNode.mk "AmountDisallowance40ai" (some "3") XForest.nil])

/-- A tagged return document for the C1 frame witness. -/
def itrWx : XNode := XNode.mk "Root" Option.none (XForest.ofList
  [XNode.mk "AmtDisallowance40A3" (some "7") XForest.nil,
   XNode.mk "AmtDisallowance40ai" (some "3") XForest.nil])

/-- `itrWx` with its `AmtDisallowance40A3` element removed. -/
def itrWx2 : XNode := XNode.mk "Root" Option.none (XForest.ofList
  [XNode.mk "AmtDisallowance40ai" (some "3") XForest.nil])

/-- The `PARTA_OI` field list of the structured return frame witness. -/
def ofsW : List (String × PyVal) :=
  [("AmtDisallUs40A", PyVal.dict [("AmtDisallUs40A3", PyVal.num 7)])]

/-- A resolved ITR3 root with one cash-payment disallowance (7). -/
def itrW : PyVal := PyVal.dict [("PARTA_OI", PyVal.dict ofsW)]

/-- The structured return document wrapping `itrW`. -/
def jsW : PyVal := PyVal.dict [("ITR", PyVal.dict [("ITR3", itrW)])]

/-- `itrW` with the `c21d` source key removed from `PARTA_OI`. -/
def itrW2 : PyVal := PyVal.dict [("PARTA_OI", PyVal.dict [])]

/-- The structured return document wrapping `itrW2`. -/
def jsW2 : PyVal := PyVal.dict [("ITR", PyVal.dict [("ITR3", itrW2)])]

/-! ### Helper lemmas -/

/-- A guarded accumulating fold equals the plain fold over the filtered list. -/
theorem foldl_guard_filter {α : Type} (p : α → Bool) (g : α → ℚ) :
    ∀ (l : List α) (acc : ℚ),
      l.foldl (fun a i => if p i then a + g i else a) acc =
        (l.filter p).foldl (fun a i => a + g i) acc := by
  intro l
  induction l with
  | nil => intro acc; rfl
  | cons x xs ih =>
      intro acc
      by_cases h : p x <;> simp [List.filter_cons, h, ih]

/-- `takeWhile` stops exactly at the first failing element. -/
theorem takeWhile_all_append {α : Type} (p : α → Bool) (l1 l2 : List α) (a : α)
    (h1 : ∀ x ∈ l1, p x = true) (ha : p a = false) :
    (l1 ++ a :: l2).takeWhile p = l1 := by
  induction l1 with
  | nil => simp [List.takeWhile, ha]
  | cons x xs ih =>
      have hx := h1 x (List.mem_cons_self x xs)
      simp only [List.cons_append, List.takeWhile_cons, hx, if_true]
      rw [ih (fun y hy => h1 y (List.mem_cons_of_mem x hy))]

/-- Row facts shared by every row of the table. -/
theorem mkRow_spec (cl par : String) (a r : ℚ) :
    (mkRow cl par a r).diff = (mkRow cl par a r).audit - (mkRow cl par a r).ret ∧
    ((mkRow cl par a r).status = "✅ Match" ↔ |(mkRow cl par a r).diff| < 5) ∧
    ((mkRow cl par a r).status = "✅ Match" ∨ (mkRow cl par a r).status = "❌ Mismatch") := by
  refine ⟨rfl, ?_, ?_⟩
  · by_cases h : |a - r| < 5 <;> simp [mkRow, statusOf, h]
  · by_cases h : |a - r| < 5 <;> simp [mkRow, statusOf, h]

theorem exceptBind_ok {ε α β : Type} (a : α) (f : α → Except ε β) :
    (Except.ok a >>= f : Except ε β) = f a := rfl

theorem exceptBind_err {ε α β : Type} (e : ε) (f : α → Except ε β) :
    (Except.error e >>= f : Except ε β) = Except.error e := rfl

theorem exceptPure_eq {ε α : Type} (a : α) :
    (pure a : Except ε α) = Except.ok a := rfl

theorem pyGet_dict (fs : List (String × PyVal)) (k : String) (d : PyVal) :
    pyGet (PyVal.dict fs) k d = Except.ok ((lookupD fs k).getD d) := rfl

/-- Filtering a dict down to one key preserves that key's lookup. -/
theorem lookupD_filter_self (k : String) :
    ∀ fs : List (String × PyVal),
      lookupD (fs.filter (fun p => p.1 == k)) k = lookupD fs k := by
  intro fs
  induction fs with
  | nil => rfl
  | cons p ps ih =>
      by_cases hp : p.1 == k
      · simp [lookupD, List.filter_cons, hp, List.find?]
      · simp only [lookupD, List.filter_cons, hp] at ih ⊢
        simp only [List.find?, hp, Bool.false_eq_true, if_false]
        exact ih

/-- A guarded dict-item sum in the `Except` monad succeeds on a list of
dicts and computes the corresponding pure guarded fold. -/
theorem guardSum_char (test : PyVal → Bool) (ptKey amtKey : String) :
    ∀ (xs : List PyVal) (acc : ℚ), (∀ i ∈ xs, ∃ gs, i = PyVal.dict gs) →
      (xs.foldlM (fun acc i => do
          let pt ← pyGet i ptKey PyVal.pynull
          if test pt then
            do let a ← pyGet i amtKey PyVal.pynull; pure (acc + to_f a)
          else pure acc) acc : Except Unit ℚ)
      = Except.ok (xs.foldl (fun acc i =>
          if test (dictGet i ptKey) then acc + to_f (dictGet i amtKey) else acc) acc) := by
  intro xs
  induction xs with
  | nil => intro acc h; rfl
  | cons i rest ih =>
      intro acc h
      obtain ⟨gs, rfl⟩ := h i (List.mem_cons_self i rest)
      have hrest := fun j hj => h j (List.mem_cons_of_mem _ hj)
      simp only [List.foldlM, List.foldl, pyGet_dict, exceptBind_ok, dictGet]
      by_cases ht : test ((lookupD gs ptKey).getD PyVal.pynull)
      · simp only [ht, if_true, pyGet_dict, exceptBind_ok, exceptPure_eq]
        exact ih _ hrest
      · simp only [ht, Bool.false_eq_true, if_false, exceptPure_eq]
        exact ih _ hrest

/-- The unguarded dict-item sum of the depreciation clause. -/
theorem plainSum_char (amtKey : String) :
    ∀ (xs : List PyVal) (acc : ℚ), (∀ i ∈ xs, ∃ gs, i = PyVal.dict gs) →
      (xs.foldlM (fun acc b => do
          pure (acc + to_f (← pyGet b amtKey PyVal.pynull))) acc : Except Unit ℚ)
      = Except.ok (xs.foldl (fun acc b => acc + to_f (dictGet b amtKey)) acc) := by
  intro xs
  induction xs with
  | nil => intro acc h; rfl
  | cons b rest ih =>
      intro acc h
      obtain ⟨gs, rfl⟩ := h b (List.mem_cons_self b rest)
      have hrest := fun j hj => h j (List.mem_cons_of_mem _ hj)
      simp only [List.foldlM, List.foldl, pyGet_dict, exceptBind_ok, exceptPure_eq, dictGet]
      exact ih _ hrest

/-- When every statement of the return extractor's JSON block succeeds, the
result record collects exactly the statement values. -/
theorem bodyItr_char
    (itr gen1 nm oi bp : PyVal) (q20 q21a q21d q21i q22v q32v q43 : ℚ)
    (h1 : pyGet itr "PartA_GEN1" (PyVal.dict []) = Except.ok gen1)
    (h2 : valNameJson gen1 = Except.ok nm)
    (h3 : valOiItr itr = Except.ok oi)
    (h4 : valBpJson itr = Except.ok bp)
    (h5 : val20bItr oi = Except.ok q20)
    (h6 : val21aItr oi bp = Except.ok q21a)
    (h7 : val21dItr oi = Except.ok q21d)
    (h8 : val21iItr oi = Except.ok q21i)
    (h9 : val22Itr oi = Except.ok q22v)
    (h10 : val32Itr bp = Except.ok q32v)
    (h11 : val43bhItr oi = Except.ok q43) :
    bodyItrJson itr = ⟨nm, q20, q21a, q21d, q21i, q22v, q32v, q43⟩ := by
  unfold bodyItrJson runAll steps_itrJson stepNameItr stepQI
  simp only [h1, h2, h3, h4, h5, h6, h7, h8, h9, h10, h11, exceptBind_ok,
    runE, setName, setI20b, setI21a, setI21d, setI21i, setI22, setI32, setI43bh,
    zeroITR]

/-- An invariant that every statement of a `try:` body preserves (whether it
completes or raises) holds of the record the body returns. -/
theorem runAll_preserve {α : Type} (P : α → Prop) :
    ∀ (ss : List (α → Except α α)) (r : α),
      (∀ s ∈ ss, ∀ x y, P x →
          (s x = Except.ok y ∨ s x = Except.error y) → P y) →
      P r → P (runAll ss r) := by
  intro ss
  induction ss with
  | nil => intro r _ hr; exact hr
  | cons s ss ih =>
      intro r h hr
      have hmem : s ∈ s :: ss := List.mem_cons_self s ss
      unfold runAll runE
      cases hs : s r with
      | ok r2 =>
          have h2 : P r2 := h s hmem r r2 hr (Or.inl hs)
          have := ih r2 (fun s2 hs2 => h s2 (List.mem_cons_of_mem s hs2)) h2
          simpa [runAll] using this
      | error r2 =>
          exact h s hmem r r2 hr (Or.inr hs)

/-- Either outcome of a plain assignment step: the record is unchanged (the
value raised) or the value was assigned. -/
theorem stepQ3_shape (v : Except Unit ℚ) (set : Rec3CD → ℚ → Rec3CD)
    (x y : Rec3CD)
    (h : stepQ3 v set x = Except.ok y ∨ stepQ3 v set x = Except.error y) :
    y = x ∨ ∃ q, v = Except.ok q ∧ y = set x q := by
  unfold stepQ3 at h
  cases v with
  | ok q =>
      rcases h with h | h
      · exact Or.inr ⟨q, rfl, (Except.ok.injEq _ _).mp h |>.symm⟩
      · exact absurd h (by simp)
  | error e =>
      rcases h with h | h
      · exact absurd h (by simp)
      · exact Or.inl ((Except.error.injEq _ _).mp h).symm

/-- Same shape fact for the return extractor's assignment steps. -/
theorem stepQI_shape (v : Except Unit ℚ) (set : RecITR → ℚ → RecITR)
    (x y : RecITR)
    (h : stepQI v set x = Except.ok y ∨ stepQI v set x = Except.error y) :
    y = x ∨ ∃ q, v = Except.ok q ∧ y = set x q := by
  unfold stepQI at h
  cases v with
  | ok q =>
      rcases h with h | h
      · exact Or.inr ⟨q, rfl, (Except.ok.injEq _ _).mp h |>.symm⟩
      · exact absurd h (by simp)
  | error e =>
      rcases h with h | h
      · exact absurd h (by simp)
      · exact Or.inl ((Except.error.injEq _ _).mp h).symm

/-- Either outcome of the PF statement-plus-loop step leaves the record
unchanged except possibly for `c20b`. -/
theorem step20b_shape (f : PyVal) (x y : Rec3CD)
    (h : step20bJson f x = Except.ok y ∨ step20bJson f x = Except.error y) :
    y = x ∨ ∃ q, y = set20b x q := by
  unfold step20bJson at h
  cases h1 : valPfJson f with
  | error e =>
      simp only [h1] at h
      rcases h with h | h
      · exact absurd h (by simp)
      · exact Or.inl ((Except.error.injEq _ _).mp h).symm
  | ok pf =>
      simp only [h1] at h
      cases h2 : pyIter pf with
      | error e =>
          simp only [h2] at h
          rcases h with h | h
          · exact absurd h (by simp)
          · exact Or.inl ((Except.error.injEq _ _).mp h).symm
      | ok xs =>
          simp only [h2] at h
          cases h3 : loop20bJson xs x.c20b with
          | error part =>
              simp only [h3] at h
              rcases h with h | h
              · exact absurd h (by simp)
              · exact Or.inr ⟨part, ((Except.error.injEq _ _).mp h).symm⟩
          | ok t =>
              simp only [h3] at h
              rcases h with h | h
              · exact Or.inr ⟨t, ((Except.ok.injEq _ _).mp h).symm⟩
              · exact absurd h (by simp)

/-- Either outcome of the name step leaves the clause fields unchanged. -/
theorem stepName_shape (itr : PyVal) (x y : RecITR)
    (h : stepNameItr itr x = Except.ok y ∨ stepNameItr itr x = Except.error y) :
    y = x ∨ ∃ nm, y = setName x nm := by
  unfold stepNameItr at h
  cases h1 : (do valNameJson (← pyGet itr "PartA_GEN1" (PyVal.dict []))) with
  | ok nm =>
      rw [h1] at h
      rcases h with h | h
      · exact Or.inr ⟨nm, ((Except.ok.injEq _ _).mp h).symm⟩
      · exact absurd h (by simp)
  | error e =>
      rw [h1] at h
      rcases h with h | h
      · exact absurd h (by simp)
      · exact Or.inl ((Except.error.injEq _ _).mp h).symm

/-- A step that writes only other fields preserves "this field is 0". -/
theorem stepQ3_keep {v : Except Unit ℚ} {set : Rec3CD → ℚ → Rec3CD}
    {g : Rec3CD → ℚ} :
    ∀ x y, g x = 0 →
      (stepQ3 v set x = Except.ok y ∨ stepQ3 v set x = Except.error y) →
      (∀ r q, g (set r q) = g r) → g y = 0 := by
  intro x y hx h hset
  rcases stepQ3_shape v set x y h with rfl | ⟨q, _, rfl⟩
  · exact hx
  · rw [hset]; exact hx

/-- A step whose value is 0 establishes "this field is 0". -/
theorem stepQ3_zero {v : Except Unit ℚ} {set : Rec3CD → ℚ → Rec3CD}
    {g : Rec3CD → ℚ} :
    ∀ x y, g x = 0 →
      (stepQ3 v set x = Except.ok y ∨ stepQ3 v set x = Except.error y) →
      v = Except.ok 0 → (∀ r, g (set r 0) = 0) → g y = 0 := by
  intro x y hx h hv hset0
  rcases stepQ3_shape v set x y h with rfl | ⟨q, hq, rfl⟩
  · exact hx
  · rw [hv] at hq
    have : (0 : ℚ) = q := (Except.ok.injEq _ _).mp hq
    rw [←this]
    exact hset0 x

theorem stepQI_keep {v : Except Unit ℚ} {set : RecITR → ℚ → RecITR}
    {g : RecITR → ℚ} :
    ∀ x y, g x = 0 →
      (stepQI v set x = Except.ok y ∨ stepQI v set x = Except.error y) →
      (∀ r q, g (set r q) = g r) → g y = 0 := by
  intro x y hx h hset
  rcases stepQI_shape v set x y h with rfl | ⟨q, _, rfl⟩
  · exact hx
  · rw [hset]; exact hx

theorem stepQI_zero {v : Except Unit ℚ} {set : RecITR → ℚ → RecITR}
    {g : RecITR → ℚ} :
    ∀ x y, g x = 0 →
      (stepQI v set x = Except.ok y ∨ stepQI v set x = Except.error y) →
      v = Except.ok 0 → (∀ r, g (set r 0) = 0) → g y = 0 := by
  intro x y hx h hv hset0
  rcases stepQI_shape v set x y h with rfl | ⟨q, hq, rfl⟩
  · exact hx
  · rw [hv] at hq
    have : (0 : ℚ) = q := (Except.ok.injEq _ _).mp hq
    rw [←this]
    exact hset0 x

theorem step20b_keep {f : PyVal} {g : Rec3CD → ℚ} :
    ∀ x y, g x = 0 →
      (step20bJson f x = Except.ok y ∨ step20bJson f x = Except.error y) →
      (∀ r q, g (set20b r q) = g r) → g y = 0 := by
  intro x y hx h hset
  rcases step20b_shape f x y h with rfl | ⟨q, rfl⟩
  · exact hx
  · rw [hset]; exact hx

theorem stepName_keep {itr : PyVal} {g : RecITR → ℚ} :
    ∀ x y, g x = 0 →
      (stepNameItr itr x = Except.ok y ∨ stepNameItr itr x = Except.error y) →
      (∀ r nm, g (setName r nm) = g r) → g y = 0 := by
  intro x y hx h hset
  rcases stepName_shape itr x y h with rfl | ⟨nm, rfl⟩
  · exact hx
  · rw [hset]; exact hx

/-- When the PF collection resolves to the empty list, the c20b step merely
rewrites the current (zero) value. -/
theorem step20b_absent {f : PyVal} (hpf : valPfJson f = Except.ok (PyVal.list []))
    (x : Rec3CD) : step20bJson f x = Except.ok (set20b x x.c20b) := by
  unfold step20bJson
  rw [hpf]
  rfl

theorem step20b_zero {f : PyVal} (hpf : valPfJson f = Except.ok (PyVal.list [])) :
    ∀ x y, x.c20b = 0 →
      (step20bJson f x = Except.ok y ∨ step20bJson f x = Except.error y) →
      y.c20b = 0 := by
  intro x y hx h
  rw [step20b_absent hpf] at h
  rcases h with h | h
  · have : set20b x x.c20b = y := (Except.ok.injEq _ _).mp h
    rw [←this]
    simpa [set20b] using hx
  · exact absurd h (by simp)

/-- When no node carries the tag, the text search yields `None`. -/
theorem get_xml_text_eq_none (root : XNode) (name : String) (h : noTagX root name) :
    get_xml_text root name = Option.none := by
  unfold get_xml_text
  have hf : (iterNodes root).find? (fun el => localTag el.tag == name) = Option.none := by
    apply List.find?_eq_none.mpr
    intro x hx
    simpa using h x hx
  rw [hf]

/-- When no node carries the tag, `findall` yields the empty list. -/
theorem findallNS_eq_nil (root : XNode) (name : String) (h : noTagX root name) :
    findallNS root name = [] := by
  unfold findallNS
  apply List.filter_eq_nil_iff.mpr
  intro x hx
  have hx2 : x ∈ iterNodes root := by
    cases root with
    | mk t txt cs =>
        have : iterNodes (XNode.mk t txt cs) = XNode.mk t txt cs :: iterForest cs := rfl
        rw [this]
        exact List.mem_cons_of_mem _ hx
  simpa using h x hx2

/-- Removal takes a key out of the dict. -/
theorem lookupD_remove_mem (fs : List (String × PyVal)) (ks : List String)
    (key : String) (h : key ∈ ks) :
    lookupD (removeKeys fs ks) key = Option.none := by
  induction fs with
  | nil => rfl
  | cons p ps ih =>
      by_cases hm : p.1 ∈ ks
      · have hdrop : removeKeys (p :: ps) ks = removeKeys ps ks := by
          simp [removeKeys, List.filter_cons, hm]
        rw [hdrop]
        exact ih
      · have hne : (p.1 == key) = false := by
          apply beq_eq_false_iff_ne.mpr
          intro hpk
          exact hm (hpk ▸ h)
        have hkeep : removeKeys (p :: ps) ks = p :: removeKeys ps ks := by
          simp [removeKeys, List.filter_cons, hm]
        rw [hkeep]
        simp only [lookupD, List.find?, hne] at ih ⊢
        exact ih

/-- Removal leaves the other keys' lookups unchanged. -/
theorem lookupD_remove_not_mem (fs : List (String × PyVal)) (ks : List String)
    (key : String) (h : key ∉ ks) :
    lookupD (removeKeys fs ks) key = lookupD fs key := by
  induction fs with
  | nil => rfl
  | cons p ps ih =>
      by_cases hm : p.1 ∈ ks
      · have hne : (p.1 == key) = false := by
          apply beq_eq_false_iff_ne.mpr
          intro hpk
          exact h (hpk ▸ hm)
        have hdrop : removeKeys (p :: ps) ks = removeKeys ps ks := by
          simp [removeKeys, List.filter_cons, hm]
        rw [hdrop, ih]
        simp [lookupD, List.find?, hne]
      · have hkeep : removeKeys (p :: ps) ks = p :: removeKeys ps ks := by
          simp [removeKeys, List.filter_cons, hm]
        rw [hkeep]
        by_cases hpk : (p.1 == key) = true
        · simp [lookupD, List.find?, hpk]
        · have hpk2 : (p.1 == key) = false := Bool.eq_false_iff.mpr hpk
          simp only [lookupD, List.find?, hpk2] at ih ⊢
          exact ih

/-! Value-level absence lemmas: when a clause's source keys are missing,
its value expression evaluates (without raising) to 0 or to the empty
list. -/

theorem valPf_absent (fs : List (String × PyVal))
    (h1 : lookupD fs "Form3cdEmpPfSuperannInfo" = Option.none)
    (h2 : lookupD fs "Form3cdSect20b" = Option.none) :
    valPfJson (PyVal.dict fs) = Except.ok (PyVal.list []) := by
  unfold valPfJson
  simp only [pyGet_dict, h1, h2]
  rfl

theorem val21a_absent (fs : List (String × PyVal))
    (h : lookupD fs "Form3cdDebPLExpnditure" = Option.none) :
    val21aJson (PyVal.dict fs) = Except.ok 0 := by
  unfold val21aJson
  simp only [pyGet_dict, h]
  rfl

theorem val43bh_absent (fs : List (String × PyVal))
    (h : lookupD fs "Form3cdUnpaidStrySec43b" = Option.none) :
    val43bhJson (PyVal.dict fs) = Except.ok 0 := by
  unfold val43bhJson
  simp only [pyGet_dict, h]
  rfl

theorem val21d_absent (fs : List (String × PyVal))
    (h : lookupD fs "AmountDisallowance40A3" = Option.none) :
    val21dJson (PyVal.dict fs) = Except.ok 0 := by
  unfold val21dJson
  simp only [pyGet_dict, h]
  rfl

theorem val21i_absent (fs : List (String × PyVal))
    (h : lookupD fs "AmountDisallowance40ai" = Option.none) :
    val21iJson (PyVal.dict fs) = Except.ok 0 := by
  unfold val21iJson
  simp only [pyGet_dict, h]
  rfl

theorem val22_absent (fs : List (String × PyVal))
    (h : lookupD fs "Form3cdInadm" = Option.none) :
    val22Json (PyVal.dict fs) = Except.ok 0 := by
  unfold val22Json
  simp only [pyGet_dict, h]
  rfl

theorem val32_absent (fs : List (String × PyVal))
    (h : lookupD fs "Form3cdDeprAllw" = Option.none) :
    val32Json (PyVal.dict fs) = Except.ok 0 := by
  unfold val32Json
  simp only [pyGet_dict, h]
  rfl

theorem val20bItr_absent (ofs : List (String × PyVal))
    (h : lookupD ofs "AmtDisallUs36" = Option.none) :
    val20bItr (PyVal.dict ofs) = Except.ok 0 := by
  unfold val20bItr get2
  simp only [pyGet_dict, h]
  rfl

theorem val21aItr_absent (ofs bfs : List (String × PyVal))
    (h1 : lookupD ofs "AmtDisallUs37" = Option.none)
    (h2 : lookupD bfs "AmtDebPLDisallowUs37" = Option.none) :
    val21aItr (PyVal.dict ofs) (PyVal.dict bfs) = Except.ok 0 := by
  unfold val21aItr get2
  simp only [pyGet_dict, h1, h2]
  rfl

theorem val21dItr_absent (ofs : List (String × PyVal))
    (h : lookupD ofs "AmtDisallUs40A" = Option.none) :
    val21dItr (PyVal.dict ofs) = Except.ok 0 := by
  unfold val21dItr get2
  simp only [pyGet_dict, h]
  rfl

theorem val21iItr_absent (ofs : List (String × PyVal))
    (h : lookupD ofs "AmtDisallUs40" = Option.none) :
    val21iItr (PyVal.dict ofs) = Except.ok 0 := by
  unfold val21iItr get2
  simp only [pyGet_dict, h]
  rfl

theorem val22Itr_absent (ofs : List (String × PyVal))
    (h : lookupD ofs "AmtDisall43B" = Option.none) :
    val22Itr (PyVal.dict ofs) = Except.ok 0 := by
  unfold val22Itr get3
  simp only [pyGet_dict, h]
  rfl

theorem val32Itr_absent (bfs : List (String × PyVal))
    (h : lookupD bfs "DepreciationAllowITAct32" = Option.none) :
    val32Itr (PyVal.dict bfs) = Except.ok 0 := by
  unfold val32Itr get2
  simp only [pyGet_dict, h]
  rfl

theorem val43bhItr_absent (ofs : List (String × PyVal))
    (h1 : lookupD ofs "AmtDisallUs43BPyNowAll" = Option.none)
    (h2 : lookupD ofs "AmtDisallUs43B" = Option.none) :
    val43bhItr (PyVal.dict ofs) = Except.ok 0 := by
  unfold val43bhItr get3
  simp only [pyGet_dict, h1, h2]
  rfl

/-! Value-level congruence: each clause's value expression reads the form
dict only through its own source keys. -/

theorem valPf_congr (fs fs2 : List (String × PyVal))
    (h1 : lookupD fs2 "Form3cdEmpPfSuperannInfo" = lookupD fs "Form3cdEmpPfSuperannInfo")
    (h2 : lookupD fs2 "Form3cdSect20b" = lookupD fs "Form3cdSect20b") :
    valPfJson (PyVal.dict fs2) = valPfJson (PyVal.dict fs) := by
  unfold valPfJson
  simp only [pyGet_dict, h1, h2]

theorem val21a_congr (fs fs2 : List (String × PyVal))
    (h : lookupD fs2 "Form3cdDebPLExpnditure" = lookupD fs "Form3cdDebPLExpnditure") :
    val21aJson (PyVal.dict fs2) = val21aJson (PyVal.dict fs) := by
  unfold val21aJson
  simp only [pyGet_dict, h]

theorem val43bh_congr (fs fs2 : List (String × PyVal))
    (h : lookupD fs2 "Form3cdUnpaidStrySec43b" = lookupD fs "Form3cdUnpaidStrySec43b") :
    val43bhJson (PyVal.dict fs2) = val43bhJson (PyVal.dict fs) := by
  unfold val43bhJson
  simp only [pyGet_dict, h]

theorem val21d_congr (fs fs2 : List (String × PyVal))
    (h : lookupD fs2 "AmountDisallowance40A3" = lookupD fs "AmountDisallowance40A3") :
    val21dJson (PyVal.dict fs2) = val21dJson (PyVal.dict fs) := by
  unfold val21dJson
  simp only [pyGet_dict, h]

theorem val21i_congr (fs fs2 : List (String × PyVal))
    (h : lookupD fs2 "AmountDisallowance40ai" = lookupD fs "AmountDisallowance40ai") :
    val21iJson (PyVal.dict fs2) = val21iJson (PyVal.dict fs) := by
  unfold val21iJson
  simp only [pyGet_dict, h]

theorem val22_congr (fs fs2 : List (String × PyVal))
    (h : lookupD fs2 "Form3cdInadm" = lookupD fs "Form3cdInadm") :
    val22Json (PyVal.dict fs2) = val22Json (PyVal.dict fs) := by
  unfold val22Json
  simp only [pyGet_dict, h]

theorem val32_congr (fs fs2 : List (String × PyVal))
    (h : lookupD fs2 "Form3cdDeprAllw" = lookupD fs "Form3cdDeprAllw") :
    val32Json (PyVal.dict fs2) = val32Json (PyVal.dict fs) := by
  unfold val32Json
  simp only [pyGet_dict, h]

/-- When every statement of the audit extractor's JSON block succeeds, the
result record collects exactly the statement values. -/
theorem body3cd_char (f pf : PyVal) (xs : List PyVal)
    (t q21a q43 q21d q21i q22v q32v : ℚ)
    (h1 : valPfJson f = Except.ok pf) (h2 : pyIter pf = Except.ok xs)
    (h3 : loop20bJson xs 0 = Except.ok t)
    (h4 : val21aJson f = Except.ok q21a) (h5 : val43bhJson f = Except.ok q43)
    (h6 : val21dJson f = Except.ok q21d) (h7 : val21iJson f = Except.ok q21i)
    (h8 : val22Json f = Except.ok q22v) (h9 : val32Json f = Except.ok q32v) :
    runE (steps3cdJson f) zero3CD =
        Except.ok ⟨t, q21a, q21d, q21i, q22v, q32v, q43⟩ ∧
    body3cdJson f = ⟨t, q21a, q21d, q21i, q22v, q32v, q43⟩ := by
  have hrun : runE (steps3cdJson f) zero3CD =
      Except.ok ⟨t, q21a, q21d, q21i, q22v, q32v, q43⟩ := by
    unfold steps3cdJson step20bJson stepQ3
    simp only [runE, zero3CD, h1, h2, h3, h4, h5, h6, h7, h8, h9,
      set20b, set21a, set43bh, set21d, set21i, set22, set32]
  refine ⟨hrun, ?_⟩
  unfold body3cdJson runAll
  rw [hrun]

/-- Inversion: a completed run of the audit JSON block determines every
statement value from the result record. -/
theorem run3cd_ok_inv (f : PyVal) (rf : Rec3CD)
    (h : runE (steps3cdJson f) zero3CD = Except.ok rf) :
    ∃ pf xs, valPfJson f = Except.ok pf ∧ pyIter pf = Except.ok xs ∧
      loop20bJson xs 0 = Except.ok rf.c20b ∧
      val21aJson f = Except.ok rf.c21a ∧ val43bhJson f = Except.ok rf.c43bh ∧
      val21dJson f = Except.ok rf.c21d ∧ val21iJson f = Except.ok rf.c21i ∧
      val22Json f = Except.ok rf.c22 ∧ val32Json f = Except.ok rf.c32 := by
  unfold steps3cdJson step20bJson stepQ3 at h
  cases e1 : valPfJson f with
  | error u => simp [runE, e1] at h
  | ok pf =>
  simp only [runE, e1] at h
  cases e2 : pyIter pf with
  | error u => simp [runE, e2] at h
  | ok xs =>
  simp only [runE, e2, zero3CD] at h
  cases e3 : loop20bJson xs 0 with
  | error u => simp [runE, e3] at h
  | ok t =>
  simp only [runE, e3] at h
  cases e4 : val21aJson f with
  | error u => simp [runE, e4] at h
  | ok q21a =>
  simp only [runE, e4] at h
  cases e5 : val43bhJson f with
  | error u => simp [runE, e5] at h
  | ok q43 =>
  simp only [runE, e5] at h
  cases e6 : val21dJson f with
  | error u => simp [runE, e6] at h
  | ok q21d =>
  simp only [runE, e6] at h
  cases e7 : val21iJson f with
  | error u => simp [runE, e7] at h
  | ok q21i =>
  simp only [runE, e7] at h
  cases e8 : val22Json f with
  | error u => simp [runE, e8] at h
  | ok q22v =>
  simp only [runE, e8] at h
  cases e9 : val32Json f with
  | error u => simp [runE, e9] at h
  | ok q32v =>
  simp only [runE, e9] at h
  have hrec : (⟨t, q21a, q21d, q21i, q22v, q32v, q43⟩ : Rec3CD) = rf := by
    have := h
    simp only [set20b, set21a, set43bh, set21d, set21i, set22, set32, zero3CD] at this
    exact (Except.ok.injEq _ _).mp this
  rw [←hrec]
  exact ⟨pf, xs, rfl, e2, e3, rfl, rfl, rfl, rfl, rfl, rfl⟩

/-! Record-level absence lemmas for the structured audit extractor: a clause
whose source keys are missing ends at 0 in the returned record, whatever the
other statements do (including raising). -/

theorem absent3cd_c20b (fs : List (String × PyVal))
    (h1 : lookupD fs "Form3cdEmpPfSuperannInfo" = Option.none)
    (h2 : lookupD fs "Form3cdSect20b" = Option.none) :
    (body3cdJson (PyVal.dict fs)).c20b = 0 := by
  have hpf := valPf_absent fs h1 h2
  unfold body3cdJson
  refine runAll_preserve (fun (r : Rec3CD) => r.c20b = 0) _ _ ?_ rfl
  intro s hs x y hx hxy
  simp only [steps3cdJson, List.mem_cons, List.not_mem_nil, or_false] at hs
  rcases hs with rfl | rfl | rfl | rfl | rfl | rfl | rfl
  · exact step20b_zero hpf x y hx hxy
  · exact stepQ3_keep x y hx hxy (fun r q => rfl)
  · exact stepQ3_keep x y hx hxy (fun r q => rfl)
  · exact stepQ3_keep x y hx hxy (fun r q => rfl)
  · exact stepQ3_keep x y hx hxy (fun r q => rfl)
  · exact stepQ3_keep x y hx hxy (fun r q => rfl)
  · exact stepQ3_keep x y hx hxy (fun r q => rfl)

theorem absent3cd_c21a (fs : List (String × PyVal))
    (h : lookupD fs "Form3cdDebPLExpnditure" = Option.none) :
    (body3cdJson (PyVal.dict fs)).c21a = 0 := by
  have hv := val21a_absent fs h
  unfold body3cdJson
  refine runAll_preserve (fun (r : Rec3CD) => r.c21a = 0) _ _ ?_ rfl
  intro s hs x y hx hxy
  simp only [steps3cdJson, List.mem_cons, List.not_mem_nil, or_false] at hs
  rcases hs with rfl | rfl | rfl | rfl | rfl | rfl | rfl
  · exact step20b_keep x y hx hxy (fun r q => rfl)
  · exact stepQ3_zero x y hx hxy hv (fun r => rfl)
  · exact stepQ3_keep x y hx hxy (fun r q => rfl)
  · exact stepQ3_keep x y hx hxy (fun r q => rfl)
  · exact stepQ3_keep x y hx hxy (fun r q => rfl)
  · exact stepQ3_keep x y hx hxy (fun r q => rfl)
  · exact stepQ3_keep x y hx hxy (fun r q => rfl)

theorem absent3cd_c43bh (fs : List (String × PyVal))
    (h : lookupD fs "Form3cdUnpaidStrySec43b" = Option.none) :
    (body3cdJson (PyVal.dict fs)).c43bh = 0 := by
  have hv := val43bh_absent fs h
  unfold body3cdJson
  refine runAll_preserve (fun (r : Rec3CD) => r.c43bh = 0) _ _ ?_ rfl
  intro s hs x y hx hxy
  simp only [steps3cdJson, List.mem_cons, List.not_mem_nil, or_false] at hs
  rcases hs with rfl | rfl | rfl | rfl | rfl | rfl | rfl
  · exact step20b_keep x y hx hxy (fun r q => rfl)
  · exact stepQ3_keep x y hx hxy (fun r q => rfl)
  · exact stepQ3_zero x y hx hxy hv (fun r => rfl)
  · exact stepQ3_keep x y hx hxy (fun r q => rfl)
  · exact stepQ3_keep x y hx hxy (fun r q => rfl)
  · exact stepQ3_keep x y hx hxy (fun r q => rfl)
  · exact stepQ3_keep x y hx hxy (fun r q => rfl)

theorem absent3cd_c21d (fs : List (String × PyVal))
    (h : lookupD fs "AmountDisallowance40A3" = Option.none) :
    (body3cdJson (PyVal.dict fs)).c21d = 0 := by
  have hv := val21d_absent fs h
  unfold body3cdJson
  refine runAll_preserve (fun (r : Rec3CD) => r.c21d = 0) _ _ ?_ rfl
  intro s hs x y hx hxy
  simp only [steps3cdJson, List.mem_cons, List.not_mem_nil, or_false] at hs
  rcases hs with rfl | rfl | rfl | rfl | rfl | rfl | rfl
  · exact step20b_keep x y hx hxy (fun r q => rfl)
  · exact stepQ3_keep x y hx hxy (fun r q => rfl)
  · exact stepQ3_keep x y hx hxy (fun r q => rfl)
  · exact stepQ3_zero x y hx hxy hv (fun r => rfl)
  · exact stepQ3_keep x y hx hxy (fun r q => rfl)
  · exact stepQ3_keep x y hx hxy (fun r q => rfl)
  · exact stepQ3_keep x y hx hxy (fun r q => rfl)

theorem absent3cd_c21i (fs : List (String × PyVal))
    (h : lookupD fs "AmountDisallowance40ai" = Option.none) :
    (body3cdJson (PyVal.dict fs)).c21i = 0 := by
  have hv := val21i_absent fs h
  unfold body3cdJson
  refine runAll_preserve (fun (r : Rec3CD) => r.c21i = 0) _ _ ?_ rfl
  intro s hs x y hx hxy
  simp only [steps3cdJson, List.mem_cons, List.not_mem_nil, or_false] at hs
  rcases hs with rfl | rfl | rfl | rfl | rfl | rfl | rfl
  · exact step20b_keep x y hx hxy (fun r q => rfl)
  · exact stepQ3_keep x y hx hxy (fun r q => rfl)
  · exact stepQ3_keep x y hx hxy (fun r q => rfl)
  · exact stepQ3_keep x y hx hxy (fun r q => rfl)
  · exact stepQ3_zero x y hx hxy hv (fun r => rfl)
  · exact stepQ3_keep x y hx hxy (fun r q => rfl)
  · exact stepQ3_keep x y hx hxy (fun r q => rfl)

theorem absent3cd_c22 (fs : List (String × PyVal))
    (h : lookupD fs "Form3cdInadm" = Option.none) :
    (body3cdJson (PyVal.dict fs)).c22 = 0 := by
  have hv := val22_absent fs h
  unfold body3cdJson
  refine runAll_preserve (fun (r : Rec3CD) => r.c22 = 0) _ _ ?_ rfl
  intro s hs x y hx hxy
  simp only [steps3cdJson, List.mem_cons, List.not_mem_nil, or_false] at hs
  rcases hs with rfl | rfl | rfl | rfl | rfl | rfl | rfl
  · exact step20b_keep x y hx hxy (fun r q => rfl)
  · exact stepQ3_keep x y hx hxy (fun r q => rfl)
  · exact stepQ3_keep x y hx hxy (fun r q => rfl)
  · exact stepQ3_keep x y hx hxy (fun r q => rfl)
  · exact stepQ3_keep x y hx hxy (fun r q => rfl)
  · exact stepQ3_zero x y hx hxy hv (fun r => rfl)
  · exact stepQ3_keep x y hx hxy (fun r q => rfl)

theorem absent3cd_c32 (fs : List (String × PyVal))
    (h : lookupD fs "Form3cdDeprAllw" = Option.none) :
    (body3cdJson (PyVal.dict fs)).c32 = 0 := by
  have hv := val32_absent fs h
  unfold body3cdJson
  refine runAll_preserve (fun (r : Rec3CD) => r.c32 = 0) _ _ ?_ rfl
  intro s hs x y hx hxy
  simp only [steps3cdJson, List.mem_cons, List.not_mem_nil, or_false] at hs
  rcases hs with rfl | rfl | rfl | rfl | rfl | rfl | rfl
  · exact step20b_keep x y hx hxy (fun r q => rfl)
  · exact stepQ3_keep x y hx hxy (fun r q => rfl)
  · exact stepQ3_keep x y hx hxy (fun r q => rfl)
  · exact stepQ3_keep x y hx hxy (fun r q => rfl)
  · exact stepQ3_keep x y hx hxy (fun r q => rfl)
  · exact stepQ3_keep x y hx hxy (fun r q => rfl)
  · exact stepQ3_zero x y hx hxy hv (fun r => rfl)

/-- Frame property for the structured audit extractor: removing a clause's
source keys zeroes that clause and leaves every other clause's value as in
the unmodified document (when the original extraction raised no exception). -/
theorem frame3cd (k : String) (hk : k ∈ clauseKeys)
    (fs : List (String × PyVal)) (rf : Rec3CD)
    (h : runE (steps3cdJson (PyVal.dict fs)) zero3CD = Except.ok rf) :
    (body3cdJson (PyVal.dict (removeKeys fs (srcKeys3cd k)))).find k = some 0 ∧
    (∀ j ∈ clauseKeys, j ≠ k →
      (body3cdJson (PyVal.dict (removeKeys fs (srcKeys3cd k)))).find j = rf.find j) := by
  obtain ⟨pf, xs, e1, e2, e3, e4, e5, e6, e7, e8, e9⟩ := run3cd_ok_inv _ _ h
  simp only [clauseKeys, List.mem_cons, List.not_mem_nil, or_false] at hk
  rcases hk with rfl | rfl | rfl | rfl | rfl | rfl | rfl
  -- clause c20b
  · have habs1 := lookupD_remove_mem fs (srcKeys3cd "c20b") "Form3cdEmpPfSuperannInfo" (by decide)
    have habs2 := lookupD_remove_mem fs (srcKeys3cd "c20b") "Form3cdSect20b" (by decide)
    have hpf2 := valPf_absent _ habs1 habs2
    have hc21a2 : val21aJson (PyVal.dict (removeKeys fs (srcKeys3cd "c20b"))) = Except.ok rf.c21a := by
      rw [val21a_congr fs _ (lookupD_remove_not_mem fs _ _ (by decide))]
      exact e4
    have hc43bh2 : val43bhJson (PyVal.dict (removeKeys fs (srcKeys3cd "c20b"))) = Except.ok rf.c43bh := by
      rw [val43bh_congr fs _ (lookupD_remove_not_mem fs _ _ (by decide))]
      exact e5
    have hc21d2 : val21dJson (PyVal.dict (removeKeys fs (srcKeys3cd "c20b"))) = Except.ok rf.c21d := by
      rw [val21d_congr fs _ (lookupD_remove_not_mem fs _ _ (by decide))]
      exact e6
    have hc21i2 : val21iJson (PyVal.dict (removeKeys fs (srcKeys3cd "c20b"))) = Except.ok rf.c21i := by
      rw [val21i_congr fs _ (lookupD_remove_not_mem fs _ _ (by decide))]
      exact e7
    have hc222 : val22Json (PyVal.dict (removeKeys fs (srcKeys3cd "c20b"))) = Except.ok rf.c22 := by
      rw [val22_congr fs _ (lookupD_remove_not_mem fs _ _ (by decide))]
      exact e8
    have hc322 : val32Json (PyVal.dict (removeKeys fs (srcKeys3cd "c20b"))) = Except.ok rf.c32 := by
      rw [val32_congr fs _ (lookupD_remove_not_mem fs _ _ (by decide))]
      exact e9
    have hb := (body3cd_char _ (PyVal.list []) [] 0 rf.c21a rf.c43bh rf.c21d rf.c21i rf.c22 rf.c32
      hpf2 rfl rfl hc21a2 hc43bh2 hc21d2 hc21i2 hc222 hc322).2
    refine ⟨by rw [hb]; rfl, ?_⟩
    intro j hj hne
    simp only [clauseKeys, List.mem_cons, List.not_mem_nil, or_false] at hj
    rcases hj with rfl | rfl | rfl | rfl | rfl | rfl | rfl
    · exact absurd rfl hne
    · rw [hb]; rfl
    · rw [hb]; rfl
    · rw [hb]; rfl
    · rw [hb]; rfl
    · rw [hb]; rfl
    · rw [hb]; rfl
  -- clause c21a
  · have hpf2 : valPfJson (PyVal.dict (removeKeys fs (srcKeys3cd "c21a"))) = Except.ok pf := by
      rw [valPf_congr fs _ (lookupD_remove_not_mem fs _ _ (by decide)) (lookupD_remove_not_mem fs _ _ (by decide))]
      exact e1
    have hzero : val21aJson (PyVal.dict (removeKeys fs (srcKeys3cd "c21a"))) = Except.ok 0 :=
      val21a_absent _ (lookupD_remove_mem fs (srcKeys3cd "c21a") "Form3cdDebPLExpnditure" (by decide))
    have hc43bh2 : val43bhJson (PyVal.dict (removeKeys fs (srcKeys3cd "c21a"))) = Except.ok rf.c43bh := by
      rw [val43bh_congr fs _ (lookupD_remove_not_mem fs _ _ (by decide))]
      exact e5
    have hc21d2 : val21dJson (PyVal.dict (removeKeys fs (srcKeys3cd "c21a"))) = Except.ok rf.c21d := by
      rw [val21d_congr fs _ (lookupD_remove_not_mem fs _ _ (by decide))]
      exact e6
    have hc21i2 : val21iJson (PyVal.dict (removeKeys fs (srcKeys3cd "c21a"))) = Except.ok rf.c21i := by
      rw [val21i_congr fs _ (lookupD_remove_not_mem fs _ _ (by decide))]
      exact e7
    have hc222 : val22Json (PyVal.dict (removeKeys fs (srcKeys3cd "c21a"))) = Except.ok rf.c22 := by
      rw [val22_congr fs _ (lookupD_remove_not_mem fs _ _ (by decide))]
      exact e8
    have hc322 : val32Json (PyVal.dict (removeKeys fs (srcKeys3cd "c21a"))) = Except.ok rf.c32 := by
      rw [val32_congr fs _ (lookupD_remove_not_mem fs _ _ (by decide))]
      exact e9
    have hb := (body3cd_char _ pf xs rf.c20b 0 rf.c43bh rf.c21d rf.c21i rf.c22 rf.c32
      hpf2 e2 e3 hzero hc43bh2 hc21d2 hc21i2 hc222 hc322).2
    refine ⟨by rw [hb]; rfl, ?_⟩
    intro j hj hne
    simp only [clauseKeys, List.mem_cons, List.not_mem_nil, or_false] at hj
    rcases hj with rfl | rfl | rfl | rfl | rfl | rfl | rfl
    · rw [hb]; rfl
    · exact absurd rfl hne
    · rw [hb]; rfl
    · rw [hb]; rfl
    · rw [hb]; rfl
    · rw [hb]; rfl
    · rw [hb]; rfl
  -- clause c21d
  · have hpf2 : valPfJson (PyVal.dict (removeKeys fs (srcKeys3cd "c21d"))) = Except.ok pf := by
      rw [valPf_congr fs _ (lookupD_remove_not_mem fs _ _ (by decide)) (lookupD_remove_not_mem fs _ _ (by decide))]
      exact e1
    have hzero : val21dJson (PyVal.dict (removeKeys fs (srcKeys3cd "c21d"))) = Except.ok 0 :=
      val21d_absent _ (lookupD_remove_mem fs (srcKeys3cd "c21d") "AmountDisallowance40A3" (by decide))
    have hc21a2 : val21aJson (PyVal.dict (removeKeys fs (srcKeys3cd "c21d"))) = Except.ok rf.c21a := by
      rw [val21a_congr fs _ (lookupD_remove_not_mem fs _ _ (by decide))]
      exact e4
    have hc43bh2 : val43bhJson (PyVal.dict (removeKeys fs (srcKeys3cd "c21d"))) = Except.ok rf.c43bh := by
      rw [val43bh_congr fs _ (lookupD_remove_not_mem fs _ _ (by decide))]
      exact e5
    have hc21i2 : val21iJson (PyVal.dict (removeKeys fs (srcKeys3cd "c21d"))) = Except.ok rf.c21i := by
      rw [val21i_congr fs _ (lookupD_remove_not_mem fs _ _ (by decide))]
      exact e7
    have hc222 : val22Json (PyVal.dict (removeKeys fs (srcKeys3cd "c21d"))) = Except.ok rf.c22 := by
      rw [val22_congr fs _ (lookupD_remove_not_mem fs _ _ (by decide))]
      exact e8
    have hc322 : val32Json (PyVal.dict (removeKeys fs (srcKeys3cd "c21d"))) = Except.ok rf.c32 := by
      rw [val32_congr fs _ (lookupD_remove_not_mem fs _ _ (by decide))]
      exact e9
    have hb := (body3cd_char _ pf xs rf.c20b rf.c21a rf.c43bh 0 rf.c21i rf.c22 rf.c32
      hpf2 e2 e3 hc21a2 hc43bh2 hzero hc21i2 hc222 hc322).2
    refine ⟨by rw [hb]; rfl, ?_⟩
    intro j hj hne
    simp only [clauseKeys, List.mem_cons, List.not_mem_nil, or_false] at hj
    rcases hj with rfl | rfl | rfl | rfl | rfl | rfl | rfl
    · rw [hb]; rfl
    · rw [hb]; rfl
    · exact absurd rfl hne
    · rw [hb]; rfl
    · rw [hb]; rfl
    · rw [hb]; rfl
    · rw [hb]; rfl
  -- clause c21i
  · have hpf2 : valPfJson (PyVal.dict (removeKeys fs (srcKeys3cd "c21i"))) = Except.ok pf := by
      rw [valPf_congr fs _ (lookupD_remove_not_mem fs _ _ (by decide)) (lookupD_remove_not_mem fs _ _ (by decide))]
      exact e1
    have hzero : val21iJson (PyVal.dict (removeKeys fs (srcKeys3cd "c21i"))) = Except.ok 0 :=
      val21i_absent _ (lookupD_remove_mem fs (srcKeys3cd "c21i") "AmountDisallowance40ai" (by decide))
    have hc21a2 : val21aJson (PyVal.dict (removeKeys fs (srcKeys3cd "c21i"))) = Except.ok rf.c21a := by
      rw [val21a_congr fs _ (lookupD_remove_not_mem fs _ _ (by decide))]
      exact e4
    have hc43bh2 : val43bhJson (PyVal.dict (removeKeys fs (srcKeys3cd "c21i"))) = Except.ok rf.c43bh := by
      rw [val43bh_congr fs _ (lookupD_remove_not_mem fs _ _ (by decide))]
      exact e5
    have hc21d2 : val21dJson (PyVal.dict (removeKeys fs (srcKeys3cd "c21i"))) = Except.ok rf.c21d := by
      rw [val21d_congr fs _ (lookupD_remove_not_mem fs _ _ (by decide))]
      exact e6
    have hc222 : val22Json (PyVal.dict (removeKeys fs (srcKeys3cd "c21i"))) = Except.ok rf.c22 := by
      rw [val22_congr fs _ (lookupD_remove_not_mem fs _ _ (by decide))]
      exact e8
    have hc322 : val32Json (PyVal.dict (removeKeys fs (srcKeys3cd "c21i"))) = Except.ok rf.c32 := by
      rw [val32_congr fs _ (lookupD_remove_not_mem fs _ _ (by decide))]
      exact e9
    have hb := (body3cd_char _ pf xs rf.c20b rf.c21a rf.c43bh rf.c21d 0 rf.c22 rf.c32
      hpf2 e2 e3 hc21a2 hc43bh2 hc21d2 hzero hc222 hc322).2
    refine ⟨by rw [hb]; rfl, ?_⟩
    intro j hj hne
    simp only [clauseKeys, List.mem_cons, List.not_mem_nil, or_false] at hj
    rcases hj with rfl | rfl | rfl | rfl | rfl | rfl | rfl
    · rw [hb]; rfl
    · rw [hb]; rfl
    · rw [hb]; rfl
    · exact absurd rfl hne
    · rw [hb]; rfl
    · rw [hb]; rfl
    · rw [hb]; rfl
  -- clause c22
  · have hpf2 : valPfJson (PyVal.dict (removeKeys fs (srcKeys3cd "c22"))) = Except.ok pf := by
      rw [valPf_congr fs _ (lookupD_remove_not_mem fs _ _ (by decide)) (lookupD_remove_not_mem fs _ _ (by decide))]
      exact e1
    have hzero : val22Json (PyVal.dict (removeKeys fs (srcKeys3cd "c22"))) = Except.ok 0 :=
      val22_absent _ (lookupD_remove_mem fs (srcKeys3cd "c22") "Form3cdInadm" (by decide))
    have hc21a2 : val21aJson (PyVal.dict (removeKeys fs (srcKeys3cd "c22"))) = Except.ok rf.c21a := by
      rw [val21a_congr fs _ (lookupD_remove_not_mem fs _ _ (by decide))]
      exact e4
    have hc43bh2 : val43bhJson (PyVal.dict (removeKeys fs (srcKeys3cd "c22"))) = Except.ok rf.c43bh := by
      rw [val43bh_congr fs _ (lookupD_remove_not_mem fs _ _ (by decide))]
      exact e5
    have hc21d2 : val21dJson (PyVal.dict (removeKeys fs (srcKeys3cd "c22"))) = Except.ok rf.c21d := by
      rw [val21d_congr fs _ (lookupD_remove_not_mem fs _ _ (by decide))]
      exact e6
    have hc21i2 : val21iJson (PyVal.dict (removeKeys fs (srcKeys3cd "c22"))) = Except.ok rf.c21i := by
      rw [val21i_congr fs _ (lookupD_remove_not_mem fs _ _ (by decide))]
      exact e7
    have hc322 : val32Json (PyVal.dict (removeKeys fs (srcKeys3cd "c22"))) = Except.ok rf.c32 := by
      rw [val32_congr fs _ (lookupD_remove_not_mem fs _ _ (by decide))]
      exact e9
    have hb := (body3cd_char _ pf xs rf.c20b rf.c21a rf.c43bh rf.c21d rf.c21i 0 rf.c32
      hpf2 e2 e3 hc21a2 hc43bh2 hc21d2 hc21i2 hzero hc322).2
    refine ⟨by rw [hb]; rfl, ?_⟩
    intro j hj hne
    simp only [clauseKeys, List.mem_cons, List.not_mem_nil, or_false] at hj
    rcases hj with rfl | rfl | rfl | rfl | rfl | rfl | rfl
    · rw [hb]; rfl
    · rw [hb]; rfl
    · rw [hb]; rfl
    · rw [hb]; rfl
    · exact absurd rfl hne
    · rw [hb]; rfl
    · rw [hb]; rfl
  -- clause c32
  · have hpf2 : valPfJson (PyVal.dict (removeKeys fs (srcKeys3cd "c32"))) = Except.ok pf := by
      rw [valPf_congr fs _ (lookupD_remove_not_mem fs _ _ (by decide)) (lookupD_remove_not_mem fs _ _ (by decide))]
      exact e1
    have hzero : val32Json (PyVal.dict (removeKeys fs (srcKeys3cd "c32"))) = Except.ok 0 :=
      val32_absent _ (lookupD_remove_mem fs (srcKeys3cd "c32") "Form3cdDeprAllw" (by decide))
    have hc21a2 : val21aJson (PyVal.dict (removeKeys fs (srcKeys3cd "c32"))) = Except.ok rf.c21a := by
      rw [val21a_congr fs _ (lookupD_remove_not_mem fs _ _ (by decide))]
      exact e4
    have hc43bh2 : val43bhJson (PyVal.dict (removeKeys fs (srcKeys3cd "c32"))) = Except.ok rf.c43bh := by
      rw [val43bh_congr fs _ (lookupD_remove_not_mem fs _ _ (by decide))]
      exact e5
    have hc21d2 : val21dJson (PyVal.dict (removeKeys fs (srcKeys3cd "c32"))) = Except.ok rf.c21d := by
      rw [val21d_congr fs _ (lookupD_remove_not_mem fs _ _ (by decide))]
      exact e6
    have hc21i2 : val21iJson (PyVal.dict (removeKeys fs (srcKeys3cd "c32"))) = Except.ok rf.c21i := by
      rw [val21i_congr fs _ (lookupD_remove_not_mem fs _ _ (by decide))]
      exact e7
    have hc222 : val22Json (PyVal.dict (removeKeys fs (srcKeys3cd "c32"))) = Except.ok rf.c22 := by
      rw [val22_congr fs _ (lookupD_remove_not_mem fs _ _ (by decide))]
      exact e8
    have hb := (body3cd_char _ pf xs rf.c20b rf.c21a rf.c43bh rf.c21d rf.c21i rf.c22 0
      hpf2 e2 e3 hc21a2 hc43bh2 hc21d2 hc21i2 hc222 hzero).2
    refine ⟨by rw [hb]; rfl, ?_⟩
    intro j hj hne
    simp only [clauseKeys, List.mem_cons, List.not_mem_nil, or_false] at hj
    rcases hj with rfl | rfl | rfl | rfl | rfl | rfl | rfl
    · rw [hb]; rfl
    · rw [hb]; rfl
    · rw [hb]; rfl
    · rw [hb]; rfl
    · rw [hb]; rfl
    · exact absurd rfl hne
    · rw [hb]; rfl
  -- clause c43bh
  · have hpf2 : valPfJson (PyVal.dict (removeKeys fs (srcKeys3cd "c43bh"))) = Except.ok pf := by
      rw [valPf_congr fs _ (lookupD_remove_not_mem fs _ _ (by decide)) (lookupD_remove_not_mem fs _ _ (by decide))]
      exact e1
    have hzero : val43bhJson (PyVal.dict (removeKeys fs (srcKeys3cd "c43bh"))) = Except.ok 0 :=
      val43bh_absent _ (lookupD_remove_mem fs (srcKeys3cd "c43bh") "Form3cdUnpaidStrySec43b" (by decide))
    have hc21a2 : val21aJson (PyVal.dict (removeKeys fs (srcKeys3cd "c43bh"))) = Except.ok rf.c21a := by
      rw [val21a_congr fs _ (lookupD_remove_not_mem fs _ _ (by decide))]
      exact e4
    have hc21d2 : val21dJson (PyVal.dict (removeKeys fs (srcKeys3cd "c43bh"))) = Except.ok rf.c21d := by
      rw [val21d_congr fs _ (lookupD_remove_not_mem fs _ _ (by decide))]
      exact e6
    have hc21i2 : val21iJson (PyVal.dict (removeKeys fs (srcKeys3cd "c43bh"))) = Except.ok rf.c21i := by
      rw [val21i_congr fs _ (lookupD_remove_not_mem fs _ _ (by decide))]
      exact e7
    have hc222 : val22Json (PyVal.dict (removeKeys fs (srcKeys3cd "c43bh"))) = Except.ok rf.c22 := by
      rw [val22_congr fs _ (lookupD_remove_not_mem fs _ _ (by decide))]
      exact e8
    have hc322 : val32Json (PyVal.dict (removeKeys fs (srcKeys3cd "c43bh"))) = Except.ok rf.c32 := by
      rw [val32_congr fs _ (lookupD_remove_not_mem fs _ _ (by decide))]
      exact e9
    have hb := (body3cd_char _ pf xs rf.c20b rf.c21a 0 rf.c21d rf.c21i rf.c22 rf.c32
      hpf2 e2 e3 hc21a2 hzero hc21d2 hc21i2 hc222 hc322).2
    refine ⟨by rw [hb]; rfl, ?_⟩
    intro j hj hne
    simp only [clauseKeys, List.mem_cons, List.not_mem_nil, or_false] at hj
    rcases hj with rfl | rfl | rfl | rfl | rfl | rfl | rfl
    · rw [hb]; rfl
    · rw [hb]; rfl
    · rw [hb]; rfl
    · rw [hb]; rfl
    · rw [hb]; rfl
    · rw [hb]; rfl
    · exact absurd rfl hne

/-! Record-level absence lemmas for the structured return extractor. -/

theorem absentItr_c20b (itr : PyVal) (ofs bfs : List (String × PyVal))
    (h3 : valOiItr itr = Except.ok (PyVal.dict ofs))
    (h4 : valBpJson itr = Except.ok (PyVal.dict bfs))
    (habs : lookupD ofs "AmtDisallUs36" = Option.none) :
    (bodyItrJson itr).c20b = 0 := by
  have hv : (do let oi ← valOiItr itr; let _bp ← valBpJson itr; val20bItr oi : Except Unit ℚ) = Except.ok 0 := by
    simp only [h3, h4, exceptBind_ok]
    exact val20bItr_absent ofs habs
  unfold bodyItrJson
  refine runAll_preserve (fun (r : RecITR) => r.c20b = 0) _ _ ?_ rfl
  intro s hs x y hx hxy
  simp only [steps_itrJson, List.mem_cons, List.not_mem_nil, or_false] at hs
  rcases hs with rfl | rfl | rfl | rfl | rfl | rfl | rfl | rfl
  · exact stepName_keep x y hx hxy (fun r nm => rfl)
  · exact stepQI_zero x y hx hxy hv (fun r => rfl)
  · exact stepQI_keep x y hx hxy (fun r q => rfl)
  · exact stepQI_keep x y hx hxy (fun r q => rfl)
  · exact stepQI_keep x y hx hxy (fun r q => rfl)
  · exact stepQI_keep x y hx hxy (fun r q => rfl)
  · exact stepQI_keep x y hx hxy (fun r q => rfl)
  · exact stepQI_keep x y hx hxy (fun r q => rfl)

theorem absentItr_c21a (itr : PyVal) (ofs bfs : List (String × PyVal))
    (h3 : valOiItr itr = Except.ok (PyVal.dict ofs))
    (h4 : valBpJson itr = Except.ok (PyVal.dict bfs))
    (habs1 : lookupD ofs "AmtDisallUs37" = Option.none)
    (habs2 : lookupD bfs "AmtDebPLDisallowUs37" = Option.none) :
    (bodyItrJson itr).c21a = 0 := by
  have hv : (do val21aItr (← valOiItr itr) (← valBpJson itr) : Except Unit ℚ) = Except.ok 0 := by
    simp only [h3, h4, exceptBind_ok]
    exact val21aItr_absent ofs bfs habs1 habs2
  unfold bodyItrJson
  refine runAll_preserve (fun (r : RecITR) => r.c21a = 0) _ _ ?_ rfl
  intro s hs x y hx hxy
  simp only [steps_itrJson, List.mem_cons, List.not_mem_nil, or_false] at hs
  rcases hs with rfl | rfl | rfl | rfl | rfl | rfl | rfl | rfl
  · exact stepName_keep x y hx hxy (fun r nm => rfl)
  · exact stepQI_keep x y hx hxy (fun r q => rfl)
  · exact stepQI_zero x y hx hxy hv (fun r => rfl)
  · exact stepQI_keep x y hx hxy (fun r q => rfl)
  · exact stepQI_keep x y hx hxy (fun r q => rfl)
  · exact stepQI_keep x y hx hxy (fun r q => rfl)
  · exact stepQI_keep x y hx hxy (fun r q => rfl)
  · exact stepQI_keep x y hx hxy (fun r q => rfl)

theorem absentItr_c21d (itr : PyVal) (ofs bfs : List (String × PyVal))
    (h3 : valOiItr itr = Except.ok (PyVal.dict ofs))
    (h4 : valBpJson itr = Except.ok (PyVal.dict bfs))
    (habs : lookupD ofs "AmtDisallUs40A" = Option.none) :
    (bodyItrJson itr).c21d = 0 := by
  have hv : (do val21dItr (← valOiItr itr) : Except Unit ℚ) = Except.ok 0 := by
    simp only [h3, h4, exceptBind_ok]
    exact val21dItr_absent ofs habs
  unfold bodyItrJson
  refine runAll_preserve (fun (r : RecITR) => r.c21d = 0) _ _ ?_ rfl
  intro s hs x y hx hxy
  simp only [steps_itrJson, List.mem_cons, List.not_mem_nil, or_false] at hs
  rcases hs with rfl | rfl | rfl | rfl | rfl | rfl | rfl | rfl
  · exact stepName_keep x y hx hxy (fun r nm => rfl)
  · exact stepQI_keep x y hx hxy (fun r q => rfl)
  · exact stepQI_keep x y hx hxy (fun r q => rfl)
  · exact stepQI_zero x y hx hxy hv (fun r => rfl)
  · exact stepQI_keep x y hx hxy (fun r q => rfl)
  · exact stepQI_keep x y hx hxy (fun r q => rfl)
  · exact stepQI_keep x y hx hxy (fun r q => rfl)
  · exact stepQI_keep x y hx hxy (fun r q => rfl)

theorem absentItr_c21i (itr : PyVal) (ofs bfs : List (String × PyVal))
    (h3 : valOiItr itr = Except.ok (PyVal.dict ofs))
    (h4 : valBpJson itr = Except.ok (PyVal.dict bfs))
    (habs : lookupD ofs "AmtDisallUs40" = Option.none) :
    (bodyItrJson itr).c21i = 0 := by
  have hv : (do val21iItr (← valOiItr itr) : Except Unit ℚ) = Except.ok 0 := by
    simp only [h3, h4, exceptBind_ok]
    exact val21iItr_absent ofs habs
  unfold bodyItrJson
  refine runAll_preserve (fun (r : RecITR) => r.c21i = 0) _ _ ?_ rfl
  intro s hs x y hx hxy
  simp only [steps_itrJson, List.mem_cons, List.not_mem_nil, or_false] at hs
  rcases hs with rfl | rfl | rfl | rfl | rfl | rfl | rfl | rfl
  · exact stepName_keep x y hx hxy (fun r nm => rfl)
  · exact stepQI_keep x y hx hxy (fun r q => rfl)
  · exact stepQI_keep x y hx hxy (fun r q => rfl)
  · exact stepQI_keep x y hx hxy (fun r q => rfl)
  · exact stepQI_zero x y hx hxy hv (fun r => rfl)
  · exact stepQI_keep x y hx hxy (fun r q => rfl)
  · exact stepQI_keep x y hx hxy (fun r q => rfl)
  · exact stepQI_keep x y hx hxy (fun r q => rfl)

theorem absentItr_c22 (itr : PyVal) (ofs bfs : List (String × PyVal))
    (h3 : valOiItr itr = Except.ok (PyVal.dict ofs))
    (h4 : valBpJson itr = Except.ok (PyVal.dict bfs))
    (habs : lookupD ofs "AmtDisall43B" = Option.none) :
    (bodyItrJson itr).c22 = 0 := by
  have hv : (do val22Itr (← valOiItr itr) : Except Unit ℚ) = Except.ok 0 := by
    simp only [h3, h4, exceptBind_ok]
    exact val22Itr_absent ofs habs
  unfold bodyItrJson
  refine runAll_preserve (fun (r : RecITR) => r.c22 = 0) _ _ ?_ rfl
  intro s hs x y hx hxy
  simp only [steps_itrJson, List.mem_cons, List.not_mem_nil, or_false] at hs
  rcases hs with rfl | rfl | rfl | rfl | rfl | rfl | rfl | rfl
  · exact stepName_keep x y hx hxy (fun r nm => rfl)
  · exact stepQI_keep x y hx hxy (fun r q => rfl)
  · exact stepQI_keep x y hx hxy (fun r q => rfl)
  · exact stepQI_keep x y hx hxy (fun r q => rfl)
  · exact stepQI_keep x y hx hxy (fun r q => rfl)
  · exact stepQI_zero x y hx hxy hv (fun r => rfl)
  · exact stepQI_keep x y hx hxy (fun r q => rfl)
  · exact stepQI_keep x y hx hxy (fun r q => rfl)

theorem absentItr_c32 (itr : PyVal) (ofs bfs : List (String × PyVal))
    (h3 : valOiItr itr = Except.ok (PyVal.dict ofs))
    (h4 : valBpJson itr = Except.ok (PyVal.dict bfs))
    (habs : lookupD bfs "DepreciationAllowITAct32" = Option.none) :
    (bodyItrJson itr).c32 = 0 := by
  have hv : (do val32Itr (← valBpJson itr) : Except Unit ℚ) = Except.ok 0 := by
    simp only [h3, h4, exceptBind_ok]
    exact val32Itr_absent bfs habs
  unfold bodyItrJson
  refine runAll_preserve (fun (r : RecITR) => r.c32 = 0) _ _ ?_ rfl
  intro s hs x y hx hxy
  simp only [steps_itrJson, List.mem_cons, List.not_mem_nil, or_false] at hs
  rcases hs with rfl | rfl | rfl | rfl | rfl | rfl | rfl | rfl
  · exact stepName_keep x y hx hxy (fun r nm => rfl)
  · exact stepQI_keep x y hx hxy (fun r q => rfl)
  · exact stepQI_keep x y hx hxy (fun r q => rfl)
  · exact stepQI_keep x y hx hxy (fun r q => rfl)
  · exact stepQI_keep x y hx hxy (fun r q => rfl)
  · exact stepQI_keep x y hx hxy (fun r q => rfl)
  · exact stepQI_zero x y hx hxy hv (fun r => rfl)
  · exact stepQI_keep x y hx hxy (fun r q => rfl)

theorem absentItr_c43bh (itr : PyVal) (ofs bfs : List (String × PyVal))
    (h3 : valOiItr itr = Except.ok (PyVal.dict ofs))
    (h4 : valBpJson itr = Except.ok (PyVal.dict bfs))
    (habs1 : lookupD ofs "AmtDisallUs43BPyNowAll" = Option.none)
    (habs2 : lookupD ofs "AmtDisallUs43B" = Option.none) :
    (bodyItrJson itr).c43bh = 0 := by
  have hv : (do val43bhItr (← valOiItr itr) : Except Unit ℚ) = Except.ok 0 := by
    simp only [h3, h4, exceptBind_ok]
    exact val43bhItr_absent ofs habs1 habs2
  unfold bodyItrJson
  refine runAll_preserve (fun (r : RecITR) => r.c43bh = 0) _ _ ?_ rfl
  intro s hs x y hx hxy
  simp only [steps_itrJson, List.mem_cons, List.not_mem_nil, or_false] at hs
  rcases hs with rfl | rfl | rfl | rfl | rfl | rfl | rfl | rfl
  · exact stepName_keep x y hx hxy (fun r nm => rfl)
  · exact stepQI_keep x y hx hxy (fun r q => rfl)
  · exact stepQI_keep x y hx hxy (fun r q => rfl)
  · exact stepQI_keep x y hx hxy (fun r q => rfl)
  · exact stepQI_keep x y hx hxy (fun r q => rfl)
  · exact stepQI_keep x y hx hxy (fun r q => rfl)
  · exact stepQI_keep x y hx hxy (fun r q => rfl)
  · exact stepQI_zero x y hx hxy hv (fun r => rfl)

/-! Value-level congruence for the return extractor's clause chains. -/

theorem val20bItr_congr (ofs ofs2 : List (String × PyVal))
    (h : lookupD ofs2 "AmtDisallUs36" = lookupD ofs "AmtDisallUs36") :
    val20bItr (PyVal.dict ofs2) = val20bItr (PyVal.dict ofs) := by
  unfold val20bItr get2
  simp only [pyGet_dict, h]

theorem val21aItr_congr (ofs ofs2 bfs bfs2 : List (String × PyVal))
    (h1 : lookupD ofs2 "AmtDisallUs37" = lookupD ofs "AmtDisallUs37")
    (h2 : lookupD bfs2 "AmtDebPLDisallowUs37" = lookupD bfs "AmtDebPLDisallowUs37") :
    val21aItr (PyVal.dict ofs2) (PyVal.dict bfs2) =
      val21aItr (PyVal.dict ofs) (PyVal.dict bfs) := by
  unfold val21aItr get2
  simp only [pyGet_dict, h1, h2]

theorem val21dItr_congr (ofs ofs2 : List (String × PyVal))
    (h : lookupD ofs2 "AmtDisallUs40A" = lookupD ofs "AmtDisallUs40A") :
    val21dItr (PyVal.dict ofs2) = val21dItr (PyVal.dict ofs) := by
  unfold val21dItr get2
  simp only [pyGet_dict, h]

theorem val21iItr_congr (ofs ofs2 : List (String × PyVal))
    (h : lookupD ofs2 "AmtDisallUs40" = lookupD ofs "AmtDisallUs40") :
    val21iItr (PyVal.dict ofs2) = val21iItr (PyVal.dict ofs) := by
  unfold val21iItr get2
  simp only [pyGet_dict, h]

theorem val22Itr_congr (ofs ofs2 : List (String × PyVal))
    (h : lookupD ofs2 "AmtDisall43B" = lookupD ofs "AmtDisall43B") :
    val22Itr (PyVal.dict ofs2) = val22Itr (PyVal.dict ofs) := by
  unfold val22Itr get3
  simp only [pyGet_dict, h]

theorem val32Itr_congr (bfs bfs2 : List (String × PyVal))
    (h : lookupD bfs2 "DepreciationAllowITAct32" = lookupD bfs "DepreciationAllowITAct32") :
    val32Itr (PyVal.dict bfs2) = val32Itr (PyVal.dict bfs) := by
  unfold val32Itr get2
  simp only [pyGet_dict, h]

theorem val43bhItr_congr (ofs ofs2 : List (String × PyVal))
    (h1 : lookupD ofs2 "AmtDisallUs43BPyNowAll" = lookupD ofs "AmtDisallUs43BPyNowAll")
    (h2 : lookupD ofs2 "AmtDisallUs43B" = lookupD ofs "AmtDisallUs43B") :
    val43bhItr (PyVal.dict ofs2) = val43bhItr (PyVal.dict ofs) := by
  unfold val43bhItr get3
  simp only [pyGet_dict, h1, h2]

/-! Component characterizations of the pure tagged-format extractors: each
clause-key of the result is a function of that clause's own tag searches. -/

theorem audXml_c20b_eq (r : XNode) :
    (parse_3cd_xml (some r)).c20b =
      (findallNS r "Form3cdEmpPfSuperann" ++ findallNS r "Form3cdSect20b").foldl
        (fun acc item =>
          if pfCond item then acc + to_f_text (get_xml_text item "Amount") else acc) 0 := rfl

theorem audXml_c21a_eq (r : XNode) :
    (parse_3cd_xml (some r)).c21a =
      (findallNS r "Form3cdDebPLExpnditure").foldl
        (fun acc i =>
          if xmlPersonal i then acc + to_f_text (get_xml_text i "Amount") else acc) 0 := rfl

theorem audXml_c21d_eq (r : XNode) :
    (parse_3cd_xml (some r)).c21d =
      to_f_text (get_xml_text r "AmountDisallowance40A3") := rfl

theorem audXml_c21i_eq (r : XNode) :
    (parse_3cd_xml (some r)).c21i =
      to_f_text (get_xml_text r "AmountDisallowance40ai") := rfl

theorem audXml_c22_eq (r : XNode) :
    (parse_3cd_xml (some r)).c22 =
      to_f_text (get_xml_text r "SubClauseeofClause22") := rfl

theorem audXml_c32_eq (r : XNode) :
    (parse_3cd_xml (some r)).c32 =
      (findallNS r "Form3cdDeprAllw").foldl
        (fun acc i => acc + to_f_text (get_xml_text i "DepAllowable")) 0 := rfl

theorem audXml_c43bh_eq (r : XNode) :
    (parse_3cd_xml (some r)).c43bh =
      (findallNS r "Form3cdUnpaidStrySec43b").foldl
        (fun acc item =>
          if get_xml_text item "Section" == some "43Bh" then
            acc + to_f_text (get_xml_text item "Amount")
          else acc) 0 := rfl

theorem itrXml_c20b_eq (r : XNode) :
    (parse_itr_xml (some r)).c20b =
      to_f_text (get_xml_text r "EmplyeeContrStatutoryFund") := rfl

theorem itrXml_c21a_eq (r : XNode) :
    (parse_itr_xml (some r)).c21a =
      (if to_f_text (get_xml_text r "PersonalExp") == 0 then
        to_f_text (get_xml_text r "PersonalExpndtr")
      else to_f_text (get_xml_text r "PersonalExp")) := rfl

theorem itrXml_c21d_eq (r : XNode) :
    (parse_itr_xml (some r)).c21d =
      to_f_text (get_xml_text r "AmtDisallowance40A3") := rfl

theorem itrXml_c21i_eq (r : XNode) :
    (parse_itr_xml (some r)).c21i =
      to_f_text (get_xml_text r "AmtDisallowance40ai") := rfl

theorem itrXml_c22_eq (r : XNode) :
    (parse_itr_xml (some r)).c22 =
      to_f_text (get_xml_text r "MSMEDisallowance") := rfl

theorem itrXml_c32_eq (r : XNode) :
    (parse_itr_xml (some r)).c32 =
      to_f_text (get_xml_text r "TotDeprAllowITAct") := rfl

theorem itrXml_c43bh_eq (r : XNode) :
    (parse_itr_xml (some r)).c43bh =
      to_f_text (get_xml_text r "MSEPayable") := rfl

/-- Unaffectedness for the tagged audit extractor: a document in which a
clause's tags are entirely absent while every other clause's source searches
are those of `root` has that clause = 0 and every other clause-key exactly
as extracted from `root`. -/
theorem frameAudXml (root root2 : XNode) :
    (noTagX root2 "Form3cdEmpPfSuperann" →
       noTagX root2 "Form3cdSect20b" →
       findallNS root2 "Form3cdDebPLExpnditure" = findallNS root "Form3cdDebPLExpnditure" →
       get_xml_text root2 "AmountDisallowance40A3" = get_xml_text root "AmountDisallowance40A3" →
       get_xml_text root2 "AmountDisallowance40ai" = get_xml_text root "AmountDisallowance40ai" →
       get_xml_text root2 "SubClauseeofClause22" = get_xml_text root "SubClauseeofClause22" →
       findallNS root2 "Form3cdDeprAllw" = findallNS root "Form3cdDeprAllw" →
       findallNS root2 "Form3cdUnpaidStrySec43b" = findallNS root "Form3cdUnpaidStrySec43b" →
       (parse_3cd_xml (some root2)).c20b = 0 ∧
       (parse_3cd_xml (some root2)).c21a = (parse_3cd_xml (some root)).c21a ∧
       (parse_3cd_xml (some root2)).c21d = (parse_3cd_xml (some root)).c21d ∧
       (parse_3cd_xml (some root2)).c21i = (parse_3cd_xml (some root)).c21i ∧
       (parse_3cd_xml (some root2)).c22 = (parse_3cd_xml (some root)).c22 ∧
       (parse_3cd_xml (some root2)).c32 = (parse_3cd_xml (some root)).c32 ∧
       (parse_3cd_xml (some root2)).c43bh = (parse_3cd_xml (some root)).c43bh) ∧
    (noTagX root2 "Form3cdDebPLExpnditure" →
       findallNS root2 "Form3cdEmpPfSuperann" = findallNS root "Form3cdEmpPfSuperann" →
       findallNS root2 "Form3cdSect20b" = findallNS root "Form3cdSect20b" →
       get_xml_text root2 "AmountDisallowance40A3" = get_xml_text root "AmountDisallowance40A3" →
       get_xml_text root2 "AmountDisallowance40ai" = get_xml_text root "AmountDisallowance40ai" →
       get_xml_text root2 "SubClauseeofClause22" = get_xml_text root "SubClauseeofClause22" →
       findallNS root2 "Form3cdDeprAllw" = findallNS root "Form3cdDeprAllw" →
       findallNS root2 "Form3cdUnpaidStrySec43b" = findallNS root "Form3cdUnpaidStrySec43b" →
       (parse_3cd_xml (some root2)).c21a = 0 ∧
       (parse_3cd_xml (some root2)).c20b = (parse_3cd_xml (some root)).c20b ∧
       (parse_3cd_xml (some root2)).c21d = (parse_3cd_xml (some root)).c21d ∧
       (parse_3cd_xml (some root2)).c21i = (parse_3cd_xml (some root)).c21i ∧
       (parse_3cd_xml (some root2)).c22 = (parse_3cd_xml (some root)).c22 ∧
       (parse_3cd_xml (some root2)).c32 = (parse_3cd_xml (some root)).c32 ∧
       (parse_3cd_xml (some root2)).c43bh = (parse_3cd_xml (some root)).c43bh) ∧
    (noTagX root2 "AmountDisallowance40A3" →
       findallNS root2 "Form3cdEmpPfSuperann" = findallNS root "Form3cdEmpPfSuperann" →
       findallNS root2 "Form3cdSect20b" = findallNS root "Form3cdSect20b" →
       findallNS root2 "Form3cdDebPLExpnditure" = findallNS root "Form3cdDebPLExpnditure" →
       get_xml_text root2 "AmountDisallowance40ai" = get_xml_text root "AmountDisallowance40ai" →
       get_xml_text root2 "SubClauseeofClause22" = get_xml_text root "SubClauseeofClause22" →
       findallNS root2 "Form3cdDeprAllw" = findallNS root "Form3cdDeprAllw" →
       findallNS root2 "Form3cdUnpaidStrySec43b" = findallNS root "Form3cdUnpaidStrySec43b" →
       (parse_3cd_xml (some root2)).c21d = 0 ∧
       (parse_3cd_xml (some root2)).c20b = (parse_3cd_xml (some root)).c20b ∧
       (parse_3cd_xml (some root2)).c21a = (parse_3cd_xml (some root)).c21a ∧
       (parse_3cd_xml (some root2)).c21i = (parse_3cd_xml (some root)).c21i ∧
       (parse_3cd_xml (some root2)).c22 = (parse_3cd_xml (some root)).c22 ∧
       (parse_3cd_xml (some root2)).c32 = (parse_3cd_xml (some root)).c32 ∧
       (parse_3cd_xml (some root2)).c43bh = (parse_3cd_xml (some root)).c43bh) ∧
    (noTagX root2 "AmountDisallowance40ai" →
       findallNS root2 "Form3cdEmpPfSuperann" = findallNS root "Form3cdEmpPfSuperann" →
       findallNS root2 "Form3cdSect20b" = findallNS root "Form3cdSect20b" →
       findallNS root2 "Form3cdDebPLExpnditure" = findallNS root "Form3cdDebPLExpnditure" →
       get_xml_text root2 "AmountDisallowance40A3" = get_xml_text root "AmountDisallowance40A3" →
       get_xml_text root2 "SubClauseeofClause22" = get_xml_text root "SubClauseeofClause22" →
       findallNS root2 "Form3cdDeprAllw" = findallNS root "Form3cdDeprAllw" →
       findallNS root2 "Form3cdUnpaidStrySec43b" = findallNS root "Form3cdUnpaidStrySec43b" →
       (parse_3cd_xml (some root2)).c21i = 0 ∧
       (parse_3cd_xml (some root2)).c20b = (parse_3cd_xml (some root)).c20b ∧
       (parse_3cd_xml (some root2)).c21a = (parse_3cd_xml (some root)).c21a ∧
       (parse_3cd_xml (some root2)).c21d = (parse_3cd_xml (some root)).c21d ∧
       (parse_3cd_xml (some root2)).c22 = (parse_3cd_xml (some root)).c22 ∧
       (parse_3cd_xml (some root2)).c32 = (parse_3cd_xml (some root)).c32 ∧
       (parse_3cd_xml (some root2)).c43bh = (parse_3cd_xml (some root)).c43bh) ∧
    (noTagX root2 "SubClauseeofClause22" →
       findallNS root2 "Form3cdEmpPfSuperann" = findallNS root "Form3cdEmpPfSuperann" →
       findallNS root2 "Form3cdSect20b" = findallNS root "Form3cdSect20b" →
       findallNS root2 "Form3cdDebPLExpnditure" = findallNS root "Form3cdDebPLExpnditure" →
       get_xml_text root2 "AmountDisallowance40A3" = get_xml_text root "AmountDisallowance40A3" →
       get_xml_text root2 "AmountDisallowance40ai" = get_xml_text root "AmountDisallowance40ai" →
       findallNS root2 "Form3cdDeprAllw" = findallNS root "Form3cdDeprAllw" →
       findallNS root2 "Form3cdUnpaidStrySec43b" = findallNS root "Form3cdUnpaidStrySec43b" →
       (parse_3cd_xml (some root2)).c22 = 0 ∧
       (parse_3cd_xml (some root2)).c20b = (parse_3cd_xml (some root)).c20b ∧
       (parse_3cd_xml (some root2)).c21a = (parse_3cd_xml (some root)).c21a ∧
       (parse_3cd_xml (some root2)).c21d = (parse_3cd_xml (some root)).c21d ∧
       (parse_3cd_xml (some root2)).c21i = (parse_3cd_xml (some root)).c21i ∧
       (parse_3cd_xml (some root2)).c32 = (parse_3cd_xml (some root)).c32 ∧
       (parse_3cd_xml (some root2)).c43bh = (parse_3cd_xml (some root)).c43bh) ∧
    (noTagX root2 "Form3cdDeprAllw" →
       findallNS root2 "Form3cdEmpPfSuperann" = findallNS root "Form3cdEmpPfSuperann" →
       findallNS root2 "Form3cdSect20b" = findallNS root "Form3cdSect20b" →
       findallNS root2 "Form3cdDebPLExpnditure" = findallNS root "Form3cdDebPLExpnditure" →
       get_xml_text root2 "AmountDisallowance40A3" = get_xml_text root "AmountDisallowance40A3" →
       get_xml_text root2 "AmountDisallowance40ai" = get_xml_text root "AmountDisallowance40ai" →
       get_xml_text root2 "SubClauseeofClause22" = get_xml_text root "SubClauseeofClause22" →
       findallNS root2 "Form3cdUnpaidStrySec43b" = findallNS root "Form3cdUnpaidStrySec43b" →
       (parse_3cd_xml (some root2)).c32 = 0 ∧
       (parse_3cd_xml (some root2)).c20b = (parse_3cd_xml (some root)).c20b ∧
       (parse_3cd_xml (some root2)).c21a = (parse_3cd_xml (some root)).c21a ∧
       (parse_3cd_xml (some root2)).c21d = (parse_3cd_xml (some root)).c21d ∧
       (parse_3cd_xml (some root2)).c21i = (parse_3cd_xml (some root)).c21i ∧
       (parse_3cd_xml (some root2)).c22 = (parse_3cd_xml (some root)).c22 ∧
       (parse_3cd_xml (some root2)).c43bh = (parse_3cd_xml (some root)).c43bh) ∧
    (noTagX root2 "Form3cdUnpaidStrySec43b" →
       findallNS root2 "Form3cdEmpPfSuperann" = findallNS root "Form3cdEmpPfSuperann" →
       findallNS root2 "Form3cdSect20b" = findallNS root "Form3cdSect20b" →
       findallNS root2 "Form3cdDebPLExpnditure" = findallNS root "Form3cdDebPLExpnditure" →
       get_xml_text root2 "AmountDisallowance40A3" = get_xml_text root "AmountDisallowance40A3" →
       get_xml_text root2 "AmountDisallowance40ai" = get_xml_text root "AmountDisallowance40ai" →
       get_xml_text root2 "SubClauseeofClause22" = get_xml_text root "SubClauseeofClause22" →
       findallNS root2 "Form3cdDeprAllw" = findallNS root "Form3cdDeprAllw" →
       (parse_3cd_xml (some root2)).c43bh = 0 ∧
       (parse_3cd_xml (some root2)).c20b = (parse_3cd_xml (some root)).c20b ∧
       (parse_3cd_xml (some root2)).c21a = (parse_3cd_xml (some root)).c21a ∧
       (parse_3cd_xml (some root2)).c21d = (parse_3cd_xml (some root)).c21d ∧
       (parse_3cd_xml (some root2)).c21i = (parse_3cd_xml (some root)).c21i ∧
       (parse_3cd_xml (some root2)).c22 = (parse_3cd_xml (some root)).c22 ∧
       (parse_3cd_xml (some root2)).c32 = (parse_3cd_xml (some root)).c32) := by
  refine ⟨?_, ?_, ?_, ?_, ?_, ?_, ?_⟩
  · intro ha0 ha1 he_c21a_0 he_c21d_0 he_c21i_0 he_c22_0 he_c32_0 he_c43bh_0
    refine ⟨?_, ?_, ?_, ?_, ?_, ?_, ?_⟩
    · rw [audXml_c20b_eq, findallNS_eq_nil _ _ ha0, findallNS_eq_nil _ _ ha1]
      rfl
    · rw [audXml_c21a_eq root2, audXml_c21a_eq root, he_c21a_0]
    · rw [audXml_c21d_eq root2, audXml_c21d_eq root, he_c21d_0]
    · rw [audXml_c21i_eq root2, audXml_c21i_eq root, he_c21i_0]
    · rw [audXml_c22_eq root2, audXml_c22_eq root, he_c22_0]
    · rw [audXml_c32_eq root2, audXml_c32_eq root, he_c32_0]
    · rw [audXml_c43bh_eq root2, audXml_c43bh_eq root, he_c43bh_0]
  · intro ha0 he_c20b_0 he_c20b_1 he_c21d_0 he_c21i_0 he_c22_0 he_c32_0 he_c43bh_0
    refine ⟨?_, ?_, ?_, ?_, ?_, ?_, ?_⟩
    · rw [audXml_c21a_eq, findallNS_eq_nil _ _ ha0]
      rfl
    · rw [audXml_c20b_eq root2, audXml_c20b_eq root, he_c20b_0, he_c20b_1]
    · rw [audXml_c21d_eq root2, audXml_c21d_eq root, he_c21d_0]
    · rw [audXml_c21i_eq root2, audXml_c21i_eq root, he_c21i_0]
    · rw [audXml_c22_eq root2, audXml_c22_eq root, he_c22_0]
    · rw [audXml_c32_eq root2, audXml_c32_eq root, he_c32_0]
    · rw [audXml_c43bh_eq root2, audXml_c43bh_eq root, he_c43bh_0]
  · intro ha0 he_c20b_0 he_c20b_1 he_c21a_0 he_c21i_0 he_c22_0 he_c32_0 he_c43bh_0
    refine ⟨?_, ?_, ?_, ?_, ?_, ?_, ?_⟩
    · rw [audXml_c21d_eq, get_xml_text_eq_none _ _ ha0]
      rfl
    · rw [audXml_c20b_eq root2, audXml_c20b_eq root, he_c20b_0, he_c20b_1]
    · rw [audXml_c21a_eq root2, audXml_c21a_eq root, he_c21a_0]
    · rw [audXml_c21i_eq root2, audXml_c21i_eq root, he_c21i_0]
    · rw [audXml_c22_eq root2, audXml_c22_eq root, he_c22_0]
    · rw [audXml_c32_eq root2, audXml_c32_eq root, he_c32_0]
    · rw [audXml_c43bh_eq root2, audXml_c43bh_eq root, he_c43bh_0]
  · intro ha0 he_c20b_0 he_c20b_1 he_c21a_0 he_c21d_0 he_c22_0 he_c32_0 he_c43bh_0
    refine ⟨?_, ?_, ?_, ?_, ?_, ?_, ?_⟩
    · rw [audXml_c21i_eq, get_xml_text_eq_none _ _ ha0]
      rfl
    · rw [audXml_c20b_eq root2, audXml_c20b_eq root, he_c20b_0, he_c20b_1]
    · rw [audXml_c21a_eq root2, audXml_c21a_eq root, he_c21a_0]
    · rw [audXml_c21d_eq root2, audXml_c21d_eq root, he_c21d_0]
    · rw [audXml_c22_eq root2, audXml_c22_eq root, he_c22_0]
    · rw [audXml_c32_eq root2, audXml_c32_eq root, he_c32_0]
    · rw [audXml_c43bh_eq root2, audXml_c43bh_eq root, he_c43bh_0]
  · intro ha0 he_c20b_0 he_c20b_1 he_c21a_0 he_c21d_0 he_c21i_0 he_c32_0 he_c43bh_0
    refine ⟨?_, ?_, ?_, ?_, ?_, ?_, ?_⟩
    · rw [audXml_c22_eq, get_xml_text_eq_none _ _ ha0]
      rfl
    · rw [audXml_c20b_eq root2, audXml_c20b_eq root, he_c20b_0, he_c20b_1]
    · rw [audXml_c21a_eq root2, audXml_c21a_eq root, he_c21a_0]
    · rw [audXml_c21d_eq root2, audXml_c21d_eq root, he_c21d_0]
    · rw [audXml_c21i_eq root2, audXml_c21i_eq root, he_c21i_0]
    · rw [audXml_c32_eq root2, audXml_c32_eq root, he_c32_0]
    · rw [audXml_c43bh_eq root2, audXml_c43bh_eq root, he_c43bh_0]
  · intro ha0 he_c20b_0 he_c20b_1 he_c21a_0 he_c21d_0 he_c21i_0 he_c22_0 he_c43bh_0
    refine ⟨?_, ?_, ?_, ?_, ?_, ?_, ?_⟩
    · rw [audXml_c32_eq, findallNS_eq_nil _ _ ha0]
      rfl
    · rw [audXml_c20b_eq root2, audXml_c20b_eq root, he_c20b_0, he_c20b_1]
    · rw [audXml_c21a_eq root2, audXml_c21a_eq root, he_c21a_0]
    · rw [audXml_c21d_eq root2, audXml_c21d_eq root, he_c21d_0]
    · rw [audXml_c21i_eq root2, audXml_c21i_eq root, he_c21i_0]
    · rw [audXml_c22_eq root2, audXml_c22_eq root, he_c22_0]
    · rw [audXml_c43bh_eq root2, audXml_c43bh_eq root, he_c43bh_0]
  · intro ha0 he_c20b_0 he_c20b_1 he_c21a_0 he_c21d_0 he_c21i_0 he_c22_0 he_c32_0
    refine ⟨?_, ?_, ?_, ?_, ?_, ?_, ?_⟩
    · rw [audXml_c43bh_eq, findallNS_eq_nil _ _ ha0]
      rfl
    · rw [audXml_c20b_eq root2, audXml_c20b_eq root, he_c20b_0, he_c20b_1]
    · rw [audXml_c21a_eq root2, audXml_c21a_eq root, he_c21a_0]
    · rw [audXml_c21d_eq root2, audXml_c21d_eq root, he_c21d_0]
    · rw [audXml_c21i_eq root2, audXml_c21i_eq root, he_c21i_0]
    · rw [audXml_c22_eq root2, audXml_c22_eq root, he_c22_0]
    · rw [audXml_c32_eq root2, audXml_c32_eq root, he_c32_0]

/-- Unaffectedness for the tagged return extractor, as for the audit one. -/
theorem frameItrXml (root root2 : XNode) :
    (noTagX root2 "EmplyeeContrStatutoryFund" →
       get_xml_text root2 "PersonalExp" = get_xml_text root "PersonalExp" →
       get_xml_text root2 "PersonalExpndtr" = get_xml_text root "PersonalExpndtr" →
       get_xml_text root2 "AmtDisallowance40A3" = get_xml_text root "AmtDisallowance40A3" →
       get_xml_text root2 "AmtDisallowance40ai" = get_xml_text root "AmtDisallowance40ai" →
       get_xml_text root2 "MSMEDisallowance" = get_xml_text root "MSMEDisallowance" →
       get_xml_text root2 "TotDeprAllowITAct" = get_xml_text root "TotDeprAllowITAct" →
       get_xml_text root2 "MSEPayable" = get_xml_text root "MSEPayable" →
       (parse_itr_xml (some root2)).c20b = 0 ∧
       (parse_itr_xml (some root2)).c21a = (parse_itr_xml (some root)).c21a ∧
       (parse_itr_xml (some root2)).c21d = (parse_itr_xml (some root)).c21d ∧
       (parse_itr_xml (some root2)).c21i = (parse_itr_xml (some root)).c21i ∧
       (parse_itr_xml (some root2)).c22 = (parse_itr_xml (some root)).c22 ∧
       (parse_itr_xml (some root2)).c32 = (parse_itr_xml (some root)).c32 ∧
       (parse_itr_xml (some root2)).c43bh = (parse_itr_xml (some root)).c43bh) ∧
    (noTagX root2 "PersonalExp" →
       noTagX root2 "PersonalExpndtr" →
       get_xml_text root2 "EmplyeeContrStatutoryFund" = get_xml_text root "EmplyeeContrStatutoryFund" →
       get_xml_text root2 "AmtDisallowance40A3" = get_xml_text root "AmtDisallowance40A3" →
       get_xml_text root2 "AmtDisallowance40ai" = get_xml_text root "AmtDisallowance40ai" →
       get_xml_text root2 "MSMEDisallowance" = get_xml_text root "MSMEDisallowance" →
       get_xml_text root2 "TotDeprAllowITAct" = get_xml_text root "TotDeprAllowITAct" →
       get_xml_text root2 "MSEPayable" = get_xml_text root "MSEPayable" →
       (parse_itr_xml (some root2)).c21a = 0 ∧
       (parse_itr_xml (some root2)).c20b = (parse_itr_xml (some root)).c20b ∧
       (parse_itr_xml (some root2)).c21d = (parse_itr_xml (some root)).c21d ∧
       (parse_itr_xml (some root2)).c21i = (parse_itr_xml (some root)).c21i ∧
       (parse_itr_xml (some root2)).c22 = (parse_itr_xml (some root)).c22 ∧
       (parse_itr_xml (some root2)).c32 = (parse_itr_xml (some root)).c32 ∧
       (parse_itr_xml (some root2)).c43bh = (parse_itr_xml (some root)).c43bh) ∧
    (noTagX root2 "AmtDisallowance40A3" →
       get_xml_text root2 "EmplyeeContrStatutoryFund" = get_xml_text root "EmplyeeContrStatutoryFund" →
       get_xml_text root2 "PersonalExp" = get_xml_text root "PersonalExp" →
       get_xml_text root2 "PersonalExpndtr" = get_xml_text root "PersonalExpndtr" →
       get_xml_text root2 "AmtDisallowance40ai" = get_xml_text root "AmtDisallowance40ai" →
       get_xml_text root2 "MSMEDisallowance" = get_xml_text root "MSMEDisallowance" →
       get_xml_text root2 "TotDeprAllowITAct" = get_xml_text root "TotDeprAllowITAct" →
       get_xml_text root2 "MSEPayable" = get_xml_text root "MSEPayable" →
       (parse_itr_xml (some root2)).c21d = 0 ∧
       (parse_itr_xml (some root2)).c20b = (parse_itr_xml (some root)).c20b ∧
       (parse_itr_xml (some root2)).c21a = (parse_itr_xml (some root)).c21a ∧
       (parse_itr_xml (some root2)).c21i = (parse_itr_xml (some root)).c21i ∧
       (parse_itr_xml (some root2)).c22 = (parse_itr_xml (some root)).c22 ∧
       (parse_itr_xml (some root2)).c32 = (parse_itr_xml (some root)).c32 ∧
       (parse_itr_xml (some root2)).c43bh = (parse_itr_xml (some root)).c43bh) ∧
    (noTagX root2 "AmtDisallowance40ai" →
       get_xml_text root2 "EmplyeeContrStatutoryFund" = get_xml_text root "EmplyeeContrStatutoryFund" →
       get_xml_text root2 "PersonalExp" = get_xml_text root "PersonalExp" →
       get_xml_text root2 "PersonalExpndtr" = get_xml_text root "PersonalExpndtr" →
       get_xml_text root2 "AmtDisallowance40A3" = get_xml_text root "AmtDisallowance40A3" →
       get_xml_text root2 "MSMEDisallowance" = get_xml_text root "MSMEDisallowance" →
       get_xml_text root2 "TotDeprAllowITAct" = get_xml_text root "TotDeprAllowITAct" →
       get_xml_text root2 "MSEPayable" = get_xml_text root "MSEPayable" →
       (parse_itr_xml (some root2)).c21i = 0 ∧
       (parse_itr_xml (some root2)).c20b = (parse_itr_xml (some root)).c20b ∧
       (parse_itr_xml (some root2)).c21a = (parse_itr_xml (some root)).c21a ∧
       (parse_itr_xml (some root2)).c21d = (parse_itr_xml (some root)).c21d ∧
       (parse_itr_xml (some root2)).c22 = (parse_itr_xml (some root)).c22 ∧
       (parse_itr_xml (some root2)).c32 = (parse_itr_xml (some root)).c32 ∧
       (parse_itr_xml (some root2)).c43bh = (parse_itr_xml (some root)).c43bh) ∧
    (noTagX root2 "MSMEDisallowance" →
       get_xml_text root2 "EmplyeeContrStatutoryFund" = get_xml_text root "EmplyeeContrStatutoryFund" →
       get_xml_text root2 "PersonalExp" = get_xml_text root "PersonalExp" →
       get_xml_text root2 "PersonalExpndtr" = get_xml_text root "PersonalExpndtr" →
       get_xml_text root2 "AmtDisallowance40A3" = get_xml_text root "AmtDisallowance40A3" →
       get_xml_text root2 "AmtDisallowance40ai" = get_xml_text root "AmtDisallowance40ai" →
       get_xml_text root2 "TotDeprAllowITAct" = get_xml_text root "TotDeprAllowITAct" →
       get_xml_text root2 "MSEPayable" = get_xml_text root "MSEPayable" →
       (parse_itr_xml (some root2)).c22 = 0 ∧
       (parse_itr_xml (some root2)).c20b = (parse_itr_xml (some root)).c20b ∧
       (parse_itr_xml (some root2)).c21a = (parse_itr_xml (some root)).c21a ∧
       (parse_itr_xml (some root2)).c21d = (parse_itr_xml (some root)).c21d ∧
       (parse_itr_xml (some root2)).c21i = (parse_itr_xml (some root)).c21i ∧
       (parse_itr_xml (some root2)).c32 = (parse_itr_xml (some root)).c32 ∧
       (parse_itr_xml (some root2)).c43bh = (parse_itr_xml (some root)).c43bh) ∧
    (noTagX root2 "TotDeprAllowITAct" →
       get_xml_text root2 "EmplyeeContrStatutoryFund" = get_xml_text root "EmplyeeContrStatutoryFund" →
       get_xml_text root2 "PersonalExp" = get_xml_text root "PersonalExp" →
       get_xml_text root2 "PersonalExpndtr" = get_xml_text root "PersonalExpndtr" →
       get_xml_text root2 "AmtDisallowance40A3" = get_xml_text root "AmtDisallowance40A3" →
       get_xml_text root2 "AmtDisallowance40ai" = get_xml_text root "AmtDisallowance40ai" →
       get_xml_text root2 "MSMEDisallowance" = get_xml_text root "MSMEDisallowance" →
       get_xml_text root2 "MSEPayable" = get_xml_text root "MSEPayable" →
       (parse_itr_xml (some root2)).c32 = 0 ∧
       (parse_itr_xml (some root2)).c20b = (parse_itr_xml (some root)).c20b ∧
       (parse_itr_xml (some root2)).c21a = (parse_itr_xml (some root)).c21a ∧
       (parse_itr_xml (some root2)).c21d = (parse_itr_xml (some root)).c21d ∧
       (parse_itr_xml (some root2)).c21i = (parse_itr_xml (some root)).c21i ∧
       (parse_itr_xml (some root2)).c22 = (parse_itr_xml (some root)).c22 ∧
       (parse_itr_xml (some root2)).c43bh = (parse_itr_xml (some root)).c43bh) ∧
    (noTagX root2 "MSEPayable" →
       get_xml_text root2 "EmplyeeContrStatutoryFund" = get_xml_text root "EmplyeeContrStatutoryFund" →
       get_xml_text root2 "PersonalExp" = get_xml_text root "PersonalExp" →
       get_xml_text root2 "PersonalExpndtr" = get_xml_text root "PersonalExpndtr" →
       get_xml_text root2 "AmtDisallowance40A3" = get_xml_text root "AmtDisallowance40A3" →
       get_xml_text root2 "AmtDisallowance40ai" = get_xml_text root "AmtDisallowance40ai" →
       get_xml_text root2 "MSMEDisallowance" = get_xml_text root "MSMEDisallowance" →
       get_xml_text root2 "TotDeprAllowITAct" = get_xml_text root "TotDeprAllowITAct" →
       (parse_itr_xml (some root2)).c43bh = 0 ∧
       (parse_itr_xml (some root2)).c20b = (parse_itr_xml (some root)).c20b ∧
       (parse_itr_xml (some root2)).c21a = (parse_itr_xml (some root)).c21a ∧
       (parse_itr_xml (some root2)).c21d = (parse_itr_xml (some root)).c21d ∧
       (parse_itr_xml (some root2)).c21i = (parse_itr_xml (some root)).c21i ∧
       (parse_itr_xml (some root2)).c22 = (parse_itr_xml (some root)).c22 ∧
       (parse_itr_xml (some root2)).c32 = (parse_itr_xml (some root)).c32) := by
  refine ⟨?_, ?_, ?_, ?_, ?_, ?_, ?_⟩
  · intro ha0 he_c21a_0 he_c21a_1 he_c21d_0 he_c21i_0 he_c22_0 he_c32_0 he_c43bh_0
    refine ⟨?_, ?_, ?_, ?_, ?_, ?_, ?_⟩
    · rw [itrXml_c20b_eq, get_xml_text_eq_none _ _ ha0]
      rfl
    · rw [itrXml_c21a_eq root2, itrXml_c21a_eq root, he_c21a_0, he_c21a_1]
    · rw [itrXml_c21d_eq root2, itrXml_c21d_eq root, he_c21d_0]
    · rw [itrXml_c21i_eq root2, itrXml_c21i_eq root, he_c21i_0]
    · rw [itrXml_c22_eq root2, itrXml_c22_eq root, he_c22_0]
    · rw [itrXml_c32_eq root2, itrXml_c32_eq root, he_c32_0]
    · rw [itrXml_c43bh_eq root2, itrXml_c43bh_eq root, he_c43bh_0]
  · intro ha0 ha1 he_c20b_0 he_c21d_0 he_c21i_0 he_c22_0 he_c32_0 he_c43bh_0
    refine ⟨?_, ?_, ?_, ?_, ?_, ?_, ?_⟩
    · rw [itrXml_c21a_eq, get_xml_text_eq_none _ _ ha0, get_xml_text_eq_none _ _ ha1]
      rfl
    · rw [itrXml_c20b_eq root2, itrXml_c20b_eq root, he_c20b_0]
    · rw [itrXml_c21d_eq root2, itrXml_c21d_eq root, he_c21d_0]
    · rw [itrXml_c21i_eq root2, itrXml_c21i_eq root, he_c21i_0]
    · rw [itrXml_c22_eq root2, itrXml_c22_eq root, he_c22_0]
    · rw [itrXml_c32_eq root2, itrXml_c32_eq root, he_c32_0]
    · rw [itrXml_c43bh_eq root2, itrXml_c43bh_eq root, he_c43bh_0]
  · intro ha0 he_c20b_0 he_c21a_0 he_c21a_1 he_c21i_0 he_c22_0 he_c32_0 he_c43bh_0
    refine ⟨?_, ?_, ?_, ?_, ?_, ?_, ?_⟩
    · rw [itrXml_c21d_eq, get_xml_text_eq_none _ _ ha0]
      rfl
    · rw [itrXml_c20b_eq root2, itrXml_c20b_eq root, he_c20b_0]
    · rw [itrXml_c21a_eq root2, itrXml_c21a_eq root, he_c21a_0, he_c21a_1]
    · rw [itrXml_c21i_eq root2, itrXml_c21i_eq root, he_c21i_0]
    · rw [itrXml_c22_eq root2, itrXml_c22_eq root, he_c22_0]
    · rw [itrXml_c32_eq root2, itrXml_c32_eq root, he_c32_0]
    · rw [itrXml_c43bh_eq root2, itrXml_c43bh_eq root, he_c43bh_0]
  · intro ha0 he_c20b_0 he_c21a_0 he_c21a_1 he_c21d_0 he_c22_0 he_c32_0 he_c43bh_0
    refine ⟨?_, ?_, ?_, ?_, ?_, ?_, ?_⟩
    · rw [itrXml_c21i_eq, get_xml_text_eq_none _ _ ha0]
      rfl
    · rw [itrXml_c20b_eq root2, itrXml_c20b_eq root, he_c20b_0]
    · rw [itrXml_c21a_eq root2, itrXml_c21a_eq root, he_c21a_0, he_c21a_1]
    · rw [itrXml_c21d_eq root2, itrXml_c21d_eq root, he_c21d_0]
    · rw [itrXml_c22_eq root2, itrXml_c22_eq root, he_c22_0]
    · rw [itrXml_c32_eq root2, itrXml_c32_eq root, he_c32_0]
    · rw [itrXml_c43bh_eq root2, itrXml_c43bh_eq root, he_c43bh_0]
  · intro ha0 he_c20b_0 he_c21a_0 he_c21a_1 he_c21d_0 he_c21i_0 he_c32_0 he_c43bh_0
    refine ⟨?_, ?_, ?_, ?_, ?_, ?_, ?_⟩
    · rw [itrXml_c22_eq, get_xml_text_eq_none _ _ ha0]
      rfl
    · rw [itrXml_c20b_eq root2, itrXml_c20b_eq root, he_c20b_0]
    · rw [itrXml_c21a_eq root2, itrXml_c21a_eq root, he_c21a_0, he_c21a_1]
    · rw [itrXml_c21d_eq root2, itrXml_c21d_eq root, he_c21d_0]
    · rw [itrXml_c21i_eq root2, itrXml_c21i_eq root, he_c21i_0]
    · rw [itrXml_c32_eq root2, itrXml_c32_eq root, he_c32_0]
    · rw [itrXml_c43bh_eq root2, itrXml_c43bh_eq root, he_c43bh_0]
  · intro ha0 he_c20b_0 he_c21a_0 he_c21a_1 he_c21d_0 he_c21i_0 he_c22_0 he_c43bh_0
    refine ⟨?_, ?_, ?_, ?_, ?_, ?_, ?_⟩
    · rw [itrXml_c32_eq, get_xml_text_eq_none _ _ ha0]
      rfl
    · rw [itrXml_c20b_eq root2, itrXml_c20b_eq root, he_c20b_0]
    · rw [itrXml_c21a_eq root2, itrXml_c21a_eq root, he_c21a_0, he_c21a_1]
    · rw [itrXml_c21d_eq root2, itrXml_c21d_eq root, he_c21d_0]
    · rw [itrXml_c21i_eq root2, itrXml_c21i_eq root, he_c21i_0]
    · rw [itrXml_c22_eq root2, itrXml_c22_eq root, he_c22_0]
    · rw [itrXml_c43bh_eq root2, itrXml_c43bh_eq root, he_c43bh_0]
  · intro ha0 he_c20b_0 he_c21a_0 he_c21a_1 he_c21d_0 he_c21i_0 he_c22_0 he_c32_0
    refine ⟨?_, ?_, ?_, ?_, ?_, ?_, ?_⟩
    · rw [itrXml_c43bh_eq, get_xml_text_eq_none _ _ ha0]
      rfl
    · rw [itrXml_c20b_eq root2, itrXml_c20b_eq root, he_c20b_0]
    · rw [itrXml_c21a_eq root2, itrXml_c21a_eq root, he_c21a_0, he_c21a_1]
    · rw [itrXml_c21d_eq root2, itrXml_c21d_eq root, he_c21d_0]
    · rw [itrXml_c21i_eq root2, itrXml_c21i_eq root, he_c21i_0]
    · rw [itrXml_c22_eq root2, itrXml_c22_eq root, he_c22_0]
    · rw [itrXml_c32_eq root2, itrXml_c32_eq root, he_c32_0]

/-- With a resolved, truthy variant root, the return pipeline is its body. -/
theorem parse_itr_json_rooted (js itr : PyVal)
    (h1 : valItrRoot js = Except.ok itr) (h2 : truthy itr = true) :
    parse_itr_json (some js) = bodyItrJson itr := by
  have hred : parse_itr_json (some js) =
      (match valItrRoot js with
       | Except.error _ => zeroITR
       | Except.ok itr => if truthy itr = true then bodyItrJson itr else zeroITR) := rfl
  rw [hred, h1]
  simp [h2]

/-- Inversion: a completed run of the return extractor's JSON block
determines every statement value from the result record. -/
theorem runItr_ok_inv (itr : PyVal) (rf : RecITR)
    (h : runE (steps_itrJson itr) zeroITR = Except.ok rf) :
    ∃ gen1 nm oi bp,
      pyGet itr "PartA_GEN1" (PyVal.dict []) = Except.ok gen1 ∧
      valNameJson gen1 = Except.ok nm ∧
      valOiItr itr = Except.ok oi ∧
      valBpJson itr = Except.ok bp ∧
      val20bItr oi = Except.ok rf.c20b ∧
      val21aItr oi bp = Except.ok rf.c21a ∧
      val21dItr oi = Except.ok rf.c21d ∧
      val21iItr oi = Except.ok rf.c21i ∧
      val22Itr oi = Except.ok rf.c22 ∧
      val32Itr bp = Except.ok rf.c32 ∧
      val43bhItr oi = Except.ok rf.c43bh ∧
      rf.name = nm := by
  unfold steps_itrJson stepNameItr stepQI at h
  cases eg1 : pyGet itr "PartA_GEN1" (PyVal.dict []) with
  | error u => simp [runE, eg1, exceptBind_err] at h
  | ok gen1 =>
  simp only [runE, eg1, exceptBind_ok] at h
  cases eg2 : valNameJson gen1 with
  | error u => simp [runE, eg2] at h
  | ok nm =>
  simp only [runE, eg2] at h
  cases eoi : valOiItr itr with
  | error u => simp [runE, eoi, exceptBind_err] at h
  | ok oi =>
  simp only [runE, eoi, exceptBind_ok] at h
  cases ebp : valBpJson itr with
  | error u => simp [runE, ebp, exceptBind_err] at h
  | ok bp =>
  simp only [runE, ebp, exceptBind_ok] at h
  cases e20 : val20bItr oi with
  | error u => simp [runE, e20] at h
  | ok q20 =>
  simp only [runE, e20] at h
  cases e21a : val21aItr oi bp with
  | error u => simp [runE, e21a] at h
  | ok q21a =>
  simp only [runE, e21a] at h
  cases e21d : val21dItr oi with
  | error u => simp [runE, e21d] at h
  | ok q21d =>
  simp only [runE, e21d] at h
  cases e21i : val21iItr oi with
  | error u => simp [runE, e21i] at h
  | ok q21i =>
  simp only [runE, e21i] at h
  cases e22v : val22Itr oi with
  | error u => simp [runE, e22v] at h
  | ok q22v =>
  simp only [runE, e22v] at h
  cases e32v : val32Itr bp with
  | error u => simp [runE, e32v] at h
  | ok q32v =>
  simp only [runE, e32v] at h
  cases e43 : val43bhItr oi with
  | error u => simp [runE, e43] at h
  | ok q43 =>
  simp only [runE, e43] at h
  have hrec : (⟨nm, q20, q21a, q21d, q21i, q22v, q32v, q43⟩ : RecITR) = rf := by
    have h2 := h
    simp only [setName, setI20b, setI21a, setI21d, setI21i, setI22, setI32,
      setI43bh, zeroITR] at h2
    exact (Except.ok.injEq _ _).mp h2
  rw [←hrec]
  exact ⟨gen1, nm, oi, bp, rfl, eg2, rfl, rfl, e20, e21a, e21d, e21i, e22v,
    e32v, e43, rfl⟩

/-- Unaffectedness for the structured return extractor: removing a clause's
source keys from `oi` and `bp` zeroes that clause and leaves every other
clause-key as extracted from the unmodified document (whose extraction
completed without an exception). -/
theorem frameItrJson (k : String) (hk : k ∈ clauseKeys)
    (js js2 itr itr2 : PyVal) (ofs bfs : List (String × PyVal))
    (gen12 nm2 : PyVal) (rf : RecITR)
    (hroot : valItrRoot js = Except.ok itr) (htr : truthy itr = true)
    (hrun : runE (steps_itrJson itr) zeroITR = Except.ok rf)
    (h3 : valOiItr itr = Except.ok (PyVal.dict ofs))
    (h4 : valBpJson itr = Except.ok (PyVal.dict bfs))
    (hroot2 : valItrRoot js2 = Except.ok itr2) (htr2 : truthy itr2 = true)
    (hg2 : pyGet itr2 "PartA_GEN1" (PyVal.dict []) = Except.ok gen12)
    (hn2 : valNameJson gen12 = Except.ok nm2)
    (h32 : valOiItr itr2 = Except.ok (PyVal.dict (removeKeys ofs (srcOiItr k))))
    (h42 : valBpJson itr2 = Except.ok (PyVal.dict (removeKeys bfs (srcBpItr k)))) :
    (parse_itr_json (some js2)).find k = some 0 ∧
    (∀ j ∈ clauseKeys, j ≠ k →
      (parse_itr_json (some js2)).find j = (parse_itr_json (some js)).find j) := by
  obtain ⟨gen1, nm, oi, bp, i1, i2, i3, i4, i5, i6, i7, i8, i9, i10, i11, i12⟩ :=
    runItr_ok_inv itr rf hrun
  have hoi := (Except.ok.injEq _ _).mp (h3.symm.trans i3)
  subst hoi
  have hbp := (Except.ok.injEq _ _).mp (h4.symm.trans i4)
  subst hbp
  have hbody : parse_itr_json (some js) = bodyItrJson itr :=
    parse_itr_json_rooted js itr hroot htr
  have hbody2 : parse_itr_json (some js2) = bodyItrJson itr2 :=
    parse_itr_json_rooted js2 itr2 hroot2 htr2
  have hbodyrf : bodyItrJson itr = rf := by
    unfold bodyItrJson runAll
    rw [hrun]
  simp only [clauseKeys, List.mem_cons, List.not_mem_nil, or_false] at hk
  rcases hk with rfl | rfl | rfl | rfl | rfl | rfl | rfl
  · have hz : val20bItr (PyVal.dict (removeKeys ofs (srcOiItr "c20b"))) = Except.ok 0 :=
      val20bItr_absent _ (lookupD_remove_mem ofs _ _ (by decide))
    have hc_c21a : val21aItr (PyVal.dict (removeKeys ofs (srcOiItr "c20b"))) (PyVal.dict (removeKeys bfs (srcBpItr "c20b"))) = Except.ok rf.c21a := by
      rw [val21aItr_congr ofs _ bfs _ (lookupD_remove_not_mem ofs _ _ (by decide)) (lookupD_remove_not_mem bfs _ _ (by decide))]
      exact i6
    have hc_c21d : val21dItr (PyVal.dict (removeKeys ofs (srcOiItr "c20b"))) = Except.ok rf.c21d := by
      rw [val21dItr_congr ofs _ (lookupD_remove_not_mem ofs _ _ (by decide))]
      exact i7
    have hc_c21i : val21iItr (PyVal.dict (removeKeys ofs (srcOiItr "c20b"))) = Except.ok rf.c21i := by
      rw [val21iItr_congr ofs _ (lookupD_remove_not_mem ofs _ _ (by decide))]
      exact i8
    have hc_c22 : val22Itr (PyVal.dict (removeKeys ofs (srcOiItr "c20b"))) = Except.ok rf.c22 := by
      rw [val22Itr_congr ofs _ (lookupD_remove_not_mem ofs _ _ (by decide))]
      exact i9
    have hc_c32 : val32Itr (PyVal.dict (removeKeys bfs (srcBpItr "c20b"))) = Except.ok rf.c32 := by
      rw [val32Itr_congr bfs _ (lookupD_remove_not_mem bfs _ _ (by decide))]
      exact i10
    have hc_c43bh : val43bhItr (PyVal.dict (removeKeys ofs (srcOiItr "c20b"))) = Except.ok rf.c43bh := by
      rw [val43bhItr_congr ofs _ (lookupD_remove_not_mem ofs _ _ (by decide)) (lookupD_remove_not_mem ofs _ _ (by decide))]
      exact i11
    have hb := bodyItr_char itr2 gen12 nm2 _ _ 0 rf.c21a rf.c21d rf.c21i rf.c22 rf.c32 rf.c43bh
      hg2 hn2 h32 h42 hz hc_c21a hc_c21d hc_c21i hc_c22 hc_c32 hc_c43bh
    refine ⟨by rw [hbody2, hb]; rfl, ?_⟩
    intro j hj hne
    rw [hbody2, hb, hbody, hbodyrf]
    simp only [clauseKeys, List.mem_cons, List.not_mem_nil, or_false] at hj
    rcases hj with rfl | rfl | rfl | rfl | rfl | rfl | rfl
    · exact absurd rfl hne
    · rfl
    · rfl
    · rfl
    · rfl
    · rfl
    · rfl
  · have hz : val21aItr (PyVal.dict (removeKeys ofs (srcOiItr "c21a"))) (PyVal.dict (removeKeys bfs (srcBpItr "c21a"))) = Except.ok 0 :=
      val21aItr_absent _ _ (lookupD_remove_mem ofs _ _ (by decide)) (lookupD_remove_mem bfs _ _ (by decide))
    have hc_c20b : val20bItr (PyVal.dict (removeKeys ofs (srcOiItr "c21a"))) = Except.ok rf.c20b := by
      rw [val20bItr_congr ofs _ (lookupD_remove_not_mem ofs _ _ (by decide))]
      exact i5
    have hc_c21d : val21dItr (PyVal.dict (removeKeys ofs (srcOiItr "c21a"))) = Except.ok rf.c21d := by
      rw [val21dItr_congr ofs _ (lookupD_remove_not_mem ofs _ _ (by decide))]
      exact i7
    have hc_c21i : val21iItr (PyVal.dict (removeKeys ofs (srcOiItr "c21a"))) = Except.ok rf.c21i := by
      rw [val21iItr_congr ofs _ (lookupD_remove_not_mem ofs _ _ (by decide))]
      exact i8
    have hc_c22 : val22Itr (PyVal.dict (removeKeys ofs (srcOiItr "c21a"))) = Except.ok rf.c22 := by
      rw [val22Itr_congr ofs _ (lookupD_remove_not_mem ofs _ _ (by decide))]
      exact i9
    have hc_c32 : val32Itr (PyVal.dict (removeKeys bfs (srcBpItr "c21a"))) = Except.ok rf.c32 := by
      rw [val32Itr_congr bfs _ (lookupD_remove_not_mem bfs _ _ (by decide))]
      exact i10
    have hc_c43bh : val43bhItr (PyVal.dict (removeKeys ofs (srcOiItr "c21a"))) = Except.ok rf.c43bh := by
      rw [val43bhItr_congr ofs _ (lookupD_remove_not_mem ofs _ _ (by decide)) (lookupD_remove_not_mem ofs _ _ (by decide))]
      exact i11
    have hb := bodyItr_char itr2 gen12 nm2 _ _ rf.c20b 0 rf.c21d rf.c21i rf.c22 rf.c32 rf.c43bh
      hg2 hn2 h32 h42 hc_c20b hz hc_c21d hc_c21i hc_c22 hc_c32 hc_c43bh
    refine ⟨by rw [hbody2, hb]; rfl, ?_⟩
    intro j hj hne
    rw [hbody2, hb, hbody, hbodyrf]
    simp only [clauseKeys, List.mem_cons, List.not_mem_nil, or_false] at hj
    rcases hj with rfl | rfl | rfl | rfl | rfl | rfl | rfl
    · rfl
    · exact absurd rfl hne
    · rfl
    · rfl
    · rfl
    · rfl
    · rfl
  · have hz : val21dItr (PyVal.dict (removeKeys ofs (srcOiItr "c21d"))) = Except.ok 0 :=
      val21dItr_absent _ (lookupD_remove_mem ofs _ _ (by decide))
    have hc_c20b : val20bItr (PyVal.dict (removeKeys ofs (srcOiItr "c21d"))) = Except.ok rf.c20b := by
      rw [val20bItr_congr ofs _ (lookupD_remove_not_mem ofs _ _ (by decide))]
      exact i5
    have hc_c21a : val21aItr (PyVal.dict (removeKeys ofs (srcOiItr "c21d"))) (PyVal.dict (removeKeys bfs (srcBpItr "c21d"))) = Except.ok rf.c21a := by
      rw [val21aItr_congr ofs _ bfs _ (lookupD_remove_not_mem ofs _ _ (by decide)) (lookupD_remove_not_mem bfs _ _ (by decide))]
      exact i6
    have hc_c21i : val21iItr (PyVal.dict (removeKeys ofs (srcOiItr "c21d"))) = Except.ok rf.c21i := by
      rw [val21iItr_congr ofs _ (lookupD_remove_not_mem ofs _ _ (by decide))]
      exact i8
    have hc_c22 : val22Itr (PyVal.dict (removeKeys ofs (srcOiItr "c21d"))) = Except.ok rf.c22 := by
      rw [val22Itr_congr ofs _ (lookupD_remove_not_mem ofs _ _ (by decide))]
      exact i9
    have hc_c32 : val32Itr (PyVal.dict (removeKeys bfs (srcBpItr "c21d"))) = Except.ok rf.c32 := by
      rw [val32Itr_congr bfs _ (lookupD_remove_not_mem bfs _ _ (by decide))]
      exact i10
    have hc_c43bh : val43bhItr (PyVal.dict (removeKeys ofs (srcOiItr "c21d"))) = Except.ok rf.c43bh := by
      rw [val43bhItr_congr ofs _ (lookupD_remove_not_mem ofs _ _ (by decide)) (lookupD_remove_not_mem ofs _ _ (by decide))]
      exact i11
    have hb := bodyItr_char itr2 gen12 nm2 _ _ rf.c20b rf.c21a 0 rf.c21i rf.c22 rf.c32 rf.c43bh
      hg2 hn2 h32 h42 hc_c20b hc_c21a hz hc_c21i hc_c22 hc_c32 hc_c43bh
    refine ⟨by rw [hbody2, hb]; rfl, ?_⟩
    intro j hj hne
    rw [hbody2, hb, hbody, hbodyrf]
    simp only [clauseKeys, List.mem_cons, List.not_mem_nil, or_false] at hj
    rcases hj with rfl | rfl | rfl | rfl | rfl | rfl | rfl
    · rfl
    · rfl
    · exact absurd rfl hne
    · rfl
    · rfl
    · rfl
    · rfl
  · have hz : val21iItr (PyVal.dict (removeKeys ofs (srcOiItr "c21i"))) = Except.ok 0 :=
      val21iItr_absent _ (lookupD_remove_mem ofs _ _ (by decide))
    have hc_c20b : val20bItr (PyVal.dict (removeKeys ofs (srcOiItr "c21i"))) = Except.ok rf.c20b := by
      rw [val20bItr_congr ofs _ (lookupD_remove_not_mem ofs _ _ (by decide))]
      exact i5
    have hc_c21a : val21aItr (PyVal.dict (removeKeys ofs (srcOiItr "c21i"))) (PyVal.dict (removeKeys bfs (srcBpItr "c21i"))) = Except.ok rf.c21a := by
      rw [val21aItr_congr ofs _ bfs _ (lookupD_remove_not_mem ofs _ _ (by decide)) (lookupD_remove_not_mem bfs _ _ (by decide))]
      exact i6
    have hc_c21d : val21dItr (PyVal.dict (removeKeys ofs (srcOiItr "c21i"))) = Except.ok rf.c21d := by
      rw [val21dItr_congr ofs _ (lookupD_remove_not_mem ofs _ _ (by decide))]
      exact i7
    have hc_c22 : val22Itr (PyVal.dict (removeKeys ofs (srcOiItr "c21i"))) = Except.ok rf.c22 := by
      rw [val22Itr_congr ofs _ (lookupD_remove_not_mem ofs _ _ (by decide))]
      exact i9
    have hc_c32 : val32Itr (PyVal.dict (removeKeys bfs (srcBpItr "c21i"))) = Except.ok rf.c32 := by
      rw [val32Itr_congr bfs _ (lookupD_remove_not_mem bfs _ _ (by decide))]
      exact i10
    have hc_c43bh : val43bhItr (PyVal.dict (removeKeys ofs (srcOiItr "c21i"))) = Except.ok rf.c43bh := by
      rw [val43bhItr_congr ofs _ (lookupD_remove_not_mem ofs _ _ (by decide)) (lookupD_remove_not_mem ofs _ _ (by decide))]
      exact i11
    have hb := bodyItr_char itr2 gen12 nm2 _ _ rf.c20b rf.c21a rf.c21d 0 rf.c22 rf.c32 rf.c43bh
      hg2 hn2 h32 h42 hc_c20b hc_c21a hc_c21d hz hc_c22 hc_c32 hc_c43bh
    refine ⟨by rw [hbody2, hb]; rfl, ?_⟩
    intro j hj hne
    rw [hbody2, hb, hbody, hbodyrf]
    simp only [clauseKeys, List.mem_cons, List.not_mem_nil, or_false] at hj
    rcases hj with rfl | rfl | rfl | rfl | rfl | rfl | rfl
    · rfl
    · rfl
    · rfl
    · exact absurd rfl hne
    · rfl
    · rfl
    · rfl
  · have hz : val22Itr (PyVal.dict (removeKeys ofs (srcOiItr "c22"))) = Except.ok 0 :=
      val22Itr_absent _ (lookupD_remove_mem ofs _ _ (by decide))
    have hc_c20b : val20bItr (PyVal.dict (removeKeys ofs (srcOiItr "c22"))) = Except.ok rf.c20b := by
      rw [val20bItr_congr ofs _ (lookupD_remove_not_mem ofs _ _ (by decide))]
      exact i5
    have hc_c21a : val21aItr (PyVal.dict (removeKeys ofs (srcOiItr "c22"))) (PyVal.dict (removeKeys bfs (srcBpItr "c22"))) = Except.ok rf.c21a := by
      rw [val21aItr_congr ofs _ bfs _ (lookupD_remove_not_mem ofs _ _ (by decide)) (lookupD_remove_not_mem bfs _ _ (by decide))]
      exact i6
    have hc_c21d : val21dItr (PyVal.dict (removeKeys ofs (srcOiItr "c22"))) = Except.ok rf.c21d := by
      rw [val21dItr_congr ofs _ (lookupD_remove_not_mem ofs _ _ (by decide))]
      exact i7
    have hc_c21i : val21iItr (PyVal.dict (removeKeys ofs (srcOiItr "c22"))) = Except.ok rf.c21i := by
      rw [val21iItr_congr ofs _ (lookupD_remove_not_mem ofs _ _ (by decide))]
      exact i8
    have hc_c32 : val32Itr (PyVal.dict (removeKeys bfs (srcBpItr "c22"))) = Except.ok rf.c32 := by
      rw [val32Itr_congr bfs _ (lookupD_remove_not_mem bfs _ _ (by decide))]
      exact i10
    have hc_c43bh : val43bhItr (PyVal.dict (removeKeys ofs (srcOiItr "c22"))) = Except.ok rf.c43bh := by
      rw [val43bhItr_congr ofs _ (lookupD_remove_not_mem ofs _ _ (by decide)) (lookupD_remove_not_mem ofs _ _ (by decide))]
      exact i11
    have hb := bodyItr_char itr2 gen12 nm2 _ _ rf.c20b rf.c21a rf.c21d rf.c21i 0 rf.c32 rf.c43bh
      hg2 hn2 h32 h42 hc_c20b hc_c21a hc_c21d hc_c21i hz hc_c32 hc_c43bh
    refine ⟨by rw [hbody2, hb]; rfl, ?_⟩
    intro j hj hne
    rw [hbody2, hb, hbody, hbodyrf]
    simp only [clauseKeys, List.mem_cons, List.not_mem_nil, or_false] at hj
    rcases hj with rfl | rfl | rfl | rfl | rfl | rfl | rfl
    · rfl
    · rfl
    · rfl
    · rfl
    · exact absurd rfl hne
    · rfl
    · rfl
  · have hz : val32Itr (PyVal.dict (removeKeys bfs (srcBpItr "c32"))) = Except.ok 0 :=
      val32Itr_absent _ (lookupD_remove_mem bfs _ _ (by decide))
    have hc_c20b : val20bItr (PyVal.dict (removeKeys ofs (srcOiItr "c32"))) = Except.ok rf.c20b := by
      rw [val20bItr_congr ofs _ (lookupD_remove_not_mem ofs _ _ (by decide))]
      exact i5
    have hc_c21a : val21aItr (PyVal.dict (removeKeys ofs (srcOiItr "c32"))) (PyVal.dict (removeKeys bfs (srcBpItr "c32"))) = Except.ok rf.c21a := by
      rw [val21aItr_congr ofs _ bfs _ (lookupD_remove_not_mem ofs _ _ (by decide)) (lookupD_remove_not_mem bfs _ _ (by decide))]
      exact i6
    have hc_c21d : val21dItr (PyVal.dict (removeKeys ofs (srcOiItr "c32"))) = Except.ok rf.c21d := by
      rw [val21dItr_congr ofs _ (lookupD_remove_not_mem ofs _ _ (by decide))]
      exact i7
    have hc_c21i : val21iItr (PyVal.dict (removeKeys ofs (srcOiItr "c32"))) = Except.ok rf.c21i := by
      rw [val21iItr_congr ofs _ (lookupD_remove_not_mem ofs _ _ (by decide))]
      exact i8
    have hc_c22 : val22Itr (PyVal.dict (removeKeys ofs (srcOiItr "c32"))) = Except.ok rf.c22 := by
      rw [val22Itr_congr ofs _ (lookupD_remove_not_mem ofs _ _ (by decide))]
      exact i9
    have hc_c43bh : val43bhItr (PyVal.dict (removeKeys ofs (srcOiItr "c32"))) = Except.ok rf.c43bh := by
      rw [val43bhItr_congr ofs _ (lookupD_remove_not_mem ofs _ _ (by decide)) (lookupD_remove_not_mem ofs _ _ (by decide))]
      exact i11
    have hb := bodyItr_char itr2 gen12 nm2 _ _ rf.c20b rf.c21a rf.c21d rf.c21i rf.c22 0 rf.c43bh
      hg2 hn2 h32 h42 hc_c20b hc_c21a hc_c21d hc_c21i hc_c22 hz hc_c43bh
    refine ⟨by rw [hbody2, hb]; rfl, ?_⟩
    intro j hj hne
    rw [hbody2, hb, hbody, hbodyrf]
    simp only [clauseKeys, List.mem_cons, List.not_mem_nil, or_false] at hj
    rcases hj with rfl | rfl | rfl | rfl | rfl | rfl | rfl
    · rfl
    · rfl
    · rfl
    · rfl
    · rfl
    · exact absurd rfl hne
    · rfl
  · have hz : val43bhItr (PyVal.dict (removeKeys ofs (srcOiItr "c43bh"))) = Except.ok 0 :=
      val43bhItr_absent _ (lookupD_remove_mem ofs _ _ (by decide)) (lookupD_remove_mem ofs _ _ (by decide))
    have hc_c20b : val20bItr (PyVal.dict (removeKeys ofs (srcOiItr "c43bh"))) = Except.ok rf.c20b := by
      rw [val20bItr_congr ofs _ (lookupD_remove_not_mem ofs _ _ (by decide))]
      exact i5
    have hc_c21a : val21aItr (PyVal.dict (removeKeys ofs (srcOiItr "c43bh"))) (PyVal.dict (removeKeys bfs (srcBpItr "c43bh"))) = Except.ok rf.c21a := by
      rw [val21aItr_congr ofs _ bfs _ (lookupD_remove_not_mem ofs _ _ (by decide)) (lookupD_remove_not_mem bfs _ _ (by decide))]
      exact i6
    have hc_c21d : val21dItr (PyVal.dict (removeKeys ofs (srcOiItr "c43bh"))) = Except.ok rf.c21d := by
      rw [val21dItr_congr ofs _ (lookupD_remove_not_mem ofs _ _ (by decide))]
      exact i7
    have hc_c21i : val21iItr (PyVal.dict (removeKeys ofs (srcOiItr "c43bh"))) = Except.ok rf.c21i := by
      rw [val21iItr_congr ofs _ (lookupD_remove_not_mem ofs _ _ (by decide))]
      exact i8
    have hc_c22 : val22Itr (PyVal.dict (removeKeys ofs (srcOiItr "c43bh"))) = Except.ok rf.c22 := by
      rw [val22Itr_congr ofs _ (lookupD_remove_not_mem ofs _ _ (by decide))]
      exact i9
    have hc_c32 : val32Itr (PyVal.dict (removeKeys bfs (srcBpItr "c43bh"))) = Except.ok rf.c32 := by
      rw [val32Itr_congr bfs _ (lookupD_remove_not_mem bfs _ _ (by decide))]
      exact i10
    have hb := bodyItr_char itr2 gen12 nm2 _ _ rf.c20b rf.c21a rf.c21d rf.c21i rf.c22 rf.c32 0
      hg2 hn2 h32 h42 hc_c20b hc_c21a hc_c21d hc_c21i hc_c22 hc_c32 hz
    refine ⟨by rw [hbody2, hb]; rfl, ?_⟩
    intro j hj hne
    rw [hbody2, hb, hbody, hbodyrf]
    simp only [clauseKeys, List.mem_cons, List.not_mem_nil, or_false] at hj
    rcases hj with rfl | rfl | rfl | rfl | rfl | rfl | rfl
    · rfl
    · rfl
    · rfl
    · rfl
    · rfl
    · rfl
    · exact absurd rfl hne

/-! ### Claim theorems -/

/-- C2: for every pair of canonical records, the reconciler produces exactly
seven rows in the fixed order 20(b), 21(a), 21(d), 21(i), 22, 43B(h), 32;
each row pairs the corresponding audit and return figures, its difference is
`audit - return`, and its status is the Match marker exactly when the
absolute difference is strictly below 5.0, otherwise the Mismatch marker. -/
theorem claim_C2 (aud : Rec3CD) (ret : RecITR) :
    (recon_data aud ret).map ReconRow.clause =
        ["20(b)", "21(a)", "21(d)", "21(i)", "22", "43B(h)", "32"] ∧
    (recon_data aud ret).map (fun row => (row.audit, row.ret)) =
        [(aud.c20b, ret.c20b), (aud.c21a, ret.c21a), (aud.c21d, ret.c21d),
         (aud.c21i, ret.c21i), (aud.c22, ret.c22), (aud.c43bh, ret.c43bh),
         (aud.c32, ret.c32)] ∧
    ∀ row ∈ recon_data aud ret,
      row.diff = row.audit - row.ret ∧
      (row.status = "✅ Match" ↔ |row.diff| < 5) ∧
      (row.status = "✅ Match" ∨ row.status = "❌ Mismatch") := by
  refine ⟨by simp [recon_data, mkRow], by simp [recon_data, mkRow], ?_⟩
  intro row hrow
  simp only [recon_data, List.mem_cons, List.not_mem_nil, or_false] at hrow
  rcases hrow with h | h | h | h | h | h | h <;> exact h ▸ mkRow_spec _ _ _ _

/-- Witness for C2 at the all-zero records and the first row. -/
theorem claim_C2_witness :
    (mkRow "20(b)" "ESI/PF (Late Payments)" 0 0).diff =
        (mkRow "20(b)" "ESI/PF (Late Payments)" 0 0).audit -
          (mkRow "20(b)" "ESI/PF (Late Payments)" 0 0).ret ∧
    ((mkRow "20(b)" "ESI/PF (Late Payments)" 0 0).status = "✅ Match" ↔
        |(mkRow "20(b)" "ESI/PF (Late Payments)" 0 0).diff| < 5) ∧
    ((mkRow "20(b)" "ESI/PF (Late Payments)" 0 0).status = "✅ Match" ∨
        (mkRow "20(b)" "ESI/PF (Late Payments)" 0 0).status = "❌ Mismatch") :=
  (claim_C2 zero3CD zeroITR).2.2 (mkRow "20(b)" "ESI/PF (Late Payments)" 0 0)
    (List.Mem.head _)

/-- C3: the value coercion never raises — it is a total function into ℚ —
and maps `None` to 0.0 and every unparseable string (such as
`"not-a-number"`) to 0.0. -/
theorem claim_C3 :
    to_f PyVal.pynull = 0 ∧
    (∀ s : String, pyFloatOfString s = Option.none → to_f (PyVal.str s) = 0) ∧
    to_f (PyVal.str "not-a-number") = 0 := by
  refine ⟨rfl, ?_, by decide⟩
  intro s h
  simp [to_f, h]

/-- Witness for C3 on a concrete unparseable string. -/
theorem claim_C3_witness : to_f (PyVal.str "12abc") = 0 :=
  claim_C3.2.1 "12abc" (by decide)

/-- C6 counterexample: the numeric value 1.239 is returned by the coercion
unchanged, not rounded to 2 decimal places as the claim states. -/
theorem claim_C6_counterexample :
    to_f (PyVal.num (1239 / 1000)) = 1239 / 1000 ∧
    (1239 / 1000 : ℚ) ≠ round2 (1239 / 1000) := by
  exact ⟨rfl, by decide⟩

/-- C6 amended: a numeric (non-string, non-null) input is returned by
`float(val)` unchanged; only the string branch rounds to 2 decimal places. -/
theorem claim_C6 :
    (∀ q : ℚ, to_f (PyVal.num q) = q) ∧
    (∀ (s : String) (q : ℚ), pyFloatOfString s = some q →
      to_f (PyVal.str s) = round2 q) := by
  refine ⟨fun q => rfl, ?_⟩
  intro s q h
  simp [to_f, h]

/-- Witness for C6 on the string "1.239". -/
theorem claim_C6_witness : to_f (PyVal.str "1.239") = round2 (1239 / 1000) :=
  claim_C6.2 "1.239" (1239 / 1000) (by decide)

/-- C1: (A) every extractor variant always returns a record containing all
seven clause keys; (B) when no root variant matches (or resolving it raises,
or the resolved root is falsy) the whole record keeps its initial
zero/placeholder value; (C)-(F) in each of the four extractor variants, a
clause whose source fields are entirely absent comes out exactly 0.0 — even
when other statements raise; (G) for the structured audit form, removing a
clause's source keys zeroes exactly that clause and leaves every other
clause-key's value unaffected (for documents whose extraction completes
without an exception); (H)-(I) for the two tagged variants, a document in
which a clause's source tags are absent while every other clause's source
searches agree with a reference document yields 0.0 for that clause and the
reference document's value for every other clause-key; (J) the analogue of
(G) for the structured return form: removing a clause's source keys from
`oi` and `bp` zeroes exactly that clause and leaves every other clause-key's
value unaffected. -/
theorem claim_C1 :
    (∀ (d1 : Option PyVal) (d2 : Option XNode) (d3 : Option PyVal) (d4 : Option XNode)
        (k : String), k ∈ clauseKeys →
        ((parse_3cd_json d1).find k).isSome = true ∧
        ((parse_3cd_xml d2).find k).isSome = true ∧
        ((parse_itr_json d3).find k).isSome = true ∧
        ((parse_itr_xml d4).find k).isSome = true) ∧
    ((∀ js : PyVal, valFJson js = Except.error () → parse_3cd_json (some js) = zero3CD) ∧
     (∀ (js f : PyVal), valFJson js = Except.ok f → truthy f = false →
        parse_3cd_json (some js) = zero3CD) ∧
     (∀ js : PyVal, valItrRoot js = Except.error () → parse_itr_json (some js) = zeroITR) ∧
     (∀ (js itr : PyVal), valItrRoot js = Except.ok itr → truthy itr = false →
        parse_itr_json (some js) = zeroITR)) ∧
    (∀ fs : List (String × PyVal),
       (lookupD fs "Form3cdEmpPfSuperannInfo" = Option.none →
        lookupD fs "Form3cdSect20b" = Option.none →
        (body3cdJson (PyVal.dict fs)).c20b = 0) ∧
       (lookupD fs "Form3cdDebPLExpnditure" = Option.none →
        (body3cdJson (PyVal.dict fs)).c21a = 0) ∧
       (lookupD fs "AmountDisallowance40A3" = Option.none →
        (body3cdJson (PyVal.dict fs)).c21d = 0) ∧
       (lookupD fs "AmountDisallowance40ai" = Option.none →
        (body3cdJson (PyVal.dict fs)).c21i = 0) ∧
       (lookupD fs "Form3cdInadm" = Option.none →
        (body3cdJson (PyVal.dict fs)).c22 = 0) ∧
       (lookupD fs "Form3cdDeprAllw" = Option.none →
        (body3cdJson (PyVal.dict fs)).c32 = 0) ∧
       (lookupD fs "Form3cdUnpaidStrySec43b" = Option.none →
        (body3cdJson (PyVal.dict fs)).c43bh = 0)) ∧
    (∀ root : XNode,
       (noTagX root "Form3cdEmpPfSuperann" → noTagX root "Form3cdSect20b" →
        (parse_3cd_xml (some root)).c20b = 0) ∧
       (noTagX root "Form3cdDebPLExpnditure" → (parse_3cd_xml (some root)).c21a = 0) ∧
       (noTagX root "AmountDisallowance40A3" → (parse_3cd_xml (some root)).c21d = 0) ∧
       (noTagX root "AmountDisallowance40ai" → (parse_3cd_xml (some root)).c21i = 0) ∧
       (noTagX root "SubClauseeofClause22" → (parse_3cd_xml (some root)).c22 = 0) ∧
       (noTagX root "Form3cdDeprAllw" → (parse_3cd_xml (some root)).c32 = 0) ∧
       (noTagX root "Form3cdUnpaidStrySec43b" → (parse_3cd_xml (some root)).c43bh = 0)) ∧
    (∀ (itr : PyVal) (ofs bfs : List (String × PyVal)),
       valOiItr itr = Except.ok (PyVal.dict ofs) →
       valBpJson itr = Except.ok (PyVal.dict bfs) →
       ((lookupD ofs "AmtDisallUs36" = Option.none → (bodyItrJson itr).c20b = 0) ∧
        (lookupD ofs "AmtDisallUs37" = Option.none →
         lookupD bfs "AmtDebPLDisallowUs37" = Option.none →
         (bodyItrJson itr).c21a = 0) ∧
        (lookupD ofs "AmtDisallUs40A" = Option.none → (bodyItrJson itr).c21d = 0) ∧
        (lookupD ofs "AmtDisallUs40" = Option.none → (bodyItrJson itr).c21i = 0) ∧
        (lookupD ofs "AmtDisall43B" = Option.none → (bodyItrJson itr).c22 = 0) ∧
        (lookupD bfs "DepreciationAllowITAct32" = Option.none → (bodyItrJson itr).c32 = 0) ∧
        (lookupD ofs "AmtDisallUs43BPyNowAll" = Option.none →
         lookupD ofs "AmtDisallUs43B" = Option.none →
         (bodyItrJson itr).c43bh = 0))) ∧
    (∀ root : XNode,
       (noTagX root "EmplyeeContrStatutoryFund" → (parse_itr_xml (some root)).c20b = 0) ∧
       (noTagX root "PersonalExp" → noTagX root "PersonalExpndtr" →
        (parse_itr_xml (some root)).c21a = 0) ∧
       (noTagX root "AmtDisallowance40A3" → (parse_itr_xml (some root)).c21d = 0) ∧
       (noTagX root "AmtDisallowance40ai" → (parse_itr_xml (some root)).c21i = 0) ∧
       (noTagX root "MSMEDisallowance" → (parse_itr_xml (some root)).c22 = 0) ∧
       (noTagX root "TotDeprAllowITAct" → (parse_itr_xml (some root)).c32 = 0) ∧
       (noTagX root "MSEPayable" → (parse_itr_xml (some root)).c43bh = 0)) ∧
    (∀ k ∈ clauseKeys, ∀ (fs : List (String × PyVal)) (rf : Rec3CD),
       runE (steps3cdJson (PyVal.dict fs)) zero3CD = Except.ok rf →
       (body3cdJson (PyVal.dict (removeKeys fs (srcKeys3cd k)))).find k = some 0 ∧
       (∀ j ∈ clauseKeys, j ≠ k →
         (body3cdJson (PyVal.dict (removeKeys fs (srcKeys3cd k)))).find j = rf.find j)) ∧
    (∀ root root2 : XNode,
    (noTagX root2 "Form3cdEmpPfSuperann" →
       noTagX root2 "Form3cdSect20b" →
       findallNS root2 "Form3cdDebPLExpnditure" = findallNS root "Form3cdDebPLExpnditure" →
       get_xml_text root2 "AmountDisallowance40A3" = get_xml_text root "AmountDisallowance40A3" →
       get_xml_text root2 "AmountDisallowance40ai" = get_xml_text root "AmountDisallowance40ai" →
       get_xml_text root2 "SubClauseeofClause22" = get_xml_text root "SubClauseeofClause22" →
       findallNS root2 "Form3cdDeprAllw" = findallNS root "Form3cdDeprAllw" →
       findallNS root2 "Form3cdUnpaidStrySec43b" = findallNS root "Form3cdUnpaidStrySec43b" →
       (parse_3cd_xml (some root2)).c20b = 0 ∧
       (parse_3cd_xml (some root2)).c21a = (parse_3cd_xml (some root)).c21a ∧
       (parse_3cd_xml (some root2)).c21d = (parse_3cd_xml (some root)).c21d ∧
       (parse_3cd_xml (some root2)).c21i = (parse_3cd_xml (some root)).c21i ∧
       (parse_3cd_xml (some root2)).c22 = (parse_3cd_xml (some root)).c22 ∧
       (parse_3cd_xml (some root2)).c32 = (parse_3cd_xml (some root)).c32 ∧
       (parse_3cd_xml (some root2)).c43bh = (parse_3cd_xml (some root)).c43bh) ∧
    (noTagX root2 "Form3cdDebPLExpnditure" →
       findallNS root2 "Form3cdEmpPfSuperann" = findallNS root "Form3cdEmpPfSuperann" →
       findallNS root2 "Form3cdSect20b" = findallNS root "Form3cdSect20b" →
       get_xml_text root2 "AmountDisallowance40A3" = get_xml_text root "AmountDisallowance40A3" →
       get_xml_text root2 "AmountDisallowance40ai" = get_xml_text root "AmountDisallowance40ai" →
       get_xml_text root2 "SubClauseeofClause22" = get_xml_text root "SubClauseeofClause22" →
       findallNS root2 "Form3cdDeprAllw" = findallNS root "Form3cdDeprAllw" →
       findallNS root2 "Form3cdUnpaidStrySec43b" = findallNS root "Form3cdUnpaidStrySec43b" →
       (parse_3cd_xml (some root2)).c21a = 0 ∧
       (parse_3cd_xml (some root2)).c20b = (parse_3cd_xml (some root)).c20b ∧
       (parse_3cd_xml (some root2)).c21d = (parse_3cd_xml (some root)).c21d ∧
       (parse_3cd_xml (some root2)).c21i = (parse_3cd_xml (some root)).c21i ∧
       (parse_3cd_xml (some root2)).c22 = (parse_3cd_xml (some root)).c22 ∧
       (parse_3cd_xml (some root2)).c32 = (parse_3cd_xml (some root)).c32 ∧
       (parse_3cd_xml (some root2)).c43bh = (parse_3cd_xml (some root)).c43bh) ∧
    (noTagX root2 "AmountDisallowance40A3" →
       findallNS root2 "Form3cdEmpPfSuperann" = findallNS root "Form3cdEmpPfSuperann" →
       findallNS root2 "Form3cdSect20b" = findallNS root "Form3cdSect20b" →
       findallNS root2 "Form3cdDebPLExpnditure" = findallNS root "Form3cdDebPLExpnditure" →
       get_xml_text root2 "AmountDisallowance40ai" = get_xml_text root "AmountDisallowance40ai" →
       get_xml_text root2 "SubClauseeofClause22" = get_xml_text root "SubClauseeofClause22" →
       findallNS root2 "Form3cdDeprAllw" = findallNS root "Form3cdDeprAllw" →
       findallNS root2 "Form3cdUnpaidStrySec43b" = findallNS root "Form3cdUnpaidStrySec43b" →
       (parse_3cd_xml (some root2)).c21d = 0 ∧
       (parse_3cd_xml (some root2)).c20b = (parse_3cd_xml (some root)).c20b ∧
       (parse_3cd_xml (some root2)).c21a = (parse_3cd_xml (some root)).c21a ∧
       (parse_3cd_xml (some root2)).c21i = (parse_3cd_xml (some root)).c21i ∧
       (parse_3cd_xml (some root2)).c22 = (parse_3cd_xml (some root)).c22 ∧
       (parse_3cd_xml (some root2)).c32 = (parse_3cd_xml (some root)).c32 ∧
       (parse_3cd_xml (some root2)).c43bh = (parse_3cd_xml (some root)).c43bh) ∧
    (noTagX root2 "AmountDisallowance40ai" →
       findallNS root2 "Form3cdEmpPfSuperann" = findallNS root "Form3cdEmpPfSuperann" →
       findallNS root2 "Form3cdSect20b" = findallNS root "Form3cdSect20b" →
       findallNS root2 "Form3cdDebPLExpnditure" = findallNS root "Form3cdDebPLExpnditure" →
       get_xml_text root2 "AmountDisallowance40A3" = get_xml_text root "AmountDisallowance40A3" →
       get_xml_text root2 "SubClauseeofClause22" = get_xml_text root "SubClauseeofClause22" →
       findallNS root2 "Form3cdDeprAllw" = findallNS root "Form3cdDeprAllw" →
       findallNS root2 "Form3cdUnpaidStrySec43b" = findallNS root "Form3cdUnpaidStrySec43b" →
       (parse_3cd_xml (some root2)).c21i = 0 ∧
       (parse_3cd_xml (some root2)).c20b = (parse_3cd_xml (some root)).c20b ∧
       (parse_3cd_xml (some root2)).c21a = (parse_3cd_xml (some root)).c21a ∧
       (parse_3cd_xml (some root2)).c21d = (parse_3cd_xml (some root)).c21d ∧
       (parse_3cd_xml (some root2)).c22 = (parse_3cd_xml (some root)).c22 ∧
       (parse_3cd_xml (some root2)).c32 = (parse_3cd_xml (some root)).c32 ∧
       (parse_3cd_xml (some root2)).c43bh = (parse_3cd_xml (some root)).c43bh) ∧
    (noTagX root2 "SubClauseeofClause22" →
       findallNS root2 "Form3cdEmpPfSuperann" = findallNS root "Form3cdEmpPfSuperann" →
       findallNS root2 "Form3cdSect20b" = findallNS root "Form3cdSect20b" →
       findallNS root2 "Form3cdDebPLExpnditure" = findallNS root "Form3cdDebPLExpnditure" →
       get_xml_text root2 "AmountDisallowance40A3" = get_xml_text root "AmountDisallowance40A3" →
       get_xml_text root2 "AmountDisallowance40ai" = get_xml_text root "AmountDisallowance40ai" →
       findallNS root2 "Form3cdDeprAllw" = findallNS root "Form3cdDeprAllw" →
       findallNS root2 "Form3cdUnpaidStrySec43b" = findallNS root "Form3cdUnpaidStrySec43b" →
       (parse_3cd_xml (some root2)).c22 = 0 ∧
       (parse_3cd_xml (some root2)).c20b = (parse_3cd_xml (some root)).c20b ∧
       (parse_3cd_xml (some root2)).c21a = (parse_3cd_xml (some root)).c21a ∧
       (parse_3cd_xml (some root2)).c21d = (parse_3cd_xml (some root)).c21d ∧
       (parse_3cd_xml (some root2)).c21i = (parse_3cd_xml (some root)).c21i ∧
       (parse_3cd_xml (some root2)).c32 = (parse_3cd_xml (some root)).c32 ∧
       (parse_3cd_xml (some root2)).c43bh = (parse_3cd_xml (some root)).c43bh) ∧
    (noTagX root2 "Form3cdDeprAllw" →
       findallNS root2 "Form3cdEmpPfSuperann" = findallNS root "Form3cdEmpPfSuperann" →
       findallNS root2 "Form3cdSect20b" = findallNS root "Form3cdSect20b" →
       findallNS root2 "Form3cdDebPLExpnditure" = findallNS root "Form3cdDebPLExpnditure" →
       get_xml_text root2 "AmountDisallowance40A3" = get_xml_text root "AmountDisallowance40A3" →
       get_xml_text root2 "AmountDisallowance40ai" = get_xml_text root "AmountDisallowance40ai" →
       get_xml_text root2 "SubClauseeofClause22" = get_xml_text root "SubClauseeofClause22" →
       findallNS root2 "Form3cdUnpaidStrySec43b" = findallNS root "Form3cdUnpaidStrySec43b" →
       (parse_3cd_xml (some root2)).c32 = 0 ∧
       (parse_3cd_xml (some root2)).c20b = (parse_3cd_xml (some root)).c20b ∧
       (parse_3cd_xml (some root2)).c21a = (parse_3cd_xml (some root)).c21a ∧
       (parse_3cd_xml (some root2)).c21d = (parse_3cd_xml (some root)).c21d ∧
       (parse_3cd_xml (some root2)).c21i = (parse_3cd_xml (some root)).c21i ∧
       (parse_3cd_xml (some root2)).c22 = (parse_3cd_xml (some root)).c22 ∧
       (parse_3cd_xml (some root2)).c43bh = (parse_3cd_xml (some root)).c43bh) ∧
    (noTagX root2 "Form3cdUnpaidStrySec43b" →
       findallNS root2 "Form3cdEmpPfSuperann" = findallNS root "Form3cdEmpPfSuperann" →
       findallNS root2 "Form3cdSect20b" = findallNS root "Form3cdSect20b" →
       findallNS root2 "Form3cdDebPLExpnditure" = findallNS root "Form3cdDebPLExpnditure" →
       get_xml_text root2 "AmountDisallowance40A3" = get_xml_text root "AmountDisallowance40A3" →
       get_xml_text root2 "AmountDisallowance40ai" = get_xml_text root "AmountDisallowance40ai" →
       get_xml_text root2 "SubClauseeofClause22" = get_xml_text root "SubClauseeofClause22" →
       findallNS root2 "Form3cdDeprAllw" = findallNS root "Form3cdDeprAllw" →
       (parse_3cd_xml (some root2)).c43bh = 0 ∧
       (parse_3cd_xml (some root2)).c20b = (parse_3cd_xml (some root)).c20b ∧
       (parse_3cd_xml (some root2)).c21a = (parse_3cd_xml (some root)).c21a ∧
       (parse_3cd_xml (some root2)).c21d = (parse_3cd_xml (some root)).c21d ∧
       (parse_3cd_xml (some root2)).c21i = (parse_3cd_xml (some root)).c21i ∧
       (parse_3cd_xml (some root2)).c22 = (parse_3cd_xml (some root)).c22 ∧
       (parse_3cd_xml (some root2)).c32 = (parse_3cd_xml (some root)).c32)) ∧
    (∀ root root2 : XNode,
    (noTagX root2 "EmplyeeContrStatutoryFund" →
       get_xml_text root2 "PersonalExp" = get_xml_text root "PersonalExp" →
       get_xml_text root2 "PersonalExpndtr" = get_xml_text root "PersonalExpndtr" →
       get_xml_text root2 "AmtDisallowance40A3" = get_xml_text root "AmtDisallowance40A3" →
       get_xml_text root2 "AmtDisallowance40ai" = get_xml_text root "AmtDisallowance40ai" →
       get_xml_text root2 "MSMEDisallowance" = get_xml_text root "MSMEDisallowance" →
       get_xml_text root2 "TotDeprAllowITAct" = get_xml_text root "TotDeprAllowITAct" →
       get_xml_text root2 "MSEPayable" = get_xml_text root "MSEPayable" →
       (parse_itr_xml (some root2)).c20b = 0 ∧
       (parse_itr_xml (some root2)).c21a = (parse_itr_xml (some root)).c21a ∧
       (parse_itr_xml (some root2)).c21d = (parse_itr_xml (some root)).c21d ∧
       (parse_itr_xml (some root2)).c21i = (parse_itr_xml (some root)).c21i ∧
       (parse_itr_xml (some root2)).c22 = (parse_itr_xml (some root)).c22 ∧
       (parse_itr_xml (some root2)).c32 = (parse_itr_xml (some root)).c32 ∧
       (parse_itr_xml (some root2)).c43bh = (parse_itr_xml (some root)).c43bh) ∧
    (noTagX root2 "PersonalExp" →
       noTagX root2 "PersonalExpndtr" →
       get_xml_text root2 "EmplyeeContrStatutoryFund" = get_xml_text root "EmplyeeContrStatutoryFund" →
       get_xml_text root2 "AmtDisallowance40A3" = get_xml_text root "AmtDisallowance40A3" →
       get_xml_text root2 "AmtDisallowance40ai" = get_xml_text root "AmtDisallowance40ai" →
       get_xml_text root2 "MSMEDisallowance" = get_xml_text root "MSMEDisallowance" →
       get_xml_text root2 "TotDeprAllowITAct" = get_xml_text root "TotDeprAllowITAct" →
       get_xml_text root2 "MSEPayable" = get_xml_text root "MSEPayable" →
       (parse_itr_xml (some root2)).c21a = 0 ∧
       (parse_itr_xml (some root2)).c20b = (parse_itr_xml (some root)).c20b ∧
       (parse_itr_xml (some root2)).c21d = (parse_itr_xml (some root)).c21d ∧
       (parse_itr_xml (some root2)).c21i = (parse_itr_xml (some root)).c21i ∧
       (parse_itr_xml (some root2)).c22 = (parse_itr_xml (some root)).c22 ∧
       (parse_itr_xml (some root2)).c32 = (parse_itr_xml (some root)).c32 ∧
       (parse_itr_xml (some root2)).c43bh = (parse_itr_xml (some root)).c43bh) ∧
    (noTagX root2 "AmtDisallowance40A3" →
       get_xml_text root2 "EmplyeeContrStatutoryFund" = get_xml_text root "EmplyeeContrStatutoryFund" →
       get_xml_text root2 "PersonalExp" = get_xml_text root "PersonalExp" →
       get_xml_text root2 "PersonalExpndtr" = get_xml_text root "PersonalExpndtr" →
       get_xml_text root2 "AmtDisallowance40ai" = get_xml_text root "AmtDisallowance40ai" →
       get_xml_text root2 "MSMEDisallowance" = get_xml_text root "MSMEDisallowance" →
       get_xml_text root2 "TotDeprAllowITAct" = get_xml_text root "TotDeprAllowITAct" →
       get_xml_text root2 "MSEPayable" = get_xml_text root "MSEPayable" →
       (parse_itr_xml (some root2)).c21d = 0 ∧
       (parse_itr_xml (some root2)).c20b = (parse_itr_xml (some root)).c20b ∧
       (parse_itr_xml (some root2)).c21a = (parse_itr_xml (some root)).c21a ∧
       (parse_itr_xml (some root2)).c21i = (parse_itr_xml (some root)).c21i ∧
       (parse_itr_xml (some root2)).c22 = (parse_itr_xml (some root)).c22 ∧
       (parse_itr_xml (some root2)).c32 = (parse_itr_xml (some root)).c32 ∧
       (parse_itr_xml (some root2)).c43bh = (parse_itr_xml (some root)).c43bh) ∧
    (noTagX root2 "AmtDisallowance40ai" →
       get_xml_text root2 "EmplyeeContrStatutoryFund" = get_xml_text root "EmplyeeContrStatutoryFund" →
       get_xml_text root2 "PersonalExp" = get_xml_text root "PersonalExp" →
       get_xml_text root2 "PersonalExpndtr" = get_xml_text root "PersonalExpndtr" →
       get_xml_text root2 "AmtDisallowance40A3" = get_xml_text root "AmtDisallowance40A3" →
       get_xml_text root2 "MSMEDisallowance" = get_xml_text root "MSMEDisallowance" →
       get_xml_text root2 "TotDeprAllowITAct" = get_xml_text root "TotDeprAllowITAct" →
       get_xml_text root2 "MSEPayable" = get_xml_text root "MSEPayable" →
       (parse_itr_xml (some root2)).c21i = 0 ∧
       (parse_itr_xml (some root2)).c20b = (parse_itr_xml (some root)).c20b ∧
       (parse_itr_xml (some root2)).c21a = (parse_itr_xml (some root)).c21a ∧
       (parse_itr_xml (some root2)).c21d = (parse_itr_xml (some root)).c21d ∧
       (parse_itr_xml (some root2)).c22 = (parse_itr_xml (some root)).c22 ∧
       (parse_itr_xml (some root2)).c32 = (parse_itr_xml (some root)).c32 ∧
       (parse_itr_xml (some root2)).c43bh = (parse_itr_xml (some root)).c43bh) ∧
    (noTagX root2 "MSMEDisallowance" →
       get_xml_text root2 "EmplyeeContrStatutoryFund" = get_xml_text root "EmplyeeContrStatutoryFund" →
       get_xml_text root2 "PersonalExp" = get_xml_text root "PersonalExp" →
       get_xml_text root2 "PersonalExpndtr" = get_xml_text root "PersonalExpndtr" →
       get_xml_text root2 "AmtDisallowance40A3" = get_xml_text root "AmtDisallowance40A3" →
       get_xml_text root2 "AmtDisallowance40ai" = get_xml_text root "AmtDisallowance40ai" →
       get_xml_text root2 "TotDeprAllowITAct" = get_xml_text root "TotDeprAllowITAct" →
       get_xml_text root2 "MSEPayable" = get_xml_text root "MSEPayable" →
       (parse_itr_xml (some root2)).c22 = 0 ∧
       (parse_itr_xml (some root2)).c20b = (parse_itr_xml (some root)).c20b ∧
       (parse_itr_xml (some root2)).c21a = (parse_itr_xml (some root)).c21a ∧
       (parse_itr_xml (some root2)).c21d = (parse_itr_xml (some root)).c21d ∧
       (parse_itr_xml (some root2)).c21i = (parse_itr_xml (some root)).c21i ∧
       (parse_itr_xml (some root2)).c32 = (parse_itr_xml (some root)).c32 ∧
       (parse_itr_xml (some root2)).c43bh = (parse_itr_xml (some root)).c43bh) ∧
    (noTagX root2 "TotDeprAllowITAct" →
       get_xml_text root2 "EmplyeeContrStatutoryFund" = get_xml_text root "EmplyeeContrStatutoryFund" →
       get_xml_text root2 "PersonalExp" = get_xml_text root "PersonalExp" →
       get_xml_text root2 "PersonalExpndtr" = get_xml_text root "PersonalExpndtr" →
       get_xml_text root2 "AmtDisallowance40A3" = get_xml_text root "AmtDisallowance40A3" →
       get_xml_text root2 "AmtDisallowance40ai" = get_xml_text root "AmtDisallowance40ai" →
       get_xml_text root2 "MSMEDisallowance" = get_xml_text root "MSMEDisallowance" →
       get_xml_text root2 "MSEPayable" = get_xml_text root "MSEPayable" →
       (parse_itr_xml (some root2)).c32 = 0 ∧
       (parse_itr_xml (some root2)).c20b = (parse_itr_xml (some root)).c20b ∧
       (parse_itr_xml (some root2)).c21a = (parse_itr_xml (some root)).c21a ∧
       (parse_itr_xml (some root2)).c21d = (parse_itr_xml (some root)).c21d ∧
       (parse_itr_xml (some root2)).c21i = (parse_itr_xml (some root)).c21i ∧
       (parse_itr_xml (some root2)).c22 = (parse_itr_xml (some root)).c22 ∧
       (parse_itr_xml (some root2)).c43bh = (parse_itr_xml (some root)).c43bh) ∧
    (noTagX root2 "MSEPayable" →
       get_xml_text root2 "EmplyeeContrStatutoryFund" = get_xml_text root "EmplyeeContrStatutoryFund" →
       get_xml_text root2 "PersonalExp" = get_xml_text root "PersonalExp" →
       get_xml_text root2 "PersonalExpndtr" = get_xml_text root "PersonalExpndtr" →
       get_xml_text root2 "AmtDisallowance40A3" = get_xml_text root "AmtDisallowance40A3" →
       get_xml_text root2 "AmtDisallowance40ai" = get_xml_text root "AmtDisallowance40ai" →
       get_xml_text root2 "MSMEDisallowance" = get_xml_text root "MSMEDisallowance" →
       get_xml_text root2 "TotDeprAllowITAct" = get_xml_text root "TotDeprAllowITAct" →
       (parse_itr_xml (some root2)).c43bh = 0 ∧
       (parse_itr_xml (some root2)).c20b = (parse_itr_xml (some root)).c20b ∧
       (parse_itr_xml (some root2)).c21a = (parse_itr_xml (some root)).c21a ∧
       (parse_itr_xml (some root2)).c21d = (parse_itr_xml (some root)).c21d ∧
       (parse_itr_xml (some root2)).c21i = (parse_itr_xml (some root)).c21i ∧
       (parse_itr_xml (some root2)).c22 = (parse_itr_xml (some root)).c22 ∧
       (parse_itr_xml (some root2)).c32 = (parse_itr_xml (some root)).c32)) ∧
    (∀ k ∈ clauseKeys, ∀ (js js2 itr itr2 : PyVal) (ofs bfs : List (String × PyVal))
        (gen12 nm2 : PyVal) (rf : RecITR),
       valItrRoot js = Except.ok itr → truthy itr = true →
       runE (steps_itrJson itr) zeroITR = Except.ok rf →
       valOiItr itr = Except.ok (PyVal.dict ofs) →
       valBpJson itr = Except.ok (PyVal.dict bfs) →
       valItrRoot js2 = Except.ok itr2 → truthy itr2 = true →
       pyGet itr2 "PartA_GEN1" (PyVal.dict []) = Except.ok gen12 →
       valNameJson gen12 = Except.ok nm2 →
       valOiItr itr2 = Except.ok (PyVal.dict (removeKeys ofs (srcOiItr k))) →
       valBpJson itr2 = Except.ok (PyVal.dict (removeKeys bfs (srcBpItr k))) →
       (parse_itr_json (some js2)).find k = some 0 ∧
       (∀ j ∈ clauseKeys, j ≠ k →
         (parse_itr_json (some js2)).find j = (parse_itr_json (some js)).find j)) := by
  refine ⟨?_, ⟨?_, ?_, ?_, ?_⟩, ?_, ?_, ?_, ?_, ?_, ?_, ?_, ?_⟩
  · intro d1 d2 d3 d4 k hk
    simp only [clauseKeys, List.mem_cons, List.not_mem_nil, or_false] at hk
    rcases hk with rfl | rfl | rfl | rfl | rfl | rfl | rfl <;>
      exact ⟨rfl, rfl, rfl, rfl⟩
  · intro js h
    have hred : parse_3cd_json (some js) =
        (match valFJson js with
         | Except.error _ => zero3CD
         | Except.ok f => if truthy f = true then body3cdJson f else zero3CD) := rfl
    rw [hred, h]
  · intro js f h1 h2
    have hred : parse_3cd_json (some js) =
        (match valFJson js with
         | Except.error _ => zero3CD
         | Except.ok f => if truthy f = true then body3cdJson f else zero3CD) := rfl
    rw [hred, h1]
    simp [h2]
  · intro js h
    have hred : parse_itr_json (some js) =
        (match valItrRoot js with
         | Except.error _ => zeroITR
         | Except.ok itr => if truthy itr = true then bodyItrJson itr else zeroITR) := rfl
    rw [hred, h]
  · intro js itr h1 h2
    have hred : parse_itr_json (some js) =
        (match valItrRoot js with
         | Except.error _ => zeroITR
         | Except.ok itr => if truthy itr = true then bodyItrJson itr else zeroITR) := rfl
    rw [hred, h1]
    simp [h2]
  · intro fs
    exact ⟨absent3cd_c20b fs, absent3cd_c21a fs, absent3cd_c21d fs,
      absent3cd_c21i fs, absent3cd_c22 fs, absent3cd_c32 fs, absent3cd_c43bh fs⟩
  · intro root
    refine ⟨?_, ?_, ?_, ?_, ?_, ?_, ?_⟩
    · intro h1 h2
      simp only [parse_3cd_xml]
      rw [findallNS_eq_nil _ _ h1, findallNS_eq_nil _ _ h2]
      rfl
    · intro h
      simp only [parse_3cd_xml]
      rw [findallNS_eq_nil _ _ h]
      rfl
    · intro h
      simp only [parse_3cd_xml]
      rw [get_xml_text_eq_none _ _ h]
      rfl
    · intro h
      simp only [parse_3cd_xml]
      rw [get_xml_text_eq_none _ _ h]
      rfl
    · intro h
      simp only [parse_3cd_xml]
      rw [get_xml_text_eq_none _ _ h]
      rfl
    · intro h
      simp only [parse_3cd_xml]
      rw [findallNS_eq_nil _ _ h]
      rfl
    · intro h
      simp only [parse_3cd_xml]
      rw [findallNS_eq_nil _ _ h]
      rfl
  · intro itr ofs bfs h3 h4
    exact ⟨absentItr_c20b itr ofs bfs h3 h4,
      absentItr_c21a itr ofs bfs h3 h4,
      absentItr_c21d itr ofs bfs h3 h4,
      absentItr_c21i itr ofs bfs h3 h4,
      absentItr_c22 itr ofs bfs h3 h4,
      absentItr_c32 itr ofs bfs h3 h4,
      absentItr_c43bh itr ofs bfs h3 h4⟩
  · intro root
    refine ⟨?_, ?_, ?_, ?_, ?_, ?_, ?_⟩
    · intro h
      simp only [parse_itr_xml]
      rw [get_xml_text_eq_none _ _ h]
      rfl
    · intro h1 h2
      simp only [parse_itr_xml]
      rw [get_xml_text_eq_none _ _ h1, get_xml_text_eq_none _ _ h2]
      rfl
    · intro h
      simp only [parse_itr_xml]
      rw [get_xml_text_eq_none _ _ h]
      rfl
    · intro h
      simp only [parse_itr_xml]
      rw [get_xml_text_eq_none _ _ h]
      rfl
    · intro h
      simp only [parse_itr_xml]
      rw [get_xml_text_eq_none _ _ h]
      rfl
    · intro h
      simp only [parse_itr_xml]
      rw [get_xml_text_eq_none _ _ h]
      rfl
    · intro h
      simp only [parse_itr_xml]
      rw [get_xml_text_eq_none _ _ h]
      rfl
  · exact frame3cd
  · exact frameAudXml
  · exact frameItrXml
  · exact frameItrJson

/-- Witness for C1 at concrete documents: presence of the keys, a record
built from an empty form (absent fields give 0), an absent-field return
clause, a tagged document with no matching tags, the structured-audit frame
property at a one-field form, and the three remaining frame properties at
documents from which the `c21d` source was removed. -/
theorem claim_C1_witness :
    ((parse_3cd_json Option.none).find "c20b").isSome = true ∧
    (body3cdJson (PyVal.dict [])).c21d = 0 ∧
    (bodyItrJson itrC10).c21d = 0 ∧
    (parse_3cd_xml (some rootC8)).c21d = 0 ∧
    ((body3cdJson (PyVal.dict
        (removeKeys [("AmountDisallowance40A3", PyVal.num 7)]
          (srcKeys3cd "c21d")))).find "c21d" = some 0) ∧
    ((parse_3cd_xml (some audW2)).c21d = 0 ∧
     (parse_3cd_xml (some audW2)).c21i = (parse_3cd_xml (some audW)).c21i) ∧
    ((parse_itr_xml (some itrWx2)).c21d = 0 ∧
     (parse_itr_xml (some itrWx2)).c21i = (parse_itr_xml (some itrWx)).c21i) ∧
    ((parse_itr_json (some jsW2)).find "c21d" = some 0 ∧
     (parse_itr_json (some jsW2)).find "c20b" = (parse_itr_json (some jsW)).find "c20b") :=
  ⟨(claim_C1.1 Option.none Option.none Option.none Option.none "c20b" (by decide)).1,
   (claim_C1.2.2.1 []).2.2.1 rfl,
   ((claim_C1.2.2.2.2.1 itrC10
       [("AmtDisallUs36", PyVal.dict [("EmplyeeContrStatutoryFund", PyVal.num 50)]),
        ("AmtDisallUs37", PyVal.num 3)] [] rfl rfl).2.2.1) rfl,
   ((claim_C1.2.2.2.1 rootC8).2.2.1) (by unfold noTagX; decide),
   (claim_C1.2.2.2.2.2.2.1 "c21d" (by decide)
      [("AmountDisallowance40A3", PyVal.num 7)] ⟨0, 0, 7, 0, 0, 0, 0⟩ (by decide)).1,
   ⟨((claim_C1.2.2.2.2.2.2.2.1 audW audW2).2.2.1
       (by unfold noTagX; decide) rfl rfl rfl rfl rfl rfl rfl).1,
    ((claim_C1.2.2.2.2.2.2.2.1 audW audW2).2.2.1
       (by unfold noTagX; decide) rfl rfl rfl rfl rfl rfl rfl).2.2.2.1⟩,
   ⟨((claim_C1.2.2.2.2.2.2.2.2.1 itrWx itrWx2).2.2.1
       (by unfold noTagX; decide) rfl rfl rfl rfl rfl rfl rfl).1,
    ((claim_C1.2.2.2.2.2.2.2.2.1 itrWx itrWx2).2.2.1
       (by unfold noTagX; decide) rfl rfl rfl rfl rfl rfl rfl).2.2.2.1⟩,
   ⟨(claim_C1.2.2.2.2.2.2.2.2.2 "c21d" (by decide) jsW jsW2 itrW itrW2 ofsW []
       (PyVal.dict []) (PyVal.str "Assessee") ⟨PyVal.str "Assessee", 0, 0, 7, 0, 0, 0, 0⟩
       rfl rfl rfl rfl rfl rfl rfl rfl rfl rfl rfl).1,
    (claim_C1.2.2.2.2.2.2.2.2.2 "c21d" (by decide) jsW jsW2 itrW itrW2 ofsW []
       (PyVal.dict []) (PyVal.str "Assessee") ⟨PyVal.str "Assessee", 0, 0, 7, 0, 0, 0, 0⟩
       rfl rfl rfl rfl rfl rfl rfl rfl rfl rfl rfl).2 "c20b" (by decide) (by decide)⟩⟩

/-- C7 counterexample: a node tagged `ns:Amount` is NOT found by
`get_xml_text(root, "Amount")` — only the `{namespace}` form is stripped —
so the colon-prefixed and bare forms are not found identically, contrary to
the claim. -/
theorem claim_C7_counterexample :
    get_xml_text (XNode.mk "ns:Amount" (some "5") XForest.nil) "Amount" = Option.none ∧
    get_xml_text (XNode.mk "{u}Amount" (some "5") XForest.nil) "Amount" = some "5" ∧
    get_xml_text (XNode.mk "Amount" (some "5") XForest.nil) "Amount" = some "5" :=
  ⟨rfl, rfl, rfl⟩

/-- C7 amended: tagged-tree search strips only a `{namespace}` prefix — the
part up to the last `}` — so `{ns}Amount` and bare `Amount` are found
identically, while a colon-separated prefix `ns:Amount` is not stripped and
matches only the full tag; the first match in depth-first preorder document
order is returned. -/
theorem claim_C7 :
    (∀ (p n : String), ('}' ∈ n.data → False) → localTag (p ++ "\x7d" ++ n) = n) ∧
    (∀ (txt : Option String) (cs : XForest),
        get_xml_text (XNode.mk "{urn:x}Amount" txt cs) "Amount" = txt ∧
        get_xml_text (XNode.mk "Amount" txt cs) "Amount" = txt) ∧
    (∀ txt : Option String,
        get_xml_text (XNode.mk "ns:Amount" txt XForest.nil) "Amount" = Option.none ∧
        get_xml_text (XNode.mk "ns:Amount" txt XForest.nil) "ns:Amount" = txt) ∧
    (∀ t1 t2 : Option String,
        get_xml_text
          (XNode.mk "Root" Option.none (XForest.ofList
            [XNode.mk "Wrap" Option.none
               (XForest.ofList [XNode.mk "{u}Amount" t1 XForest.nil]),
             XNode.mk "Amount" t2 XForest.nil])) "Amount" = t1) := by
  refine ⟨?_, fun txt cs => ⟨rfl, rfl⟩, fun txt => ⟨rfl, rfl⟩, fun t1 t2 => rfl⟩
  intro p n h
  unfold localTag
  have hd : (p ++ "\x7d" ++ n).data = p.data ++ '}' :: n.data := by
    simp [String.data_append]
  rw [hd, List.reverse_append, List.reverse_cons, List.append_assoc,
    List.singleton_append]
  have hall : ∀ x ∈ n.data.reverse, decide (x ≠ '}') = true := by
    intro x hx
    have hxn : x ∈ n.data := List.mem_reverse.mp hx
    have hne : x ≠ '}' := fun hxeq => h (hxeq ▸ hxn)
    simpa using hne
  rw [takeWhile_all_append _ _ _ _ hall (by decide), List.reverse_reverse]

/-- Witness for C7: the brace-prefixed tag `{urn:x}Amount` strips to
`Amount`. -/
theorem claim_C7_witness : localTag ("\x7burn:x" ++ "\x7d" ++ "Amount") = "Amount" :=
  claim_C7.1 "\x7burn:x" "Amount" (by decide)

/-- C9: on content the declared parser rejects (modelled by `Option.none`),
both extractors return the initial record — all clauses zero, and for the
return extractor the placeholder name — and, being total functions, never
propagate an exception. -/
theorem claim_C9 :
    parse_3cd_json Option.none = zero3CD ∧
    parse_3cd_xml Option.none = zero3CD ∧
    parse_itr_json Option.none = zeroITR ∧
    parse_itr_xml Option.none = zeroITR ∧
    zero3CD = ⟨0, 0, 0, 0, 0, 0, 0⟩ ∧
    zeroITR = ⟨PyVal.str "Assessee", 0, 0, 0, 0, 0, 0, 0⟩ :=
  ⟨rfl, rfl, rfl, rfl, rfl, rfl⟩

/-- C8 counterexample: in the tagged format, `c22` is a single direct scalar
lookup, not a sum over sentinel-typed line items: on a document with no
`ParticularType` element at all (so no line item carries the sentinel code,
and the claimed sum is empty) and two `SubClauseeofClause22` elements
(100 and 200), the extractor yields 100 — the first element's text — which
is neither the empty sum 0 nor the total 300. -/
theorem claim_C8_counterexample :
    (parse_3cd_xml (some rootC8)).c22 = 100 ∧
    ((iterNodes rootC8).all
        (fun el => !(localTag el.tag == "ParticularType"))) = true ∧
    (100 : ℚ) ≠ 0 ∧ (100 : ℚ) ≠ 100 + 200 := by
  exact ⟨by decide, by decide, by decide, by decide⟩

/-- C8 amended: in the structured format `c22` is the sum of `Amount4` over
the `Form3cdInadm` items whose `ParticularType` equals `"SEC23"`; in the
tagged format it is the coerced text of the first `SubClauseeofClause22`
element — a single scalar lookup, with no filtering or summation. -/
theorem claim_C8 :
    (∀ root : XNode,
        (parse_3cd_xml (some root)).c22 =
          to_f_text (get_xml_text root "SubClauseeofClause22")) ∧
    (∀ (fs : List (String × PyVal)) (xs : List PyVal),
        lookupD fs "Form3cdInadm" = some (PyVal.list xs) →
        (∀ i ∈ xs, ∃ gs, i = PyVal.dict gs) →
        val22Json (PyVal.dict fs) =
          Except.ok (xs.foldl (fun acc i =>
            if pyEqStr (dictGet i "ParticularType") "SEC23" then
              acc + to_f (dictGet i "Amount4")
            else acc) 0)) := by
  refine ⟨fun root => rfl, ?_⟩
  intro fs xs hl hd
  unfold val22Json
  rw [pyGet_dict, hl]
  simp only [Option.getD_some, exceptBind_ok]
  rw [show pyIter (PyVal.list xs) = Except.ok xs from rfl]
  simp only [exceptBind_ok]
  exact guardSum_char (fun pt => pyEqStr pt "SEC23") "ParticularType" "Amount4" xs 0 hd

/-- Witness for C8 on a concrete two-item `Form3cdInadm` list. -/
theorem claim_C8_witness :
    val22Json (PyVal.dict [("Form3cdInadm", PyVal.list
        [PyVal.dict [("ParticularType", PyVal.str "SEC23"), ("Amount4", PyVal.num 10)],
         PyVal.dict [("ParticularType", PyVal.str "OTHER"), ("Amount4", PyVal.num 99)]])]) =
      Except.ok
        (([PyVal.dict [("ParticularType", PyVal.str "SEC23"), ("Amount4", PyVal.num 10)],
           PyVal.dict [("ParticularType", PyVal.str "OTHER"), ("Amount4", PyVal.num 99)]].foldl
          (fun acc i =>
            if pyEqStr (dictGet i "ParticularType") "SEC23" then
              acc + to_f (dictGet i "Amount4")
            else acc) 0 : ℚ)) :=
  claim_C8.2 _ _ rfl
    (by
      intro i hi
      rcases List.mem_cons.mp hi with h | h
      · exact ⟨_, h⟩
      · rcases List.mem_cons.mp h with h2 | h2
        · exact ⟨_, h2⟩
        · exact absurd h2 (List.not_mem_nil i))

/-- C4 counterexample: in the structured format, a PF line item with
`ActualDate` `"2023-05-01"` and NO due-date field contributes its amount
(the missing date defaults to the empty string, which compares below every
nonempty string), so `c20b = 100`, not 0 as the claim requires for items
missing either date. -/
theorem claim_C4_counterexample :
    (parse_3cd_json (some docC4)).c20b = 100 ∧ (100 : ℚ) ≠ 0 := by
  exact ⟨by decide, by decide⟩

/-- C4 amended: `c20b` sums the coerced `Amount` over the late PF line
items, where: in the tagged format an item is late only when both date
texts are present, nonempty, and the actual date exceeds the due date
lexicographically (an item missing either date is excluded); in the
structured format a missing date field defaults to the empty string, so an
item with a missing actual date is excluded, but an item with a nonempty
actual date and a missing due date is included. -/
theorem claim_C4 :
    (∀ root : XNode,
        (parse_3cd_xml (some root)).c20b =
          ((findallNS root "Form3cdEmpPfSuperann" ++
              findallNS root "Form3cdSect20b").filter pfCond).foldl
            (fun acc i => acc + to_f_text (get_xml_text i "Amount")) 0) ∧
    (∀ item : XNode,
        (get_xml_text item "ActualDate" = Option.none ∨
         get_xml_text item "DueDate" = Option.none) → pfCond item = false) ∧
    (∀ (i : PyVal) (rest : List PyVal) (acc : ℚ) (a d : String) (amt : PyVal),
        pyGet i "ActualDate" (PyVal.str "") = Except.ok (PyVal.str a) →
        pyGet i "DueDate" (PyVal.str "") = Except.ok (PyVal.str d) →
        pyGet i "Amount" PyVal.pynull = Except.ok amt →
        loop20bJson (i :: rest) acc =
          if strLt d a then loop20bJson rest (acc + to_f amt)
          else loop20bJson rest acc) := by
  refine ⟨?_, ?_, ?_⟩
  · intro root
    exact foldl_guard_filter _ _ _ _
  · intro item h
    unfold pfCond
    rcases h with h | h
    · rw [h]
    · cases hA : get_xml_text item "ActualDate" with
      | none => rfl
      | some a => rw [h]
  · intro i rest acc a d amt h1 h2 h3
    simp only [loop20bJson, h1, h2]
    rw [show pyGt (PyVal.str a) (PyVal.str d) = Except.ok (strLt d a) from rfl]
    by_cases hlt : strLt d a
    · simp only [hlt, if_true, h3]
    · simp only [hlt, Bool.false_eq_true, if_false]

/-- Witness for C4 on the item of `docC4` (missing due date, so the due date
reads as `""` and the item is included). -/
theorem claim_C4_witness :
    loop20bJson [itemC4] 0 =
      if strLt "" "2023-05-01" then loop20bJson [] (0 + to_f (PyVal.num 100))
      else loop20bJson [] 0 :=
  claim_C4.2.2 itemC4 [] 0 "2023-05-01" "" (PyVal.num 100) rfl rfl rfl

/-- C5 counterexample: on a structured ITR whose primary summary field
`TotDeprAllowITAct` is 0 while asset-class schedule totals 300 and 200 are
present, the extractor returns `c32 = 0`, not the nonzero fallback total
claimed. -/
theorem claim_C5_counterexample :
    (parse_itr_json (some docC5)).c32 = 0 ∧ (0 : ℚ) ≠ 300 + 200 := by
  exact ⟨by rfl, by decide⟩

/-- C5 amended: the structured `c32` is the coerced primary summary field
and nothing else — there is no fallback: the extraction step depends only on
the `DepreciationAllowITAct32` key of the business schedule, and a primary
chain that yields the number 0 produces `c32 = 0` regardless of any other
schedule totals in the document. -/
theorem claim_C5 :
    (∀ (itr gen1 nm oi bp : PyVal) (q20 q21a q21d q21i q22v q32v q43 : ℚ),
        pyGet itr "PartA_GEN1" (PyVal.dict []) = Except.ok gen1 →
        valNameJson gen1 = Except.ok nm →
        valOiItr itr = Except.ok oi →
        valBpJson itr = Except.ok bp →
        val20bItr oi = Except.ok q20 →
        val21aItr oi bp = Except.ok q21a →
        val21dItr oi = Except.ok q21d →
        val21iItr oi = Except.ok q21i →
        val22Itr oi = Except.ok q22v →
        val32Itr bp = Except.ok q32v →
        val43bhItr oi = Except.ok q43 →
        (bodyItrJson itr).c32 = q32v) ∧
    (∀ bfs : List (String × PyVal),
        val32Itr (PyVal.dict bfs) =
          val32Itr (PyVal.dict (bfs.filter (fun p => p.1 == "DepreciationAllowITAct32")))) ∧
    (∀ bp : PyVal,
        get2 bp "DepreciationAllowITAct32" "TotDeprAllowITAct" = Except.ok (PyVal.num 0) →
        val32Itr bp = Except.ok 0) := by
  refine ⟨?_, ?_, ?_⟩
  · intro itr gen1 nm oi bp q20 q21a q21d q21i q22v q32v q43
      h1 h2 h3 h4 h5 h6 h7 h8 h9 h10 h11
    rw [bodyItr_char itr gen1 nm oi bp q20 q21a q21d q21i q22v q32v q43
      h1 h2 h3 h4 h5 h6 h7 h8 h9 h10 h11]
  · intro bfs
    unfold val32Itr get2
    rw [pyGet_dict, pyGet_dict, lookupD_filter_self]
  · intro bp h
    unfold val32Itr
    rw [h]
    rfl

/-- Witness for C5 at the document `docC5`. -/
theorem claim_C5_witness : (bodyItrJson itrC5).c32 = 0 :=
  claim_C5.1 itrC5 (PyVal.dict []) (PyVal.str "Assessee") (PyVal.dict []) bpC5
    0 0 0 0 0 0 0 rfl rfl rfl rfl rfl rfl rfl rfl rfl rfl rfl

/-- C10: when the document parses and an exception is raised mid-extraction
(here: the clause-21(a) line-item collection is not iterable / its items
have no `.get`), the extractor still returns a record with all seven clause
keys, in which clauses assigned before the exception (c20b; and the name,
for returns) keep their extracted values while the remaining clauses stay
0.0 — a partial record, not an all-zero one. -/
theorem claim_C10 :
    (∀ (f pf : PyVal) (xs : List PyVal) (t : ℚ),
        valPfJson f = Except.ok pf →
        pyIter pf = Except.ok xs →
        loop20bJson xs 0 = Except.ok t →
        val21aJson f = Except.error () →
        body3cdJson f = ⟨t, 0, 0, 0, 0, 0, 0⟩) ∧
    (∀ (itr gen1 nm oi bp : PyVal) (q : ℚ),
        pyGet itr "PartA_GEN1" (PyVal.dict []) = Except.ok gen1 →
        valNameJson gen1 = Except.ok nm →
        valOiItr itr = Except.ok oi →
        valBpJson itr = Except.ok bp →
        val20bItr oi = Except.ok q →
        val21aItr oi bp = Except.error () →
        bodyItrJson itr = ⟨nm, q, 0, 0, 0, 0, 0, 0⟩) := by
  constructor
  · intro f pf xs t h1 h2 h3 h4
    unfold body3cdJson runAll steps3cdJson runE step20bJson stepQ3
    simp only [zero3CD, h1, h2, h3, h4, set20b, set21a]
    rfl
  · intro itr gen1 nm oi bp q h1 h2 h3 h4 h5 h6
    unfold bodyItrJson runAll steps_itrJson runE stepNameItr stepQI
    simp only [zeroITR, h1, h2, h3, h4, h5, h6, exceptBind_ok, setName, setI20b, setI21a]
    rfl

/-- Witness for C10: concrete documents on which the clause-21(a) statement
raises after c20b (and the name) have been extracted; the results are
partial, not all-zero. -/
theorem claim_C10_witness :
    body3cdJson fC10 = ⟨100, 0, 0, 0, 0, 0, 0⟩ ∧
    bodyItrJson itrC10 = ⟨PyVal.str "Assessee", 50, 0, 0, 0, 0, 0, 0⟩ :=
  ⟨claim_C10.1 fC10 (PyVal.list [itemC10]) [itemC10] 100 rfl rfl (by decide) rfl,
   claim_C10.2 itrC10 (PyVal.dict []) (PyVal.str "Assessee") oiC10 (PyVal.dict [])
     50 rfl rfl rfl rfl (by decide) rfl⟩

